import Mathlib

/-!
# Document signing service

A shallow embedding of the document signing service (`DocumentHasher`,
`file_utils`, `SignatureService`, `HtmlTemplateProcessor`, `parsers`, the writer
thread of `LoggerService`, the worker thread of `WkHtmlToPdfWrapper`, and the
collaborators they call) together with the properties of its specification.

Conventions of the embedding:

* a `std::string` and a byte buffer are lists of bytes (`Str`);
* a C++ exception is a value of `Exn`; a function that may throw returns
  `Except Exn _`;
* the file system is a finite map from paths to contents;
* libraries that are not part of the repository (libgcrypt, wkhtmltopdf,
  PoDoFo, the JSON library, the SMS provider, the clock) are parameters of the
  model;
* an object with a thread of its own is a step relation: a state, the steps of
  the callers and of the thread, and runs that interleave them in any order.
-/

namespace DocSign

/-! ## Bytes, strings, exceptions, files -/

/-- One `unsigned char`. -/
abbrev Byte := Fin 256

/-- A `std::string` (or any byte buffer): its sequence of bytes. -/
abbrev Str := List Byte

/-- The bytes of an ASCII string literal of the source. -/
def lit (s : String) : Str := s.toList.map (fun c => Fin.ofNat c.toNat)

/-- C++ exceptions thrown in the repository. `other` stands for a thrown value
that does not derive from `std::exception` (only `catch (...)` handles it). -/
inductive Exn where
  | invalid_argument (what : Str)
  | runtime_error (what : Str)
  | other
deriving DecidableEq, Repr

/-- The `what()` of an exception caught as `const std::exception&`; `none` when
the thrown value is not a `std::exception`. -/
def Exn.what? : Exn → Option Str
  | .invalid_argument w => some w
  | .runtime_error w => some w
  | .other => none

/-- The file system: the regular files that exist, with their contents. -/
abbrev FileSystem := List (Str × List Byte)

/-- Content of the file at `path`, `none` when it cannot be opened. -/
def readFile (fs : FileSystem) (path : Str) : Option (List Byte) :=
  match fs with
  | [] => none
  | (p, c) :: rest => if p = path then some c else readFile rest path

/-- The call `fs::exists(path)`. -/
def fileExists (fs : FileSystem) (path : Str) : Bool := (readFile fs path).isSome

/-- The call `fs::remove(path)`. -/
def removeFile (fs : FileSystem) (path : Str) : FileSystem :=
  fs.filter (fun e => decide (e.1 ≠ path))

/-- Create or overwrite the file at `path`. -/
def writeFile (fs : FileSystem) (path : Str) (content : List Byte) : FileSystem :=
  (path, content) :: removeFile fs path

/-! ## DocumentHasher (document_hasher.cpp) -/

/-- The libgcrypt message-digest interface as `DocumentHasher` uses it:
whether `gcry_md_open(&context, GCRY_MD_STRIBOG256, 0)` succeeds, and what
`gcry_md_read` returns once the given bytes have been written to the context
(`none` is a null pointer, `some p` the digest memory, `p i` its byte `i`). -/
structure Gcrypt where
  md_open_ok : Bool
  md_read : List Byte → Option (Nat → Byte)

/-- The constant `HASH_BUFFER_SIZE` of document_hasher.hpp. -/
def HASH_BUFFER_SIZE : Nat := 16384

/-- The constant `STRIBOG_HASH_LENGTH` of document_hasher.hpp. -/
def STRIBOG_HASH_LENGTH : Nat := 32

/-- The object state of a `DocumentHasher`. -/
structure DocumentHasher where
  is_initialized_ : Bool
deriving DecidableEq, Repr

/-- The constructor: `initializeLibgcrypt()` sets `is_initialized_`. -/
def DocumentHasher.new : DocumentHasher := { is_initialized_ := true }

/-- The read loop
`while (file.read(buffer.data(), buffer.size()) || file.gcount() > 0)
   gcry_md_write(context, buffer.data(), file.gcount());`
over the unread part `rest` of the file; `ctx` is what has been written to the
hash context so far. `file.read` delivers `rest.take bufSize` and succeeds when
that is a full buffer; `gcount` is the number of bytes delivered. The first
argument bounds the number of iterations. -/
def readLoop (bufSize : Nat) : Nat → List Byte → List Byte → List Byte
  | 0, _, ctx => ctx
  | fuel + 1, rest, ctx =>
    let chunk := rest.take bufSize
    if chunk.length = bufSize ∨ 0 < chunk.length then
      readLoop bufSize fuel (rest.drop bufSize) (ctx ++ chunk)
    else ctx

/-- The method `DocumentHasher::calculateCompositeHash`. -/
def calculateCompositeHash (lib : Gcrypt) (self : DocumentHasher) (fs : FileSystem)
    (file_path user_name user_phone confirmation_code signing_time : Str) :
    Except Exn (List Byte) :=
  if file_path = [] then
    .error (.invalid_argument (lit "File path cannot be empty"))
  else if user_name = [] ∨ user_phone = [] ∨ confirmation_code = [] ∨ signing_time = [] then
    .error (.invalid_argument (lit "All metadata parameters must be non-empty"))
  else if !self.is_initialized_ then
    .error (.runtime_error (lit "Libgcrypt not initialized"))
  else if !lib.md_open_ok then
    .error (.runtime_error (lit "Failed to initialize hash context"))
  else
    match readFile fs file_path with
    | none => .error (.runtime_error (lit "Failed to open file: " ++ file_path))
    | some content =>
      if content.length = 0 then
        .error (.runtime_error (lit "File is empty: " ++ file_path))
      else
        let context := readLoop HASH_BUFFER_SIZE (content.length + 1) content []
        let delimiter := lit "|"
        let context := context ++ user_name
        let context := context ++ delimiter
        let context := context ++ user_phone
        let context := context ++ delimiter
        let context := context ++ confirmation_code
        let context := context ++ delimiter
        let context := context ++ signing_time
        match lib.md_read context with
        | none => .error (.runtime_error (lit "Failed to read hash digest"))
        | some digest => .ok ((List.range STRIBOG_HASH_LENGTH).map digest)

/-- One hexadecimal digit as `snprintf` with `%02x` prints it. -/
def hexDigit (n : Nat) : Byte :=
  if n < 10 then Fin.ofNat (48 + n) else Fin.ofNat (87 + n)

/-- The function `DocumentHasher::hashToHex`. -/
def hashToHex (hash : List Byte) : Except Exn Str :=
  if hash = [] then
    .error (.invalid_argument (lit "Hash vector cannot be empty"))
  else
    .ok (hash.foldl (fun hex_string byte =>
      hex_string ++ [hexDigit (byte.val / 16), hexDigit (byte.val % 16)]) [])

/-- The function `std::tolower` on an `unsigned char` (C locale). -/
def tolower (c : Byte) : Byte :=
  if 65 ≤ c.val ∧ c.val ≤ 90 then Fin.ofNat (c.val + 32) else c

/-- The method `DocumentHasher::toLowercase`. -/
def toLowercase (str : Str) : Str :=
  if str = [] then str else str.map tolower

/-- The method `DocumentHasher::compareHashes`: the accumulator `result` collects
`hash1[i] ^ hash2[i]` with `|=`. The characters are taken by their unsigned
value; integer promotion of a signed `char` changes neither whether an XOR is
zero nor whether the accumulated OR is. -/
def compareHashes (hash1 hash2 : Str) : Bool :=
  if hash1.length ≠ hash2.length then false
  else
    let result := (List.zip hash1 hash2).foldl
      (fun (result : Nat) p => result ||| (p.1.val ^^^ p.2.val)) 0
    result == 0

/-- The method `DocumentHasher::verifyCompositeHash`. -/
def verifyCompositeHash (lib : Gcrypt) (self : DocumentHasher) (fs : FileSystem)
    (file_path user_name user_phone verification_code signing_time expected_hash_hex : Str) :
    Except Exn Bool :=
  if expected_hash_hex = [] then
    .error (.invalid_argument (lit "Expected hash cannot be empty"))
  else
    let body : Except Exn Bool :=
      match calculateCompositeHash lib self fs file_path user_name user_phone
          verification_code signing_time with
      | .error e => .error e
      | .ok computed_hash =>
        match hashToHex computed_hash with
        | .error e => .error e
        | .ok computed_hash_hex =>
          let expected_lower := toLowercase expected_hash_hex
          .ok (compareHashes computed_hash_hex expected_lower)
    match body with
    | .ok b => .ok b
    | .error e =>
      match e.what? with
      | some w => .error (.runtime_error (lit "Verification failed: " ++ w))
      | none => .error e

/-! ## Common types (common_types.hpp) -/

/-- The service configuration `Config`. -/
structure Config where
  html_template_path : Str := []
  message_template_path : Str := []
  env_file_path : Str := []
  log_file_path : Str := []
  temp_dir : Str := []
  fonts_dir : Str := []
  output_pdf_dir : Str := []
  auth_token : Str := []
deriving DecidableEq, Repr, Inhabited

/-- Result of the preparation step. -/
structure DocumentPreparationResult where
  temp_html_path : Str := []
  temp_pdf_path : Str := []
deriving DecidableEq, Repr, Inhabited

/-- Result of the message sending step. -/
structure MessageSendingResult where
  phone_number : Str := []
  message_text : Str := []
deriving DecidableEq, Repr, Inhabited

/-- Result of the signing step. -/
structure DocumentSigningResult where
  first_name : Str := []
  middle_name : Str := []
  last_name : Str := []
  phone_number : Str := []
  confirmation_code : Str := []
  signing_time : Str := []
  document_hash : Str := []
  signed_pdf_path : Str := []
deriving DecidableEq, Repr, Inhabited

/-- Identity data of the signer. -/
structure UserIdentity where
  first_name : Str := []
  middle_name : Str := []
  last_name : Str := []
  passport_number : Str := []
  passport_series : Str := []
  passport_issued_by : Str := []
  passport_issued_date : Str := []
  passport_unite_code : Str := []
  passport_birthday_date : Str := []
  passport_birthday_place : Str := []
  passport_registration_address : Str := []
  passport_registration_date : Str := []
  email : Str := []
  phone_number : Str := []
deriving DecidableEq, Repr, Inhabited

/-- Data of the electronic signature. -/
structure DocumentSignature where
  confirmation_code : Str := []
  document_hash : Str := []
  signing_time : Str := []
deriving DecidableEq, Repr, Inhabited

/-- What the stamp shows. -/
structure SignerData where
  identity : UserIdentity := {}
  signature : DocumentSignature := {}
deriving DecidableEq, Repr, Inhabited

/-- The enumeration `ErrorCode`. -/
inductive ErrorCode where
  | SUCCESS
  | INIT_SERVICE_ERROR
  | INVALID_USER_DATA
  | INVALID_JSON
  | INVALID_AUTH_TOKEN
  | FILE_IO_ERROR
  | HTML_REPLACE_ERROR
  | PDF_GENERATION_ERROR
  | SMS_SEND_ERROR
  | AUTHENTICATION_FAILED
  | STAMP_APPLICATION_ERROR
  | INVALID_CONFIG
  | CREDENTIALS_ERROR
  | SERVICE_SHUTDOWN
  | UNKNOWN_ERROR
deriving DecidableEq, Repr, Inhabited

/-- The class template `Result<T>`: an error code, an error message and a value
(value-initialised when the result is an error). -/
structure Result (T : Type) where
  error_code_ : ErrorCode
  error_message_ : Str
  value_ : T
deriving DecidableEq, Repr

/-- The factory `Result<T>::success(value)`. -/
def Result.success {T : Type} (value : T) : Result T :=
  { error_code_ := .SUCCESS, error_message_ := [], value_ := value }

/-- The factory `Result<T>::error(code, message)`. -/
def Result.error {T : Type} [Inhabited T] (code : ErrorCode) (message : Str) : Result T :=
  { error_code_ := code, error_message_ := message, value_ := default }

/-- The method `Result<T>::isSuccess`. -/
def Result.isSuccess {T : Type} (r : Result T) : Bool := decide (r.error_code_ = .SUCCESS)

/-- The method `Result<T>::isError`. -/
def Result.isError {T : Type} (r : Result T) : Bool := !r.isSuccess

/-! ## LoggerService (logger.cpp), the producer side -/

/-- The enumeration `LoggerService::MESSAGE_TYPE`. -/
inductive MESSAGE_TYPE where
  | SUCCESS
  | ERROR
  | WARNING
  | INFO
deriving DecidableEq, Repr

/-- The flag `enabled_` and the queue `log_queue_` of a `LoggerService`. -/
structure LoggerService where
  enabled_ : Bool := false
  log_queue_ : List Str := []
deriving DecidableEq, Repr

/-- The method `LoggerService::messageTypeToString`. -/
def messageTypeToString : MESSAGE_TYPE → Str
  | .SUCCESS => lit "SUCCESS"
  | .ERROR => lit "ERROR"
  | .WARNING => lit "WARNING"
  | .INFO => lit "INFO"

/-- The method `LoggerService::createLogEntry`; `now` is what
`time_utils::getCurrentTimeWithTimezone(3, 0)` returns and `thread_id` the
printed id of the calling thread. -/
def createLogEntry (now thread_id : Str) (message_type : MESSAGE_TYPE) (message : Str) : Str :=
  lit "[" ++ now ++ lit "] " ++
  lit "[" ++ messageTypeToString message_type ++ lit "] " ++
  lit "[Thread:" ++ thread_id ++ lit "] " ++
  message

/-- The method `LoggerService::log`. -/
def LoggerService.log (self : LoggerService) (now thread_id : Str)
    (message_type : MESSAGE_TYPE) (message : Str) : LoggerService :=
  if !self.enabled_ then self
  else { self with log_queue_ := self.log_queue_ ++ [createLogEntry now thread_id message_type message] }

/-- The method `LoggerService::enable`. -/
def LoggerService.enable (self : LoggerService) : LoggerService := { self with enabled_ := true }

/-- The method `LoggerService::disable`. -/
def LoggerService.disable (self : LoggerService) : LoggerService := { self with enabled_ := false }

/-! ## External collaborators and the state of the service -/

/-- The struct `ProviderSendingResult` of message_service.hpp. -/
structure ProviderSendingResult where
  status : Str := []
  description : Str := []
  id : Str := []
deriving DecidableEq, Repr, Inhabited

/-- The wkhtmltopdf C library as `HtmlToPdfConverter::convertFile` uses it:
whether `wkhtmltopdf_create_converter` and `wkhtmltopdf_create_object_settings`
return a non-null pointer, and, for the content of the input page (`none` when
the page file does not exist), the return value of `wkhtmltopdf_convert` with
the bytes it leaves at the output path (`none`: no output file written). -/
structure WkHtmlToPdf where
  create_converter_ok : Bool
  create_object_settings_ok : Bool
  convert : Option (List Byte) → Int × Option (List Byte)

/-- A call into a collaborator, recorded in the order the calls are made. The
record is ghost state: it is only used to state which collaborators a call of
the service reached. -/
inductive Event where
  | copy_file (source target : Str)
  | replace_placeholders (html_file_path : Str)
  | convert (input_html_path output_pdf_path : Str)
  | send_code (phone code : Str)
  | check_status (id : Str)
  | composite_hash (file_path : Str)
  | apply_stamp (input_file output_file : Str)
  | set_credentials (login password : Str)
  | random_digits (length : Int)
deriving DecidableEq, Repr

/-- Everything outside the repository that a call of the service depends on. -/
structure Env where
  /-- The libgcrypt digest. -/
  gcrypt : Gcrypt
  /-- The wkhtmltopdf library. -/
  wk : WkHtmlToPdf
  /-- What `time_utils::getCurrentTimeWithTimezone(3, 0)` returns. -/
  current_time : Str
  /-- The printed id of the calling thread. -/
  thread_id : Str
  /-- The clock reading, the hash of the thread id and the random number drawn
  by the call of `generateUniqueFilename` that fetches the given counter value. -/
  unique_parts : Nat → Nat × Nat × Nat
  /-- Whether the directory exists or can be created (`ensureDirectoryExists`). -/
  ensure_directory : Str → Bool
  /-- The error message of `fs::copy_file(source, target)`, `none` on success. -/
  copy_error : Str → Str → Option Str
  /-- JSON serialisation of the identity, parsing and placeholder replacement on
  the content of the HTML file: the new content, `none` when a step reports
  failure (the file is left as it is), or the exception thrown. -/
  populate : UserIdentity → List Byte → Except Exn (Option (List Byte))
  /-- The method `MessageService::sendConfirmationCodeWitnStatus(phone, code)`. -/
  send_confirmation_code : Str → Str → Except Exn ProviderSendingResult
  /-- The method `MessageService::submitCheckMessageStatus`. -/
  check_message_status : ProviderSendingResult → Str
  /-- The function `PdfStamper::applyStamp` on the content of its input file: the
  value it returns and the bytes it saves at the output path, if any. -/
  apply_stamp : Option (List Byte) → SignerData → Bool × Option (List Byte)
  /-- The method `MessageService::setServiceCredentionals(login, password)`: the
  value it returns and the file system it leaves. -/
  set_credentials : Str → Str → FileSystem → Bool × FileSystem
  /-- The `i`-th draw of `std::uniform_int_distribution<int>(0, 9)`. -/
  random_digit : Nat → Fin 10

/-- The state a call of the service reads and writes. -/
structure World where
  /-- The files on disk. -/
  fs : FileSystem := []
  /-- The member `SignatureService::config_`. -/
  config_ : Config := {}
  /-- The member `SignatureService::logger_`. -/
  logger_ : LoggerService := {}
  /-- The member `SignatureService::document_hasher_`. -/
  document_hasher_ : DocumentHasher := DocumentHasher.new
  /-- The process-wide counter of `file_utils::get_file_counter()` (a `uint64_t`). -/
  file_counter : Nat := 0
  /-- The flag `WkHtmlToPdfWrapper::initialized_` of the singleton. -/
  wk_initialized_ : Bool := false
  /-- The collaborator calls made so far. -/
  trace : List Event := []

/-- Append a collaborator call to the record. -/
def World.record (w : World) (e : Event) : World := { w with trace := w.trace ++ [e] }

/-- The call `logger_->log(message_type, message)`. -/
def World.log (env : Env) (message_type : MESSAGE_TYPE) (message : Str) (w : World) : World :=
  { w with logger_ := w.logger_.log env.current_time env.thread_id message_type message }

/-- The call `logger_->logInfo(message)`. -/
def logInfo (env : Env) (message : Str) (w : World) : World := w.log env .INFO message

/-- The call `logger_->logError(message)`. -/
def logError (env : Env) (message : Str) (w : World) : World := w.log env .ERROR message

/-- The call `logger_->logSuccess(message)`. -/
def logSuccess (env : Env) (message : Str) (w : World) : World := w.log env .SUCCESS message

/-! ## file_utils (file_utils.cpp) -/

/-- Decimal digits of `n`, most significant first; the first argument bounds the
number of digits. -/
def decimalDigits : Nat → Nat → Str
  | 0, _ => []
  | fuel + 1, n =>
    if n < 10 then [Fin.ofNat (48 + n)]
    else decimalDigits fuel (n / 10) ++ [Fin.ofNat (48 + n % 10)]

/-- The function `std::to_string` on an unsigned integer. -/
def to_string (n : Nat) : Str := decimalDigits (n + 1) n

/-- The function `file_utils::generateUniqueFilename`: the counter is fetched and
incremented (`fetch_add(1)` on a `uint64_t`). -/
def generateUniqueFilename (env : Env) (pfx sfx : Str) (w : World) : Str × World :=
  let counter := w.file_counter
  let now := (env.unique_parts counter).1
  let thread_id := (env.unique_parts counter).2.1
  let random := (env.unique_parts counter).2.2
  (pfx ++
     to_string now ++ lit "_" ++
     to_string thread_id ++ lit "_" ++
     to_string counter ++ lit "_" ++
     to_string random ++
     sfx,
   { w with file_counter := (counter + 1) % 2 ^ 64 })

/-- The function `file_utils::createTempCopyWithUniqueFilename`. -/
def createTempCopyWithUniqueFilename (env : Env) (original_path pfx sfx temp_dir : Str)
    (w : World) : Except Exn Str × World :=
  if !env.ensure_directory temp_dir then
    (.error (.runtime_error (lit "Failed to create temp directory: " ++ temp_dir)), w)
  else
    match readFile w.fs original_path with
    | none => (.error (.runtime_error (lit "Original file not found: " ++ original_path)), w)
    | some content =>
      let named := generateUniqueFilename env pfx sfx w
      let temp_filename := temp_dir ++ lit "/" ++ named.1
      let w := named.2.record (.copy_file original_path temp_filename)
      match env.copy_error original_path temp_filename with
      | some message => (.error (.runtime_error (lit "Failed to copy file: " ++ message)), w)
      | none => (.ok temp_filename, { w with fs := writeFile w.fs temp_filename content })

/-- The function `file_utils::cleanupTempFiles`: every non-empty path that exists
is removed. -/
def cleanupTempFiles (files : List Str) (w : World) : World :=
  { w with fs := files.foldl (fun fs file_path =>
      if file_path ≠ [] then
        (if fileExists fs file_path then removeFile fs file_path else fs)
      else fs) w.fs }

/-! ## Templating, rendering, messaging entry points used by the service -/

/-- The function `HtmlTemplateProcessor::replacePlaceholdersFromJsonData` applied
to `parsers::parseUserIdentityToJsonString(user_identity)`. -/
def replacePlaceholdersFromJsonData (env : Env) (user_identity : UserIdentity)
    (html_file_path : Str) (w : World) : Except Exn Bool × World :=
  let w := w.record (.replace_placeholders html_file_path)
  match readFile w.fs html_file_path with
  | none => (.ok false, w)
  | some html_content =>
    match env.populate user_identity html_content with
    | .error e => (.error e, w)
    | .ok none => (.ok false, w)
    | .ok (some processed_content) =>
      (.ok true, { w with fs := writeFile w.fs html_file_path processed_content })

/-- The function `HtmlToPdfConverter::convertFile`: the return value of
`wkhtmltopdf_convert` is not looked at. -/
def convertFile (env : Env) (input_html_path output_pdf_path : Str) (w : World) :
    Bool × World :=
  if !env.wk.create_converter_ok then (false, w)
  else if !env.wk.create_object_settings_ok then (false, w)
  else
    let conversion := env.wk.convert (readFile w.fs input_html_path)
    let w := match conversion.2 with
      | some pdf => { w with fs := writeFile w.fs output_pdf_path pdf }
      | none => w
    (true, w)

/-- The method `WkHtmlToPdfWrapper::convertSync`: the task is queued and the
caller waits for the worker to run `convertFile` on it. -/
def convertSync (env : Env) (input_html_path output_pdf_path : Str) (w : World) :
    Bool × World :=
  if !w.wk_initialized_ then (false, w)
  else convertFile env input_html_path output_pdf_path
    (w.record (.convert input_html_path output_pdf_path))

/-- The function `MessageService::generateConfirmationCode(length)`. -/
def MessageService.generateConfirmationCode (env : Env) (length : Int) : Str :=
  (List.range length.toNat).foldl
    (fun code i => code ++ to_string (env.random_digit i).val) []

/-! ## SignatureService (signature_service.cpp) -/

/-- The method `SignatureService::isAuthTokenValid`. -/
def isAuthTokenValid (w : World) (auth_token : Str) : Result Bool :=
  if w.config_.auth_token ≠ auth_token then
    Result.error .INVALID_AUTH_TOKEN (lit "Invalid authorization token")
  else Result.success true

/-- The method `SignatureService::isUserIdentityHasAllFields`. -/
def isUserIdentityHasAllFields (user : UserIdentity) : Result Bool :=
  if user.first_name = [] ∨
     user.middle_name = [] ∨
     user.last_name = [] ∨
     user.passport_series = [] ∨
     user.passport_number = [] ∨
     user.passport_issued_by = [] ∨
     user.passport_issued_date = [] ∨
     user.passport_unite_code = [] ∨
     user.passport_birthday_date = [] ∨
     user.passport_birthday_place = [] ∨
     user.passport_registration_address = [] ∨
     user.passport_registration_date = [] ∨
     user.email = [] ∨
     user.phone_number = [] then
    Result.error .INVALID_USER_DATA (lit "Invalid user data")
  else Result.success true

/-- The method `SignatureService::isUserIdentityHasReqFields`. -/
def isUserIdentityHasReqFields (user : UserIdentity) : Result Bool :=
  if user.first_name = [] ∨
     user.middle_name = [] ∨
     user.last_name = [] ∨
     user.phone_number = [] then
    Result.error .INVALID_USER_DATA (lit "Invalid user data")
  else Result.success true

/-- The handler `catch (const std::exception& e)` of `prepareDocumentForSigning`;
any other thrown value leaves the function. -/
def prepareCatch (env : Env) (result : DocumentPreparationResult) (e : Exn) (w : World) :
    Except Exn (Result DocumentPreparationResult) × World :=
  match e.what? with
  | some what =>
    let w := cleanupTempFiles [result.temp_html_path, result.temp_pdf_path] w
    let w := logError env (lit "SignatureService: document preparation exception: " ++ what) w
    (.ok (Result.error .UNKNOWN_ERROR (lit "Unknown preparation failed: " ++ what)), w)
  | none => (.error e, w)

/-- The method `SignatureService::prepareDocumentForSigning`. -/
def prepareDocumentForSigning (env : Env) (user_identity : UserIdentity) (w : World) :
    Except Exn (Result DocumentPreparationResult) × World :=
  let current_config := w.config_
  match createTempCopyWithUniqueFilename env current_config.html_template_path
      (lit "template_") (lit ".html") current_config.temp_dir w with
  | (.error e, w) => prepareCatch env {} e w
  | (.ok temp_html_path, w) =>
    let result : DocumentPreparationResult := { temp_html_path := temp_html_path }
    match replacePlaceholdersFromJsonData env user_identity result.temp_html_path w with
    | (.error e, w) => prepareCatch env result e w
    | (.ok false, w) =>
      let w := cleanupTempFiles [result.temp_html_path] w
      let w := logError env (lit "SignatureService: HTML template processing failed") w
      (.ok (Result.error .HTML_REPLACE_ERROR
        (lit "Failed to replace user identity in HTML-template")), w)
    | (.ok true, w) =>
      let named := generateUniqueFilename env (lit "temp_document_") (lit ".pdf") w
      let result : DocumentPreparationResult :=
        { result with temp_pdf_path := current_config.temp_dir ++ lit "/" ++ named.1 }
      match convertSync env result.temp_html_path result.temp_pdf_path named.2 with
      | (false, w) =>
        let w := cleanupTempFiles [result.temp_html_path] w
        let w := logError env (lit "SignatureService: HTML to PDF conversion failed") w
        (.ok (Result.error .PDF_GENERATION_ERROR (lit "Failed to convert HTML to PDF")), w)
      | (true, w) =>
        let w := logInfo env (lit "SignatureService: document prepared successfully") w
        (.ok (Result.success result), w)

/-- The method `SignatureService::sendMessageToPhone`. -/
def sendMessageToPhone (env : Env) (test_mode : Bool) (phone_number message_text : Str)
    (w : World) : Except Exn (Result MessageSendingResult) × World :=
  let result : MessageSendingResult :=
    { phone_number := phone_number, message_text := message_text }
  if !test_mode then
    let w := w.record (.send_code result.phone_number result.message_text)
    match env.send_confirmation_code result.phone_number result.message_text with
    | .error e =>
      match e.what? with
      | some what =>
        let w := logError env (lit "SignatureService: SMS sending exception: " ++ what) w
        (.ok (Result.error .UNKNOWN_ERROR (lit "Unknown message sending failed: " ++ what)), w)
      | none => (.error e, w)
    | .ok sending_result =>
      let w := logInfo env (lit "SignatureService: sending SMS to: " ++ phone_number) w
      let w := logInfo env (lit "SignatureService: Responcse from IQSMS: " ++
        sending_result.status ++ lit ";" ++ sending_result.id) w
      let w := w.record (.check_status sending_result.id)
      let sending_status := env.check_message_status sending_result
      let w := logInfo env (lit "SignatureService: SMS status from IQSMS: " ++ sending_status) w
      if sending_result.status ≠ lit "accepted" then
        let w := logError env (lit "SignatureService: SMS sending failed to: " ++ phone_number) w
        (.ok (Result.error .SMS_SEND_ERROR (lit "Message sending failed!")), w)
      else (.ok (Result.success result), w)
  else
    let w := logInfo env (lit "SignatureService: test mode - SMS not sent to: " ++ phone_number) w
    (.ok (Result.success result), w)

/-- The handler `catch (const std::exception& e)` of `createStampOnPdf`; any other
thrown value leaves the function. -/
def stampCatch (prep_result : DocumentPreparationResult) (e : Exn) (w : World) :
    Except Exn (Result DocumentSigningResult) × World :=
  match e.what? with
  | some what =>
    let w := cleanupTempFiles [prep_result.temp_pdf_path, prep_result.temp_html_path] w
    (.ok (Result.error .UNKNOWN_ERROR (lit "Document signing failed: " ++ what)), w)
  | none => (.error e, w)

/-- The method `SignatureService::createStampOnPdf`. After the first check both
results are successes, so `getValue()` returns their `value_`. -/
def createStampOnPdf (env : Env) (user_identity : UserIdentity)
    (document_preparation_result : Result DocumentPreparationResult)
    (message_sending_result : Result MessageSendingResult) (w : World) :
    Except Exn (Result DocumentSigningResult) × World :=
  if document_preparation_result.isError || message_sending_result.isError then
    (.ok (Result.error message_sending_result.error_code_
      message_sending_result.error_message_), w)
  else
    let prep_result := document_preparation_result.value_
    let msg_result := message_sending_result.value_
    let result : DocumentSigningResult :=
      { first_name := user_identity.first_name
        middle_name := user_identity.middle_name
        last_name := user_identity.last_name
        confirmation_code := msg_result.message_text
        phone_number := msg_result.phone_number
        signing_time := env.current_time }
    let w := w.record (.composite_hash prep_result.temp_pdf_path)
    match calculateCompositeHash env.gcrypt w.document_hasher_ w.fs prep_result.temp_pdf_path
        (result.first_name ++ lit " " ++ result.middle_name ++ lit " " ++ result.last_name)
        result.phone_number result.confirmation_code result.signing_time with
    | .error e => stampCatch prep_result e w
    | .ok hash =>
      match hashToHex hash with
      | .error e => stampCatch prep_result e w
      | .ok document_hash =>
        let result := { result with document_hash := document_hash }
        let signer_data : SignerData :=
          { identity := user_identity
            signature :=
              { confirmation_code := result.confirmation_code
                document_hash := result.document_hash
                signing_time := result.signing_time } }
        let named := generateUniqueFilename env (lit "signed_document_") (lit ".pdf") w
        let w := named.2
        let result :=
          { result with signed_pdf_path := w.config_.output_pdf_dir ++ lit "/" ++ named.1 }
        let w := w.record (.apply_stamp prep_result.temp_pdf_path result.signed_pdf_path)
        let stamped := env.apply_stamp (readFile w.fs prep_result.temp_pdf_path) signer_data
        let w := match stamped.2 with
          | some pdf => { w with fs := writeFile w.fs result.signed_pdf_path pdf }
          | none => w
        if !stamped.1 then
          let w := cleanupTempFiles [prep_result.temp_pdf_path] w
          (.ok (Result.error .STAMP_APPLICATION_ERROR (lit "Stamp appliacation failed!")), w)
        else
          let w := cleanupTempFiles [prep_result.temp_pdf_path, prep_result.temp_html_path] w
          (.ok (Result.success result), w)

/-- The `try` block of `SignatureService::signDocument`. -/
def signDocumentBody (env : Env) (auth_token : Str) (test_mode need_all_user_data_fields : Bool)
    (user_identity : UserIdentity) (confirmation_code : Str) (w : World) :
    Except Exn (Result DocumentSigningResult) × World :=
  let auth_result := isAuthTokenValid w auth_token
  if auth_result.isError then
    let w := logError env (lit "SignatureService: authentication failed") w
    (.ok (Result.error auth_result.error_code_ auth_result.error_message_), w)
  else if confirmation_code = lit "LOG_ON" then
    let w := { w with logger_ := w.logger_.enable }
    let w := logInfo env (lit "SignatureService: logger was started") w
    (.ok (Result.error .UNKNOWN_ERROR (lit "Unexpected error in signDocument: ")), w)
  else if confirmation_code = lit "LOG_OFF" then
    let w := logInfo env (lit "SignatureService: logger was stoped") w
    let w := { w with logger_ := w.logger_.disable }
    (.ok (Result.error .UNKNOWN_ERROR (lit "Unexpected error in signDocument: ")), w)
  else
    let validation_result :=
      if need_all_user_data_fields then isUserIdentityHasAllFields user_identity
      else isUserIdentityHasReqFields user_identity
    if validation_result.isError then
      let w := logError env
        (lit "SignatureService: user validation failed for: " ++ user_identity.phone_number) w
      (.ok (Result.error validation_result.error_code_ validation_result.error_message_), w)
    else
      let w := logInfo env (lit "SignatureService: preparing document for signing") w
      match prepareDocumentForSigning env user_identity w with
      | (.error e, w) => (.error e, w)
      | (.ok prep_result, w) =>
        if prep_result.isError then
          let w := logError env (lit "SignatureService: document preparation failed") w
          (.ok (Result.error prep_result.error_code_ prep_result.error_message_), w)
        else
          match sendMessageToPhone env test_mode user_identity.phone_number
              confirmation_code w with
          | (.error e, w) => (.error e, w)
          | (.ok msg_result, w) =>
            if msg_result.isError then
              let w := logError env (lit "SignatureService: message sending failed") w
              (.ok (Result.error msg_result.error_code_ msg_result.error_message_), w)
            else
              let w := logInfo env (lit "SignatureService: creating PDF stamp") w
              match createStampOnPdf env user_identity prep_result msg_result w with
              | (.error e, w) => (.error e, w)
              | (.ok sign_result, w) =>
                if sign_result.isError then
                  let w := logError env (lit "SignatureService: PDF stamp creation failed") w
                  (.ok (Result.error sign_result.error_code_ sign_result.error_message_), w)
                else
                  let w := logSuccess env
                    (lit "SignatureService: document signed successfully for: " ++
                      user_identity.phone_number) w
                  (.ok sign_result, w)

/-- The method `SignatureService::signDocument`: the `try` block with its two
handlers. -/
def signDocument (env : Env) (auth_token : Str) (test_mode need_all_user_data_fields : Bool)
    (user_identity : UserIdentity) (confirmation_code : Str) (w : World) :
    Result DocumentSigningResult × World :=
  match signDocumentBody env auth_token test_mode need_all_user_data_fields user_identity
      confirmation_code w with
  | (.ok result, w) => (result, w)
  | (.error e, w) =>
    match e.what? with
    | some what =>
      let w := logError env
        (lit "SignatureService: unexpected error in signDocument: " ++ what) w
      (Result.error .UNKNOWN_ERROR (lit "Unexpected error in signDocument: " ++ what), w)
    | none =>
      (Result.error .UNKNOWN_ERROR (lit "Unknown unexpected error in signDocument"), w)

/-- The method `SignatureService::setMessageServiceCreds`. -/
def setMessageServiceCreds (env : Env) (auth_token login password : Str) (w : World) :
    Result Bool × World :=
  let auth_result := isAuthTokenValid w auth_token
  if auth_result.isError then
    (Result.error auth_result.error_code_ auth_result.error_message_, w)
  else
    let w := w.record (.set_credentials login password)
    let outcome := env.set_credentials login password w.fs
    let w := { w with fs := outcome.2 }
    if !outcome.1 then
      (Result.error .CREDENTIALS_ERROR
        (lit "The message service credentials could not be set"), w)
    else (Result.success true, w)

/-- The method `SignatureService::updateConfig`. -/
def updateConfig (auth_token : Str) (new_config : Config) (w : World) : Result Unit × World :=
  let auth_result := isAuthTokenValid w auth_token
  if auth_result.isError then
    (Result.error auth_result.error_code_ auth_result.error_message_, w)
  else
    (Result.success (), { w with config_ := new_config })

/-- The method `SignatureService::generateConfirmationCode`. -/
def generateConfirmationCode (env : Env) (auth_token : Str) (length : Int) (w : World) :
    Result Str × World :=
  let auth_result := isAuthTokenValid w auth_token
  if auth_result.isError then
    (Result.error auth_result.error_code_ auth_result.error_message_, w)
  else
    let w := w.record (.random_digits length)
    let code := MessageService.generateConfirmationCode env length
    (Result.success code, w)

/-! ## HtmlTemplateProcessor (html_template_processor.cpp) -/

/-- A JSON value as `replacePlaceholdersInContent` looks at it: a string, or any
other value with the text that `dump()` gives for it. -/
inductive JsonValue where
  | string (s : Str)
  | other (dump : Str)
deriving DecidableEq, Repr

/-- The text put in place of a placeholder:
`value.is_string() ? value.get<std::string>() : value.dump()`. -/
def JsonValue.replacement : JsonValue → Str
  | .string s => s
  | .other dump => dump

/-- Search of `pattern` in the text `s`, which starts at index `offset` of the
whole string: the index of the first occurrence, `none` when there is none. -/
def findFrom (pattern : Str) : Str → Nat → Option Nat
  | [], offset => if pattern.isPrefixOf [] then some offset else none
  | c :: cs, offset =>
    if pattern.isPrefixOf (c :: cs) then some offset else findFrom pattern cs (offset + 1)

/-- The call `s.find(pattern, pos)` of `std::string`; `none` is `npos`. -/
def find (s pattern : Str) (pos : Nat) : Option Nat :=
  if pos > s.length then none else findFrom pattern (s.drop pos) pos

/-- The call `s.replace(pos, len, replacement)` of `std::string`. -/
def replace (s : Str) (pos len : Nat) (replacement : Str) : Str :=
  s.take pos ++ replacement ++ s.drop (pos + len)

/-- The loop
`while ((pos = result.find(placeholder, pos)) != npos) {
   result.replace(pos, placeholder.length(), replacement);
   pos += replacement.length(); }`
of `replacePlaceholdersInContent`. The first argument bounds the number of
iterations; `none` means the loop has not ended within the bound. -/
def replaceLoop (placeholder replacement : Str) : Nat → Str → Nat → Option Str
  | 0, _, _ => none
  | fuel + 1, result, pos =>
    match find result placeholder pos with
    | none => some result
    | some found =>
      replaceLoop placeholder replacement fuel
        (replace result found placeholder.length replacement)
        (found + replacement.length)

/-- The function `replacePlaceholdersInContent`: `data.items()` lists the keys of
the JSON object with their values, in the order of iteration; each key is
replaced in turn, starting at position 0. The first argument bounds the
iterations of each replacement loop. -/
def replacePlaceholdersInContent (fuel : Nat) (data : List (Str × JsonValue))
    (html_content : Str) : Option Str :=
  data.foldl
    (fun result item =>
      match result with
      | none => none
      | some text => replaceLoop item.1 item.2.replacement fuel text 0)
    (some html_content)

/-- The iteration order of a `std::unordered_map` after a new key is inserted:
the standard leaves it open, it is some arrangement of the elements held before
and the new one. -/
structure MapOrder where
  insert : List (Str × Str) → Str × Str → List (Str × Str)
  perm : ∀ m e, List.Perm (insert m e) (e :: m)

/-- The static members `template_cache_` (its elements in iteration order) and
`max_cache_size_` of `HtmlTemplateProcessor`. -/
structure TemplateCache where
  template_cache_ : List (Str × Str) := []
  max_cache_size_ : Nat := 100
deriving DecidableEq, Repr

/-- The call `template_cache_.find(file_path)`: the cached content, if any. -/
def cacheFind (cache : List (Str × Str)) (file_path : Str) : Option Str :=
  match cache with
  | [] => none
  | (p, c) :: rest => if p = file_path then some c else cacheFind rest file_path

/-- The function `HtmlTemplateProcessor::getCachedFileContent`. The result holds
the content delivered (`none` when `false` is returned) and the cache after the
call. The outer `none` stands for undefined behaviour: `erase(begin())` on an
empty map. -/
def getCachedFileContent (ord : MapOrder) (fs : FileSystem) (file_path : Str)
    (use_cache : Bool) (self : TemplateCache) : Option (Option Str × TemplateCache) :=
  if !use_cache then some (readFile fs file_path, self)
  else
    match cacheFind self.template_cache_ file_path with
    | some content => some (some content, self)
    | none =>
      match readFile fs file_path with
      | none => some (none, self)
      | some content =>
        if self.template_cache_.length ≥ self.max_cache_size_ then
          match self.template_cache_ with
          | [] => none
          | _ :: rest =>
            some (some content,
              { self with template_cache_ := ord.insert rest (file_path, content) })
        else
          some (some content,
            { self with template_cache_ := ord.insert self.template_cache_ (file_path, content) })

/-- The function `HtmlTemplateProcessor::clearTemplateCache`. -/
def clearTemplateCache (self : TemplateCache) : TemplateCache :=
  { self with template_cache_ := [] }

/-- The loop `while (template_cache_.size() > max_cache_size_)
template_cache_.erase(template_cache_.begin());`. -/
def evictWhileOver (max_size : Nat) : List (Str × Str) → List (Str × Str)
  | [] => []
  | e :: rest => if (e :: rest).length > max_size then evictWhileOver max_size rest else e :: rest

/-- The function `HtmlTemplateProcessor::setTemplateCacheSize`. -/
def setTemplateCacheSize (max_size : Nat) (self : TemplateCache) : TemplateCache :=
  { template_cache_ := evictWhileOver max_size self.template_cache_
    max_cache_size_ := max_size }

/-- An operation on the template cache. -/
inductive CacheOp where
  | get (file_path : Str) (use_cache : Bool)
  | clear
  | setSize (max_size : Nat)
deriving DecidableEq, Repr

/-- One operation applied to the cache; `none` is undefined behaviour. -/
def CacheOp.apply (ord : MapOrder) (fs : FileSystem) (op : CacheOp) (self : TemplateCache) :
    Option TemplateCache :=
  match op with
  | .get file_path use_cache =>
    (getCachedFileContent ord fs file_path use_cache self).map (fun r => r.2)
  | .clear => some (clearTemplateCache self)
  | .setSize max_size => some (setTemplateCacheSize max_size self)

/-- A sequence of operations applied in order; `none` as soon as one of them is
undefined behaviour. -/
def runCacheOps (ord : MapOrder) (fs : FileSystem) : List CacheOp → TemplateCache →
    Option TemplateCache
  | [], self => some self
  | op :: ops, self =>
    match op.apply ord fs self with
    | none => none
    | some next => runCacheOps ord fs ops next

/-! ## Specification-side notions -/

/-- The byte stream the specification names for the composite hash: the document
bytes, then name, `|`, phone, `|`, code, `|`, signing time. -/
def compositeStream (doc name phone code time : Str) : Str :=
  doc ++ name ++ lit "|" ++ phone ++ lit "|" ++ code ++ lit "|" ++ time

/-- The hash primitive on a byte stream: open a digest context, write the stream,
read the first `STRIBOG_HASH_LENGTH` bytes of the digest; `none` when the
library cannot open a context or returns no digest. -/
def stribog256 (lib : Gcrypt) (stream : Str) : Option (List Byte) :=
  if lib.md_open_ok then
    (lib.md_read stream).map (fun digest => (List.range STRIBOG_HASH_LENGTH).map digest)
  else none

/-- The two hexadecimal characters of each byte, in order. -/
def hexString : List Byte → Str
  | [] => []
  | b :: bs => hexDigit (b.val / 16) :: hexDigit (b.val % 16) :: hexString bs

/-- A character is one of `0-9a-f`. -/
def isLowerHex (c : Byte) : Prop := (48 ≤ c.val ∧ c.val ≤ 57) ∨ (97 ≤ c.val ∧ c.val ≤ 102)

/-- The value of a hexadecimal character `0-9a-f` (0 for any other character). -/
def hexVal (c : Byte) : Nat :=
  if 48 ≤ c.val ∧ c.val ≤ 57 then c.val - 48
  else if 97 ≤ c.val ∧ c.val ≤ 102 then c.val - 87
  else 0

/-- The upper-case form of a character (C locale). -/
def toupper (c : Byte) : Byte :=
  if 97 ≤ c.val ∧ c.val ≤ 122 then Fin.ofNat (c.val - 32) else c

/-- The string `s` with the letters at the positions marked `true` upper-cased. -/
def upperSome : List Bool → Str → Str
  | _, [] => []
  | [], s => s
  | m :: ms, c :: cs => (if m then toupper c else c) :: upperSome ms cs

/-- A digest for examples: byte `i` is the sum of the bytes written plus `i`,
modulo 256. -/
def exampleGcrypt : Gcrypt :=
  { md_open_ok := true
    md_read := fun stream => some (fun i => Fin.ofNat ((stream.map Fin.val).sum + i)) }

/-- A library whose digest context cannot be opened. -/
def closedGcrypt : Gcrypt :=
  { md_open_ok := false
    md_read := exampleGcrypt.md_read }

/-- A file system for examples with one document. -/
def exampleFiles : FileSystem := [(lit "doc.pdf", lit "%PDF-1.7 body")]

/-- An environment for examples: rendering and templating work, the SMS provider
reports the status `error`, and stamping reports failure. -/
def exampleEnv : Env :=
  { gcrypt := exampleGcrypt
    wk :=
      { create_converter_ok := true
        create_object_settings_ok := true
        convert := fun page => (1, page.map (fun html => lit "%PDF-1.7 " ++ html)) }
    current_time := lit "2024-01-15T14:30:00+03:00"
    thread_id := lit "1"
    unique_parts := fun counter => (1700000000, 7, 42 + counter)
    ensure_directory := fun _ => true
    copy_error := fun _ _ => none
    populate := fun user html => .ok (some (html ++ user.first_name))
    send_confirmation_code := fun _ _ =>
      .ok { status := lit "error", description := lit "curl_init_failed" }
    check_message_status := fun _ => lit "UNKNOWN_STATUS"
    apply_stamp := fun _ _ => (false, none)
    set_credentials := fun _ _ fs => (true, fs)
    random_digit := fun i => Fin.ofNat i }

/-- A service state for examples: the template exists, the renderer is
initialised, the token is `AUTH_TOKEN`. -/
def exampleWorld : World :=
  { fs := [(lit "/srv/template.html", lit "<p>first_name</p>")]
    config_ :=
      { html_template_path := lit "/srv/template.html"
        temp_dir := lit "/tmp"
        output_pdf_dir := lit "/out"
        auth_token := lit "AUTH_TOKEN" }
    wk_initialized_ := true }

/-- The minimal valid identity of the specification. -/
def exampleUser : UserIdentity :=
  { first_name := lit "Ivan"
    middle_name := lit "Ivanovich"
    last_name := lit "Ivanov"
    phone_number := lit "+79161234567" }

/-- Text `t` with every occurrence of `k`, found left to right and not
overlapping an earlier one, replaced by `v`; text that is put in is not looked at
again. The first argument counts the characters of an occurrence just replaced
that are still to be passed over. -/
def replaceAllAux (k v : Str) : Nat → Str → Str
  | _, [] => []
  | skip + 1, _ :: cs => replaceAllAux k v skip cs
  | 0, c :: cs =>
    if k.isPrefixOf (c :: cs) then v ++ replaceAllAux k v (k.length - 1) cs
    else c :: replaceAllAux k v 0 cs

/-- Literal replacement of every left-to-right, non-overlapping occurrence of the
non-empty key `k` in `t` by `v`. -/
def replaceAll (k v t : Str) : Str := replaceAllAux k v 0 t

/-- The key `k` occurs in the text `t`. -/
def occursIn (k t : Str) : Prop := ∃ before after, t = before ++ k ++ after

/-- A map order that puts a new element first in the iteration order, as a hash
table does for a key that goes into an empty bucket at the head of its list. -/
def frontOrder : MapOrder :=
  { insert := fun m e => e :: m
    perm := fun _ _ => List.Perm.refl _ }

/-- A map order that puts a new element last in the iteration order. -/
def backOrder : MapOrder :=
  { insert := fun m e => m ++ [e]
    perm := fun _ _ => List.perm_append_comm }

/-- Three templates for examples. -/
def threeTemplates : FileSystem :=
  [(lit "A.html", lit "<a/>"), (lit "B.html", lit "<b/>"), (lit "C.html", lit "<c/>")]

/-- The example environment with a stamper that succeeds and saves its input as
the signed document. -/
def happyEnv : Env :=
  { exampleEnv with apply_stamp := fun input _ => (true, input) }

/-- The example environment with a rendering engine whose convert call reports
failure and writes no output. -/
def failingRenderEnv : Env :=
  { happyEnv with
    wk :=
      { create_converter_ok := true
        create_object_settings_ok := true
        convert := fun _ => (0, none) } }

/-- The example environment with a templating step that throws. -/
def raisingEnv : Env :=
  { happyEnv with populate := fun _ _ => .error (.runtime_error (lit "type_error")) }

/-- The example environment with an SMS provider that reports `accepted`. -/
def acceptingEnv : Env :=
  { happyEnv with
    send_confirmation_code := fun _ _ => .ok { status := lit "accepted", id := lit "4815" } }

/-- The number a string of decimal digits denotes. -/
def digitsValue (s : Str) : Nat :=
  s.foldl (fun acc c => 10 * acc + (c.val - 48)) 0

/-! ## parsers (parsers.cpp) and the JSON library -/

/-- A JSON document as the repository looks at it: an object with its members in
the order of iteration (the object is a `std::map`, so by ascending key), or any
other value with the text that `dump()` gives for it. -/
inductive Json where
  | object (items : List (Str × JsonValue))
  | other (dump : Str)
deriving DecidableEq, Repr

/-- The nlohmann JSON library, as far as it works on text: `json::parse(text)`
and `j.dump(indent)` with the exception each may throw, and the `type_error`
that `value()` throws for a key of a document. -/
structure JsonLib where
  parse : Str → Except Exn Json
  dump : Json → Int → Except Exn Str
  type_error : Json → Str → Exn

/-- The order `operator<` of `std::string`: lexicographic on the bytes. -/
def strLess : Str → Str → Bool
  | [], [] => false
  | [], _ :: _ => true
  | _ :: _, [] => false
  | a :: as, b :: bs =>
    if a.val < b.val then true
    else if b.val < a.val then false
    else strLess as bs

/-- The assignment `j[key] = value` on the members of an object: the member is
put at its place in the key order, or replaces the member with the same key. -/
def setItem (key : Str) (value : JsonValue) : List (Str × JsonValue) → List (Str × JsonValue)
  | [] => [(key, value)]
  | (k, v) :: rest =>
    if strLess key k then (key, value) :: (k, v) :: rest
    else if strLess k key then (k, v) :: setItem key value rest
    else (key, value) :: rest

/-- The call `json_data.value(key, default_value)` with a string default: the
member if it is there and a string, the default if it is not there, a
`type_error` if the document is not an object or the member is not a string. -/
def Json.value (lib : JsonLib) (json_data : Json) (key default_value : Str) : Except Exn Str :=
  match json_data with
  | .other _ => .error (lib.type_error json_data key)
  | .object items =>
    match items.find? (fun item => decide (item.1 = key)) with
    | none => .ok default_value
    | some (_, .string s) => .ok s
    | some (_, .other _) => .error (lib.type_error json_data key)

/-- The object `j` that `parsers::parseUserIdentityToJsonString` builds, one
assignment after the other. -/
def userIdentityJson (user : UserIdentity) : Json :=
  let j : List (Str × JsonValue) := []
  let j := setItem (lit "first_name") (.string user.first_name) j
  let j := setItem (lit "middle_name") (.string user.middle_name) j
  let j := setItem (lit "last_name") (.string user.last_name) j
  let j := setItem (lit "passport_number") (.string user.passport_number) j
  let j := setItem (lit "passport_series") (.string user.passport_series) j
  let j := setItem (lit "passport_unite_code") (.string user.passport_unite_code) j
  let j := setItem (lit "passport_issued_by") (.string user.passport_issued_by) j
  let j := setItem (lit "passport_issued_date") (.string user.passport_issued_date) j
  let j := setItem (lit "passport_birthday_date") (.string user.passport_birthday_date) j
  let j := setItem (lit "passport_birthday_place") (.string user.passport_birthday_place) j
  let j := setItem (lit "passport_registration_address")
    (.string user.passport_registration_address) j
  let j := setItem (lit "passport_registration_date") (.string user.passport_registration_date) j
  let j := setItem (lit "email") (.string user.email) j
  let j := setItem (lit "phone_number") (.string user.phone_number) j
  .object j

/-- The function `parsers::parseUserIdentityToJsonString`. -/
def parseUserIdentityToJsonString (lib : JsonLib) (user : UserIdentity) (pretty : Bool) :
    Except Exn Str :=
  if pretty then lib.dump (userIdentityJson user) 4 else lib.dump (userIdentityJson user) (-1)

/-- The `try` block of `parsers::parseJsonStringToUserIdentity`; the member
`email` of the identity is not assigned. -/
def parseJsonStringToUserIdentityBody (lib : JsonLib) (json_string : Str) :
    Except Exn UserIdentity := do
  let json_data ← lib.parse json_string
  let first_name ← Json.value lib json_data (lit "first_name") []
  let middle_name ← Json.value lib json_data (lit "middle_name") []
  let last_name ← Json.value lib json_data (lit "last_name") []
  let passport_number ← Json.value lib json_data (lit "passport_number") []
  let passport_series ← Json.value lib json_data (lit "passport_series") []
  let passport_unite_code ← Json.value lib json_data (lit "passport_unite_code") []
  let passport_issued_by ← Json.value lib json_data (lit "passport_issued_by") []
  let passport_issued_date ← Json.value lib json_data (lit "passport_issued_date") []
  let passport_birthday_date ← Json.value lib json_data (lit "passport_birthday_date") []
  let passport_birthday_place ← Json.value lib json_data (lit "passport_birthday_place") []
  let passport_registration_address ←
    Json.value lib json_data (lit "passport_registration_address") []
  let passport_registration_date ←
    Json.value lib json_data (lit "passport_registration_date") []
  let phone_number ← Json.value lib json_data (lit "phone_number") []
  pure
    { first_name := first_name
      middle_name := middle_name
      last_name := last_name
      passport_number := passport_number
      passport_series := passport_series
      passport_unite_code := passport_unite_code
      passport_issued_by := passport_issued_by
      passport_issued_date := passport_issued_date
      passport_birthday_date := passport_birthday_date
      passport_birthday_place := passport_birthday_place
      passport_registration_address := passport_registration_address
      passport_registration_date := passport_registration_date
      phone_number := phone_number }

/-- The function `parsers::parseJsonStringToUserIdentity`: a `std::exception`
of the `try` block is thrown again as a `runtime_error`. -/
def parseJsonStringToUserIdentity (lib : JsonLib) (json_string : Str) :
    Except Exn UserIdentity :=
  match parseJsonStringToUserIdentityBody lib json_string with
  | .ok identity => .ok identity
  | .error e =>
    match e.what? with
    | some what => .error (.runtime_error (lit "JSON parsing failed: " ++ what))
    | none => .error e

/-- Simultaneous substitution of all keys of the data: the text is read once from
left to right; where a non-empty key starts (the first such key in the order of
the data) its value is put in its place and reading goes on behind the key; text
that was put in is not read. The first argument counts the characters of a key
just replaced that are still to be passed over. -/
def replaceSimultaneousAux (data : List (Str × JsonValue)) : Nat → Str → Str
  | _, [] => []
  | skip + 1, _ :: cs => replaceSimultaneousAux data skip cs
  | 0, c :: cs =>
    match data.find? (fun item => decide (item.1 ≠ []) && item.1.isPrefixOf (c :: cs)) with
    | some item => item.2.replacement ++ replaceSimultaneousAux data (item.1.length - 1) cs
    | none => c :: replaceSimultaneousAux data 0 cs

/-- Simultaneous substitution of all keys of the data in the text `t`. -/
def replaceSimultaneous (data : List (Str × JsonValue)) (t : Str) : Str :=
  replaceSimultaneousAux data 0 t

/-- The members of a JSON object, as `items()` lists them. -/
def Json.items : Json → List (Str × JsonValue)
  | .object items => items
  | .other _ => []

/-- An identity with every field filled in. -/
def fullUser : UserIdentity :=
  { first_name := lit "Ivan"
    middle_name := lit "Ivanovich"
    last_name := lit "Ivanov"
    passport_number := lit "123456"
    passport_series := lit "4510"
    passport_issued_by := lit "OVD"
    passport_issued_date := lit "2010-05-20"
    passport_unite_code := lit "770-001"
    passport_birthday_date := lit "1990-01-15"
    passport_birthday_place := lit "Moscow"
    passport_registration_address := lit "Lenina 1"
    passport_registration_date := lit "2011-06-01"
    email := lit "ivan@mail.ru"
    phone_number := lit "+79161234567" }

/-- The text of the identity `fullUser` as a JSON object without indentation. -/
def fullUserText : Str :=
  lit ("\x7b\"email\":\"ivan@mail.ru\",\"first_name\":\"Ivan\",\"last_name\":\"Ivanov\"," ++
    "\"middle_name\":\"Ivanovich\",\"passport_birthday_date\":\"1990-01-15\"," ++
    "\"passport_birthday_place\":\"Moscow\",\"passport_issued_by\":\"OVD\"," ++
    "\"passport_issued_date\":\"2010-05-20\",\"passport_number\":\"123456\"," ++
    "\"passport_registration_address\":\"Lenina 1\"," ++
    "\"passport_registration_date\":\"2011-06-01\",\"passport_series\":\"4510\"," ++
    "\"passport_unite_code\":\"770-001\",\"phone_number\":\"+79161234567\"\x7d")

/-- The JSON library cut down to one document for examples: it serialises the
object of `fullUser` without indentation and parses that text back; every other
call throws. -/
def exampleJsonLib : JsonLib :=
  { parse := fun text =>
      if text = fullUserText then .ok (userIdentityJson fullUser)
      else .error (.runtime_error (lit "parse_error"))
    dump := fun j indent =>
      if j = userIdentityJson fullUser ∧ indent = -1 then .ok fullUserText
      else .error (.runtime_error (lit "type_error"))
    type_error := fun _ _ => .runtime_error (lit "type_error") }

/-! ## LoggerService (logger.cpp), the writer thread -/

/-- Where the thread of `LoggerService::workerThread` stands. -/
inductive WriterPc where
  /-- Started, before `log_file_.open`. -/
  | opening
  /-- At `condition_.wait` at the top of the loop. -/
  | waiting
  /-- In the loop `while (!local_queue.empty())`, with what is left of `local_queue`. -/
  | writing (local_queue : List Str)
  /-- After `break`, in the loop `while (!log_queue_.empty())`. -/
  | draining
  /-- The file is flushed and closed, the function has returned. -/
  | finished
  /-- The function has returned because the file could not be opened. -/
  | failed
deriving DecidableEq, Repr

/-- The records the writer has taken from the queue and not yet written. -/
def WriterPc.pending : WriterPc → List Str
  | .writing local_queue => local_queue
  | _ => []

/-- A `LoggerService` with its writer thread: the producer side, the flag
`shutdown_`, the position of the writer and the lines written to the log file. A
new logger is disabled and its queue is empty. -/
structure LogSink where
  logger : LoggerService := {}
  shutdown_ : Bool := false
  writer : WriterPc := .opening
  log_file_ : List Str := []
deriving DecidableEq, Repr

/-- What a thread does to the logger in one step. -/
inductive LogAction where
  /-- A call `log(message_type, message)` at clock reading `now` by the thread
  `thread_id`: the test of `enabled_` and the push under the lock. -/
  | log (now thread_id : Str) (message_type : MESSAGE_TYPE) (message : Str)
  /-- A call `enable()`. -/
  | enable
  /-- A call `disable()`. -/
  | disable
  /-- The destructor sets `shutdown_` and notifies. -/
  | shutdown
  /-- The writer thread takes its next step. -/
  | writer
deriving DecidableEq, Repr

/-- One step of the logger; `none` when the step cannot be taken (the writer is
blocked in `wait`, or has returned). `file_opens` tells whether the writer can
open the log file. -/
def LogSink.step (file_opens : Bool) (s : LogSink) : LogAction → Option LogSink
  | .log now thread_id message_type message =>
    some { s with logger := s.logger.log now thread_id message_type message }
  | .enable => some { s with logger := s.logger.enable }
  | .disable => some { s with logger := s.logger.disable }
  | .shutdown => some { s with shutdown_ := true }
  | .writer =>
    match s.writer with
    | .opening => some { s with writer := if file_opens then .waiting else .failed }
    | .waiting =>
      if s.logger.log_queue_ ≠ [] ∨ s.shutdown_ = true then
        some { s with
          writer := .writing s.logger.log_queue_
          logger := { s.logger with log_queue_ := [] } }
      else none
    | .writing (line :: local_queue) =>
      some { s with log_file_ := s.log_file_ ++ [line], writer := .writing local_queue }
    | .writing [] =>
      if s.shutdown_ = true ∧ s.logger.log_queue_ = [] then some { s with writer := .draining }
      else some { s with writer := .waiting }
    | .draining =>
      match s.logger.log_queue_ with
      | line :: log_queue =>
        some { s with
          log_file_ := s.log_file_ ++ [line]
          logger := { s.logger with log_queue_ := log_queue } }
      | [] => some { s with writer := .finished }
    | .finished => none
    | .failed => none

/-- A sequence of steps from a state; `none` when one of them cannot be taken. -/
def LogSink.run (file_opens : Bool) : List LogAction → LogSink → Option LogSink
  | [], s => some s
  | action :: actions, s =>
    match s.step file_opens action with
    | none => none
    | some next => LogSink.run file_opens actions next

/-- The records passed to `log()` while logging is enabled, in the order of the
calls; the first argument tells whether logging is enabled at the start. -/
def acceptedRecords : Bool → List LogAction → List Str
  | _, [] => []
  | enabled, .log now thread_id message_type message :: actions =>
    if enabled then
      createLogEntry now thread_id message_type message :: acceptedRecords enabled actions
    else acceptedRecords enabled actions
  | _, .enable :: actions => acceptedRecords true actions
  | _, .disable :: actions => acceptedRecords false actions
  | enabled, .shutdown :: actions => acceptedRecords enabled actions
  | enabled, .writer :: actions => acceptedRecords enabled actions

/-- A run of the logger for examples: a record that is dropped while the logger
is disabled, two records that are written, and the shutdown. -/
def exampleLogRun : List LogAction :=
  [ .writer,
    .log (lit "10:00") (lit "1") .INFO (lit "early"),
    .enable,
    .log (lit "10:01") (lit "1") .INFO (lit "first"),
    .log (lit "10:02") (lit "2") .ERROR (lit "second"),
    .writer,
    .writer,
    .disable,
    .log (lit "10:03") (lit "1") .INFO (lit "dropped"),
    .writer,
    .writer,
    .shutdown,
    .writer,
    .writer,
    .writer ]

/-! ## WkHtmlToPdfWrapper (wkhtml2pdf_wrapper.cpp) -/

/-- The struct `ConversionTask`. The callback of `convertAsync` is a closure; it
is given by a number that names it (`none`: no callback, as in `convertSync`).
The promise of the task is resolved when the task appears among the
completions of the wrapper. -/
structure ConversionTask where
  input_path : Str
  output_path : Str
  callback : Option Nat := none
deriving DecidableEq, Repr

/-- Where the thread of `WkHtmlToPdfWrapper::workerThreadFunction` stands. -/
inductive WorkerPc where
  /-- Started, before `wkhtmltopdf_init`. -/
  | starting
  /-- At the test of `while (running_)`. -/
  | testing
  /-- Holding the lock, at `queue_cv_.wait`. -/
  | waiting
  /-- The task is taken from the queue and `HtmlToPdfConverter::convertFile` is
  running on it. -/
  | converting (task : ConversionTask)
  /-- The function has returned. -/
  | finished
deriving DecidableEq, Repr

/-- A call into the wkhtmltopdf engine, or its return. -/
inductive EngineCall where
  | init
  | convert_begin (task : ConversionTask)
  | convert_end (task : ConversionTask) (success : Bool)
  | deinit
deriving DecidableEq, Repr

/-- The singleton `WkHtmlToPdfWrapper` with its worker thread. The flag
`initialized_` is `world.wk_initialized_`. The last three fields are a record
kept for the statements: the tasks pushed, the calls into the engine, and the
tasks completed with the value given to their promise and callback, each in
order. -/
structure RenderWorker where
  world : World
  running_ : Bool
  task_queue_ : List ConversionTask
  total_tasks_ : Nat
  worker : WorkerPc
  submitted : List ConversionTask
  engine : List EngineCall
  completed : List (ConversionTask × Bool)

/-- The wrapper after `initialize()` on a wrapper that was not initialised: the
worker thread is started and has not run yet. -/
def RenderWorker.started (w : World) : RenderWorker :=
  { world := { w with wk_initialized_ := true }
    running_ := true
    task_queue_ := []
    total_tasks_ := 0
    worker := .starting
    submitted := []
    engine := []
    completed := [] }

/-- What a thread does to the wrapper in one step. -/
inductive WrapperAction where
  /-- A caller of `convertSync` tests `initialized_` and pushes its task; it then
  waits for the promise of the task. -/
  | convertSync (input_html_path output_pdf_path : Str)
  /-- A caller of `convertAsync` tests `initialized_` and pushes its task. -/
  | convertAsync (input_html_path output_pdf_path : Str) (callback : Option Nat)
  /-- A caller of `shutdown` clears `running_` and notifies the worker. -/
  | shutdown
  /-- The caller of `shutdown(wait_for_completion)` has joined or detached the
  worker and clears `initialized_`. -/
  | shutdownReturn (wait_for_completion : Bool)
  /-- The worker thread takes its next step. -/
  | worker
deriving DecidableEq, Repr

/-- The task pushed by an action, if it pushes one. -/
def WrapperAction.task : WrapperAction → Option ConversionTask
  | .convertSync input_html_path output_pdf_path =>
    some { input_path := input_html_path, output_path := output_pdf_path }
  | .convertAsync input_html_path output_pdf_path callback =>
    some { input_path := input_html_path, output_path := output_pdf_path, callback := callback }
  | _ => none

/-- One step of the wrapper; `none` when the step cannot be taken (the worker is
blocked in `wait` or has returned, `join` has to wait for the worker).
`init_result` is what `wkhtmltopdf_init(0)` returns. -/
def RenderWorker.step (env : Env) (init_result : Int) (s : RenderWorker) :
    WrapperAction → Option RenderWorker
  | .convertSync input_html_path output_pdf_path =>
    if !s.world.wk_initialized_ then some s
    else
      let task : ConversionTask :=
        { input_path := input_html_path, output_path := output_pdf_path }
      some { s with
        task_queue_ := s.task_queue_ ++ [task]
        submitted := s.submitted ++ [task] }
  | .convertAsync input_html_path output_pdf_path callback =>
    if !s.world.wk_initialized_ then some s
    else
      let task : ConversionTask :=
        { input_path := input_html_path, output_path := output_pdf_path, callback := callback }
      some { s with
        task_queue_ := s.task_queue_ ++ [task]
        total_tasks_ := s.total_tasks_ + 1
        submitted := s.submitted ++ [task] }
  | .shutdown =>
    if !s.world.wk_initialized_ then some s
    else some { s with running_ := false }
  | .shutdownReturn wait_for_completion =>
    if wait_for_completion && decide (s.worker ≠ .finished) then none
    else some { s with world := { s.world with wk_initialized_ := false } }
  | .worker =>
    match s.worker with
    | .starting =>
      if init_result ≠ 1 then
        some { s with worker := .finished, engine := s.engine ++ [.init] }
      else
        some { s with running_ := true, worker := .testing, engine := s.engine ++ [.init] }
    | .testing =>
      if s.running_ then some { s with worker := .waiting }
      else some { s with worker := .finished, engine := s.engine ++ [.deinit] }
    | .waiting =>
      if !(!s.task_queue_.isEmpty || !s.running_) then none
      else if !s.running_ && s.task_queue_.isEmpty then
        some { s with worker := .finished, engine := s.engine ++ [.deinit] }
      else
        match s.task_queue_ with
        | [] => some { s with worker := .testing }
        | task :: task_queue =>
          some { s with
            task_queue_ := task_queue
            worker := .converting task
            engine := s.engine ++ [.convert_begin task] }
    | .converting task =>
      let conversion := convertFile env task.input_path task.output_path s.world
      some { s with
        world := conversion.2
        worker := .testing
        engine := s.engine ++ [.convert_end task conversion.1]
        completed := s.completed ++ [(task, conversion.1)] }
    | .finished => none

/-- A sequence of steps from a state; `none` when one of them cannot be taken. -/
def RenderWorker.run (env : Env) (init_result : Int) :
    List WrapperAction → RenderWorker → Option RenderWorker
  | [], s => some s
  | action :: actions, s =>
    match s.step env init_result action with
    | none => none
    | some next => RenderWorker.run env init_result actions next

/-- The tasks handed to the engine, in the order of the calls. -/
def handedTasks : List EngineCall → List ConversionTask
  | [] => []
  | .convert_begin task :: calls => task :: handedTasks calls
  | _ :: calls => handedTasks calls

/-- The task the worker holds: taken from the queue and not yet completed. -/
def WorkerPc.held : WorkerPc → List ConversionTask
  | .converting task => [task]
  | _ => []

/-- The number of conversions in flight after the given calls: those begun and
not yet returned. -/
def inFlight (calls : List EngineCall) : Int :=
  calls.foldl
    (fun n call =>
      match call with
      | .convert_begin _ => n + 1
      | .convert_end _ _ => n - 1
      | _ => n)
    0

/-- Two tasks for examples. -/
def firstTask : ConversionTask :=
  { input_path := lit "/tmp/a.html", output_path := lit "/tmp/a.pdf" }

/-- The second task for examples. -/
def secondTask : ConversionTask :=
  { input_path := lit "/tmp/b.html", output_path := lit "/tmp/b.pdf" }

/-- A run for examples: two tasks are pushed, the worker takes the first, the
shutdown request arrives while the first is being converted, and the worker
goes on until it returns. -/
def shutdownWhileConverting : List WrapperAction :=
  [ .worker,
    .convertSync (lit "/tmp/a.html") (lit "/tmp/a.pdf"),
    .convertSync (lit "/tmp/b.html") (lit "/tmp/b.pdf"),
    .worker,
    .worker,
    .shutdown,
    .worker,
    .worker ]

/-- A run for examples: the shutdown request arrives while the worker waits on
the empty queue. -/
def shutdownWhileWaiting : List WrapperAction :=
  [ .worker,
    .convertSync (lit "/tmp/a.html") (lit "/tmp/a.pdf"),
    .worker,
    .worker,
    .worker,
    .worker,
    .shutdown,
    .worker ]

/-- A run for examples: three callers of `convertSync` push their tasks while the
worker is starting and converting; at the end the first task is completed and
the second is being converted. -/
def threeCallers : List WrapperAction :=
  [ .worker,
    .convertSync (lit "/tmp/a.html") (lit "/tmp/a.pdf"),
    .convertSync (lit "/tmp/b.html") (lit "/tmp/b.pdf"),
    .worker,
    .worker,
    .convertSync (lit "/tmp/c.html") (lit "/tmp/c.pdf"),
    .worker,
    .worker,
    .worker ]

/-! # Theorems -/

/-! ## Lemmas on the hasher -/

theorem readLoop_all (n : Nat) (hn : 0 < n) :
    ∀ (fuel : Nat) (rest ctx : List Byte), rest.length < fuel →
      readLoop n fuel rest ctx = ctx ++ rest := by
  intro fuel
  induction fuel with
  | zero => intro rest ctx h; omega
  | succ fuel ih =>
    intro rest ctx h
    unfold readLoop
    by_cases hc : (rest.take n).length = n ∨ 0 < (rest.take n).length
    · simp only [hc, if_true]
      have hlen : (rest.drop n).length < fuel := by
        rcases rest with _ | ⟨a, t⟩
        · simp at hc; omega
        · simp only [List.length_drop, List.length_cons] at *; omega
      rw [ih _ _ hlen, List.append_assoc, List.take_append_drop]
    · simp only [hc, if_false]
      have : rest = [] := by
        rcases rest with _ | ⟨a, t⟩
        · rfl
        · exfalso; apply hc; right
          simp only [List.length_take, List.length_cons]; omega
      simp [this]

theorem hashToHex_foldl (hash : List Byte) (acc : Str) :
    hash.foldl (fun hex_string byte =>
      hex_string ++ [hexDigit (byte.val / 16), hexDigit (byte.val % 16)]) acc
      = acc ++ hexString hash := by
  induction hash generalizing acc with
  | nil => simp [hexString]
  | cons b bs ih => simp [List.foldl_cons, ih, hexString]

theorem hashToHex_eq (hash : List Byte) (h : hash ≠ []) :
    hashToHex hash = .ok (hexString hash) := by
  unfold hashToHex
  rw [if_neg h, hashToHex_foldl]; rfl

theorem hexDigit_facts : ∀ n : Fin 16,
    isLowerHex (hexDigit n.val) ∧ hexVal (hexDigit n.val) = n.val ∧
    tolower (hexDigit n.val) = hexDigit n.val ∧
    tolower (toupper (hexDigit n.val)) = hexDigit n.val := by
  unfold isLowerHex
  decide

theorem byte_split (b : Byte) : b.val / 16 < 16 ∧ b.val % 16 < 16 := by
  have := b.isLt
  omega

theorem hexDigit_inj (m n : Nat) (hm : m < 16) (hn : n < 16)
    (h : hexDigit m = hexDigit n) : m = n := by
  have h1 := (hexDigit_facts ⟨m, hm⟩).2.1
  have h2 := (hexDigit_facts ⟨n, hn⟩).2.1
  simp only at h1 h2
  rw [← h1, ← h2, h]

theorem hexString_length (hash : List Byte) : (hexString hash).length = 2 * hash.length := by
  induction hash with
  | nil => rfl
  | cons b bs ih => simp only [hexString, List.length_cons, ih]; omega

theorem hexString_lower (hash : List Byte) : ∀ c ∈ hexString hash, isLowerHex c := by
  induction hash with
  | nil => intro c hc; simp [hexString] at hc
  | cons b bs ih =>
    intro c hc
    simp only [hexString, List.mem_cons] at hc
    rcases hc with rfl | rfl | hc
    · exact (hexDigit_facts ⟨b.val / 16, (byte_split b).1⟩).1
    · exact (hexDigit_facts ⟨b.val % 16, (byte_split b).2⟩).1
    · exact ih c hc

theorem hexString_pair (hash : List Byte) :
    ∀ (i : Nat) (hi : i < hash.length),
      ∃ hi_char lo_char, (hexString hash)[2 * i]? = some hi_char ∧
        (hexString hash)[2 * i + 1]? = some lo_char ∧
        16 * hexVal hi_char + hexVal lo_char = (hash.get ⟨i, hi⟩).val := by
  induction hash with
  | nil => intro i hi; simp at hi
  | cons b bs ih =>
    intro i hi
    cases i with
    | zero =>
      refine ⟨hexDigit (b.val / 16), hexDigit (b.val % 16), by simp [hexString], by simp [hexString], ?_⟩
      have h1 := (hexDigit_facts ⟨b.val / 16, (byte_split b).1⟩).2.1
      have h2 := (hexDigit_facts ⟨b.val % 16, (byte_split b).2⟩).2.1
      simp only at h1 h2
      simp only [List.get_eq_getElem, List.getElem_cons_zero, h1, h2]
      omega
    | succ j =>
      have hj : j < bs.length := by simpa using hi
      obtain ⟨x, y, hx, hy, hv⟩ := ih j hj
      refine ⟨x, y, ?_, ?_, ?_⟩
      · have : 2 * (j + 1) = (2 * j + 1) + 1 := by omega
        rw [this]; simpa [hexString] using hx
      · have : 2 * (j + 1) + 1 = (2 * j + 1 + 1) + 1 := by omega
        rw [this]; simpa [hexString] using hy
      · simpa using hv

theorem hexString_inj : ∀ (a b : List Byte), hexString a = hexString b → a = b := by
  intro a
  induction a with
  | nil =>
    intro b h
    cases b with
    | nil => rfl
    | cons y ys => simp [hexString] at h
  | cons x xs ih =>
    intro b h
    cases b with
    | nil => simp [hexString] at h
    | cons y ys =>
      simp only [hexString, List.cons.injEq] at h
      obtain ⟨h1, h2, h3⟩ := h
      have e1 := hexDigit_inj _ _ (byte_split x).1 (byte_split y).1 h1
      have e2 := hexDigit_inj _ _ (byte_split x).2 (byte_split y).2 h2
      have : x = y := by
        apply Fin.ext
        have := Nat.div_add_mod x.val 16
        have := Nat.div_add_mod y.val 16
        omega
      rw [this, ih ys h3]

theorem lor_eq_zero (a b : Nat) : a ||| b = 0 ↔ a = 0 ∧ b = 0 := by
  constructor
  · intro h
    have key : ∀ i, a.testBit i = false ∧ b.testBit i = false := by
      intro i
      have := congrArg (fun n => n.testBit i) h
      simpa [Nat.testBit_or] using this
    exact ⟨Nat.eq_of_testBit_eq (fun i => by simp [(key i).1]),
           Nat.eq_of_testBit_eq (fun i => by simp [(key i).2])⟩
  · rintro ⟨rfl, rfl⟩; rfl

theorem foldl_lor_eq_zero (l : List (Byte × Byte)) (acc : Nat) :
    l.foldl (fun (result : Nat) p => result ||| (p.1.val ^^^ p.2.val)) acc = 0 ↔
      acc = 0 ∧ ∀ p ∈ l, p.1 = p.2 := by
  induction l generalizing acc with
  | nil => simp
  | cons p ps ih =>
    rw [List.foldl_cons, ih, lor_eq_zero, Nat.xor_eq_zero]
    constructor
    · rintro ⟨⟨h0, h1⟩, h2⟩
      refine ⟨h0, ?_⟩
      intro q hq
      rcases List.mem_cons.mp hq with rfl | hq
      · exact Fin.ext h1
      · exact h2 q hq
    · rintro ⟨h0, h⟩
      exact ⟨⟨h0, congrArg Fin.val (h p (List.mem_cons_self _ _))⟩,
        fun q hq => h q (List.mem_cons_of_mem _ hq)⟩

theorem zip_all_eq : ∀ (a b : Str), a.length = b.length →
    ((∀ p ∈ List.zip a b, p.1 = p.2) ↔ a = b) := by
  intro a
  induction a with
  | nil => intro b h; cases b with
    | nil => simp
    | cons y ys => simp at h
  | cons x xs ih =>
    intro b h
    cases b with
    | nil => simp at h
    | cons y ys =>
      have hl : xs.length = ys.length := by simpa using h
      simp only [List.zip_cons_cons, List.mem_cons, forall_eq_or_imp, List.cons.injEq]
      rw [ih ys hl]

theorem compareHashes_iff (a b : Str) : compareHashes a b = true ↔ a = b := by
  unfold compareHashes
  by_cases hl : a.length = b.length
  · simp only [ne_eq, hl, not_true_eq_false, if_false, beq_iff_eq]
    rw [foldl_lor_eq_zero, zip_all_eq a b hl]
    simp
  · simp only [ne_eq, hl, not_false_eq_true, if_true]
    constructor
    · intro h; cases h
    · intro h; exact absurd (congrArg List.length h) hl

theorem toLowercase_upperSome (s : Str) (hs : ∀ c ∈ s, isLowerHex c) :
    ∀ mask : List Bool, toLowercase (upperSome mask s) = s := by
  have key : ∀ c, isLowerHex c → tolower c = c ∧ tolower (toupper c) = c := by
    intro c hc
    have hc16 : hexVal c < 16 := by
      unfold isLowerHex at hc; unfold hexVal; split_ifs <;> omega
    have := hexDigit_facts ⟨hexVal c, hc16⟩
    have hcd : hexDigit (hexVal c) = c := by
      apply Fin.ext
      unfold isLowerHex at hc
      unfold hexVal hexDigit
      have := c.isLt
      rcases hc with hc | hc
      · simp only [hc, and_self, if_true]
        have : c.val - 48 < 10 := by omega
        simp only [this, if_true, Fin.ofNat]
        omega
      · have h1 : ¬ (48 ≤ c.val ∧ c.val ≤ 57) := by omega
        simp only [h1, if_false, hc, and_self, if_true]
        have : ¬ (c.val - 87 < 10) := by omega
        simp only [this, if_false, Fin.ofNat]
        omega
    simp only [hcd] at this
    exact ⟨this.2.2.1, this.2.2.2⟩
  have hmap : ∀ (s : Str), (∀ c ∈ s, isLowerHex c) → ∀ mask : List Bool,
      (upperSome mask s).map tolower = s := by
    intro s
    induction s with
    | nil => intro _ mask; cases mask <;> rfl
    | cons c cs ih =>
      intro hs mask
      have hc := key c (hs c (List.mem_cons_self _ _))
      have hcs : ∀ d ∈ cs, isLowerHex d := fun d hd => hs d (List.mem_cons_of_mem _ hd)
      cases mask with
      | nil =>
        have := ih hcs []
        have e : upperSome [] cs = cs := by cases cs <;> rfl
        simp only [upperSome, List.map_cons, hc.1, List.cons.injEq, true_and]
        rw [e] at this; exact this
      | cons m ms =>
        simp only [upperSome, List.map_cons, List.cons.injEq]
        refine ⟨?_, ih hcs ms⟩
        cases m <;> simp [hc.1, hc.2]
  intro mask
  unfold toLowercase
  split_ifs with h
  · have := hmap s hs mask
    rw [h] at this ⊢
    simpa using this
  · exact hmap s hs mask

theorem calc_valid (lib : Gcrypt) (fs : FileSystem)
    (file_path user_name user_phone code time doc : Str)
    (hpath : file_path ≠ []) (hfile : readFile fs file_path = some doc) (hdoc : doc ≠ [])
    (hname : user_name ≠ []) (hphone : user_phone ≠ []) (hcode : code ≠ [])
    (htime : time ≠ []) :
    calculateCompositeHash lib DocumentHasher.new fs file_path user_name user_phone code time =
      if lib.md_open_ok = true then
        match lib.md_read (compositeStream doc user_name user_phone code time) with
        | none => .error (.runtime_error (lit "Failed to read hash digest"))
        | some digest => .ok ((List.range STRIBOG_HASH_LENGTH).map digest)
      else .error (.runtime_error (lit "Failed to initialize hash context")) := by
  have hlen : doc.length ≠ 0 := by
    intro h; exact hdoc (List.length_eq_zero.mp h)
  have hloop : readLoop HASH_BUFFER_SIZE (doc.length + 1) doc [] = doc := by
    rw [readLoop_all HASH_BUFFER_SIZE (by decide) _ _ _ (Nat.lt_succ_self _)]; rfl
  unfold calculateCompositeHash
  simp only [hpath, hname, hphone, hcode, htime, or_self, if_false, DocumentHasher.new,
    Bool.not_true, hfile, hlen, hloop, compositeStream]
  cases lib.md_open_ok <;> simp

theorem stribog256_length (lib : Gcrypt) (stream digest : Str)
    (h : stribog256 lib stream = some digest) : digest.length = 32 := by
  unfold stribog256 at h
  split_ifs at h
  cases hr : lib.md_read stream with
  | none => simp [hr] at h
  | some p =>
    simp only [hr, Option.map_some', Option.some.injEq] at h
    rw [← h]; simp [STRIBOG_HASH_LENGTH]

theorem calc_of_stribog256 (lib : Gcrypt) (fs : FileSystem)
    (file_path user_name user_phone code time doc digest : Str)
    (hpath : file_path ≠ []) (hfile : readFile fs file_path = some doc) (hdoc : doc ≠ [])
    (hname : user_name ≠ []) (hphone : user_phone ≠ []) (hcode : code ≠ [])
    (htime : time ≠ [])
    (hd : stribog256 lib (compositeStream doc user_name user_phone code time) = some digest) :
    calculateCompositeHash lib DocumentHasher.new fs file_path user_name user_phone code time =
      .ok digest := by
  rw [calc_valid lib fs file_path user_name user_phone code time doc
    hpath hfile hdoc hname hphone hcode htime]
  unfold stribog256 at hd
  split_ifs at hd with hopen
  cases hr : lib.md_read (compositeStream doc user_name user_phone code time) with
  | none => simp [hr] at hd
  | some p =>
    simp only [hr, Option.map_some', Option.some.injEq] at hd
    simp only [hopen, if_true, hd]

theorem upperSome_nil (s : Str) : upperSome [] s = s := by
  cases s <;> rfl

theorem verify_of_calc (lib : Gcrypt) (fs : FileSystem)
    (file_path user_name user_phone code time expected digest : Str)
    (hexp : expected ≠ []) (hdig : digest ≠ [])
    (hcalc : calculateCompositeHash lib DocumentHasher.new fs file_path user_name user_phone
      code time = .ok digest) :
    verifyCompositeHash lib DocumentHasher.new fs file_path user_name user_phone code time
      expected = .ok (compareHashes (hexString digest) (toLowercase expected)) := by
  unfold verifyCompositeHash
  simp only [hexp, if_false, hcalc, hashToHex_eq digest hdig]

theorem compositeStream_single_change
    (doc name phone code time doc' name' phone' code' time' : Str)
    (h : (doc ≠ doc' ∧ name = name' ∧ phone = phone' ∧ code = code' ∧ time = time') ∨
         (doc = doc' ∧ name ≠ name' ∧ phone = phone' ∧ code = code' ∧ time = time') ∨
         (doc = doc' ∧ name = name' ∧ phone ≠ phone' ∧ code = code' ∧ time = time') ∨
         (doc = doc' ∧ name = name' ∧ phone = phone' ∧ code ≠ code' ∧ time = time') ∨
         (doc = doc' ∧ name = name' ∧ phone = phone' ∧ code = code' ∧ time ≠ time')) :
    compositeStream doc name phone code time ≠ compositeStream doc' name' phone' code' time' := by
  intro heq
  unfold compositeStream at heq
  simp only [List.append_assoc] at heq
  rcases h with ⟨hne, rfl, rfl, rfl, rfl⟩ | ⟨rfl, hne, rfl, rfl, rfl⟩ |
    ⟨rfl, rfl, hne, rfl, rfl⟩ | ⟨rfl, rfl, rfl, hne, rfl⟩ | ⟨rfl, rfl, rfl, rfl, hne⟩
  · exact hne ((List.append_left_inj _).mp heq)
  · have h1 := (List.append_right_inj _).mp heq
    exact hne ((List.append_left_inj _).mp h1)
  · have h1 := (List.append_right_inj _).mp ((List.append_right_inj _).mp
      ((List.append_right_inj _).mp heq))
    exact hne ((List.append_left_inj _).mp h1)
  · have h1 := (List.append_right_inj _).mp ((List.append_right_inj _).mp
      ((List.append_right_inj _).mp ((List.append_right_inj _).mp
      ((List.append_right_inj _).mp heq))))
    exact hne ((List.append_left_inj _).mp h1)
  · have h1 := (List.append_right_inj _).mp ((List.append_right_inj _).mp
      ((List.append_right_inj _).mp ((List.append_right_inj _).mp
      ((List.append_right_inj _).mp ((List.append_right_inj _).mp
      ((List.append_right_inj _).mp heq))))))
    exact hne h1

theorem hexString_ne_nil (digest : Str) (h : digest.length = 32) : hexString digest ≠ [] := by
  intro h0
  have := congrArg List.length h0
  rw [hexString_length, h] at this
  simp at this

theorem ne_nil_of_length (digest : Str) (h : digest.length = 32) : digest ≠ [] := by
  intro h0; rw [h0] at h; simp at h

/-! ## The claims on the hasher -/

/-- C3: for a non-empty document and non-empty name, phone, code and signing
time for whose byte stream the hash primitive yields a digest,
`calculateCompositeHash` returns that digest, `hashToHex` turns it into a
string, and `verifyCompositeHash` returns true on that string and on the string
with any of its letters upper-cased. -/
theorem verifyCompositeHash_accepts_own_hash (lib : Gcrypt) (fs : FileSystem)
    (file_path user_name user_phone code time doc : Str)
    (hpath : file_path ≠ []) (hfile : readFile fs file_path = some doc) (hdoc : doc ≠ [])
    (hname : user_name ≠ []) (hphone : user_phone ≠ []) (hcode : code ≠ [])
    (htime : time ≠ [])
    (hprim : (stribog256 lib (compositeStream doc user_name user_phone code time)).isSome
      = true) :
    ∃ digest hex,
      calculateCompositeHash lib DocumentHasher.new fs file_path user_name user_phone code time
        = .ok digest ∧
      hashToHex digest = .ok hex ∧
      verifyCompositeHash lib DocumentHasher.new fs file_path user_name user_phone code time hex
        = .ok true ∧
      ∀ mask : List Bool,
        verifyCompositeHash lib DocumentHasher.new fs file_path user_name user_phone code time
          (upperSome mask hex) = .ok true := by
  obtain ⟨digest, hd⟩ := Option.isSome_iff_exists.mp hprim
  have hcalc := calc_of_stribog256 lib fs file_path user_name user_phone code time doc digest
    hpath hfile hdoc hname hphone hcode htime hd
  have hlen := stribog256_length lib _ digest hd
  have hdig := ne_nil_of_length digest hlen
  have hmask : ∀ mask : List Bool,
      verifyCompositeHash lib DocumentHasher.new fs file_path user_name user_phone code time
        (upperSome mask (hexString digest)) = .ok true := by
    intro mask
    have hlow := toLowercase_upperSome _ (hexString_lower digest) mask
    have hne : upperSome mask (hexString digest) ≠ [] := by
      intro h
      rw [h] at hlow
      exact hexString_ne_nil digest hlen (by simpa [toLowercase] using hlow.symm)
    rw [verify_of_calc lib fs _ _ _ _ _ _ _ hne hdig hcalc, hlow]
    exact congrArg Except.ok ((compareHashes_iff _ _).mpr rfl)
  refine ⟨_, _, hcalc, hashToHex_eq _ hdig, ?_, hmask⟩
  have := hmask []
  rwa [upperSome_nil] at this

/-- Witness of C3 on the example library and document. -/
theorem verifyCompositeHash_accepts_own_hash_witness :
    ∃ digest hex,
      calculateCompositeHash exampleGcrypt DocumentHasher.new exampleFiles (lit "doc.pdf")
        (lit "Ivanov Ivan") (lit "+79161234567") (lit "1234") (lit "2024-01-15T14:30:00+03:00")
        = .ok digest ∧
      hashToHex digest = .ok hex ∧
      verifyCompositeHash exampleGcrypt DocumentHasher.new exampleFiles (lit "doc.pdf")
        (lit "Ivanov Ivan") (lit "+79161234567") (lit "1234") (lit "2024-01-15T14:30:00+03:00")
        hex = .ok true ∧
      ∀ mask : List Bool,
        verifyCompositeHash exampleGcrypt DocumentHasher.new exampleFiles (lit "doc.pdf")
          (lit "Ivanov Ivan") (lit "+79161234567") (lit "1234")
          (lit "2024-01-15T14:30:00+03:00") (upperSome mask hex) = .ok true :=
  verifyCompositeHash_accepts_own_hash exampleGcrypt exampleFiles (lit "doc.pdf")
    (lit "Ivanov Ivan") (lit "+79161234567") (lit "1234") (lit "2024-01-15T14:30:00+03:00")
    (lit "%PDF-1.7 body") (by decide) (by decide) (by decide) (by decide)
    (by decide) (by decide) (by decide) rfl

/-- A single change inside the input domain of the hasher is rejected: let `hex`
be the hex digest of a tuple of a non-empty document and non-empty name, phone,
code and time. For a tuple that differs from it in exactly one of the five
inputs, the changed value being one the hasher accepts (a readable non-empty
document, a non-empty field), `verifyCompositeHash` returns false against `hex`,
provided the hash primitive yields a digest for both byte streams and yields
distinct digests when the streams are distinct. -/
theorem verifyCompositeHash_rejects_single_change (lib : Gcrypt) (fs : FileSystem)
    (file_path user_name user_phone code time doc : Str)
    (file_path' user_name' user_phone' code' time' doc' : Str)
    (hpath : file_path ≠ []) (hfile : readFile fs file_path = some doc) (hdoc : doc ≠ [])
    (hname : user_name ≠ []) (hphone : user_phone ≠ []) (hcode : code ≠ [])
    (htime : time ≠ [])
    (hpath' : file_path' ≠ []) (hfile' : readFile fs file_path' = some doc')
    (hdoc' : doc' ≠ []) (hname' : user_name' ≠ []) (hphone' : user_phone' ≠ [])
    (hcode' : code' ≠ []) (htime' : time' ≠ [])
    (hchange :
      (doc ≠ doc' ∧ user_name = user_name' ∧ user_phone = user_phone' ∧ code = code' ∧
        time = time') ∨
      (doc = doc' ∧ user_name ≠ user_name' ∧ user_phone = user_phone' ∧ code = code' ∧
        time = time') ∨
      (doc = doc' ∧ user_name = user_name' ∧ user_phone ≠ user_phone' ∧ code = code' ∧
        time = time') ∨
      (doc = doc' ∧ user_name = user_name' ∧ user_phone = user_phone' ∧ code ≠ code' ∧
        time = time') ∨
      (doc = doc' ∧ user_name = user_name' ∧ user_phone = user_phone' ∧ code = code' ∧
        time ≠ time'))
    (hprim : (stribog256 lib (compositeStream doc user_name user_phone code time)).isSome
      = true)
    (hprim' : (stribog256 lib (compositeStream doc' user_name' user_phone' code' time')).isSome
      = true)
    (hcollision :
      stribog256 lib (compositeStream doc user_name user_phone code time) =
        stribog256 lib (compositeStream doc' user_name' user_phone' code' time') →
      compositeStream doc user_name user_phone code time =
        compositeStream doc' user_name' user_phone' code' time') :
    ∃ digest hex,
      calculateCompositeHash lib DocumentHasher.new fs file_path user_name user_phone code time
        = .ok digest ∧
      hashToHex digest = .ok hex ∧
      verifyCompositeHash lib DocumentHasher.new fs file_path' user_name' user_phone' code'
        time' hex = .ok false := by
  obtain ⟨d, hd⟩ := Option.isSome_iff_exists.mp hprim
  obtain ⟨d', hd'⟩ := Option.isSome_iff_exists.mp hprim'
  have hcalc := calc_of_stribog256 lib fs file_path user_name user_phone code time doc d
    hpath hfile hdoc hname hphone hcode htime hd
  have hcalc' := calc_of_stribog256 lib fs file_path' user_name' user_phone' code' time' doc' d'
    hpath' hfile' hdoc' hname' hphone' hcode' htime' hd'
  have hstream := compositeStream_single_change doc user_name user_phone code time
    doc' user_name' user_phone' code' time' hchange
  have hdne : d ≠ d' := by
    intro h
    apply hstream
    apply hcollision
    rw [hd, hd', h]
  have hlen := stribog256_length lib _ d hd
  have hlen' := stribog256_length lib _ d' hd'
  refine ⟨d, hexString d, hcalc, hashToHex_eq _ (ne_nil_of_length d hlen), ?_⟩
  rw [verify_of_calc lib fs _ _ _ _ _ _ _ (hexString_ne_nil d hlen)
    (ne_nil_of_length d' hlen') hcalc']
  have hlow := toLowercase_upperSome _ (hexString_lower d) []
  rw [upperSome_nil] at hlow
  rw [hlow]
  congr 1
  cases hc : compareHashes (hexString d') (hexString d) with
  | false => rfl
  | true => exact absurd (hexString_inj _ _ ((compareHashes_iff _ _).mp hc)).symm hdne

/-- An instance of the rejection of a single change: the name changed from
`Ivanov Ivan` to `Petrov Petr`. -/
theorem verifyCompositeHash_rejects_single_change_witness :
    ∃ digest hex,
      calculateCompositeHash exampleGcrypt DocumentHasher.new exampleFiles (lit "doc.pdf")
        (lit "Ivanov Ivan") (lit "+79161234567") (lit "1234") (lit "2024-01-15T14:30:00+03:00")
        = .ok digest ∧
      hashToHex digest = .ok hex ∧
      verifyCompositeHash exampleGcrypt DocumentHasher.new exampleFiles (lit "doc.pdf")
        (lit "Petrov Petr") (lit "+79161234567") (lit "1234") (lit "2024-01-15T14:30:00+03:00")
        hex = .ok false :=
  verifyCompositeHash_rejects_single_change exampleGcrypt exampleFiles
    (lit "doc.pdf") (lit "Ivanov Ivan") (lit "+79161234567") (lit "1234")
    (lit "2024-01-15T14:30:00+03:00") (lit "%PDF-1.7 body")
    (lit "doc.pdf") (lit "Petrov Petr") (lit "+79161234567") (lit "1234")
    (lit "2024-01-15T14:30:00+03:00") (lit "%PDF-1.7 body")
    (by decide) (by decide) (by decide) (by decide) (by decide) (by decide) (by decide)
    (by decide) (by decide) (by decide) (by decide) (by decide) (by decide) (by decide)
    (by decide) rfl rfl (by decide)

/-- C4, evaluated where the code departs from it: the name of a valid tuple is
changed to the empty string, the other four inputs are kept, and
`verifyCompositeHash` of the changed tuple against the hex digest of the
original raises a `runtime_error`; it does not return false. -/
theorem verifyCompositeHash_raises_on_emptied_name :
    ∃ digest hex,
      calculateCompositeHash exampleGcrypt DocumentHasher.new exampleFiles (lit "doc.pdf")
        (lit "Ivanov Ivan") (lit "+79161234567") (lit "1234") (lit "2024-01-15T14:30:00+03:00")
        = .ok digest ∧
      hashToHex digest = .ok hex ∧
      verifyCompositeHash exampleGcrypt DocumentHasher.new exampleFiles (lit "doc.pdf")
        [] (lit "+79161234567") (lit "1234") (lit "2024-01-15T14:30:00+03:00") hex =
        .error (.runtime_error
          (lit "Verification failed: All metadata parameters must be non-empty")) ∧
      verifyCompositeHash exampleGcrypt DocumentHasher.new exampleFiles (lit "doc.pdf")
        [] (lit "+79161234567") (lit "1234") (lit "2024-01-15T14:30:00+03:00") hex ≠
        .ok false :=
  ⟨_, _, rfl, rfl, rfl, fun h => Except.noConfusion h⟩

/-- C5: for a non-empty document and non-empty metadata, when the hash primitive
applied to the byte stream document, name, `|`, phone, `|`, code, `|`, time
yields `digest`, `calculateCompositeHash` returns exactly `digest`, which has 32
bytes; the read loop hands the whole document to the hash context whatever the
buffer size; and the result is the same for any path and file system that hold
the same document bytes. -/
theorem calculateCompositeHash_is_digest_of_stream (lib : Gcrypt) (fs : FileSystem)
    (file_path user_name user_phone code time doc digest : Str)
    (hpath : file_path ≠ []) (hfile : readFile fs file_path = some doc) (hdoc : doc ≠ [])
    (hname : user_name ≠ []) (hphone : user_phone ≠ []) (hcode : code ≠ [])
    (htime : time ≠ [])
    (hprim : stribog256 lib (compositeStream doc user_name user_phone code time) = some digest) :
    calculateCompositeHash lib DocumentHasher.new fs file_path user_name user_phone code time
      = .ok digest ∧
    digest.length = 32 ∧
    (∀ bufSize fuel ctx, 0 < bufSize → doc.length < fuel →
      readLoop bufSize fuel doc ctx = ctx ++ doc) ∧
    (∀ (fs' : FileSystem) (file_path' : Str), file_path' ≠ [] →
      readFile fs' file_path' = some doc →
      calculateCompositeHash lib DocumentHasher.new fs' file_path' user_name user_phone code time
        = .ok digest) := by
  refine ⟨?_, stribog256_length lib _ digest hprim, ?_, ?_⟩
  · exact calc_of_stribog256 lib fs file_path user_name user_phone code time doc digest
      hpath hfile hdoc hname hphone hcode htime hprim
  · intro n fuel ctx hn hf
    exact readLoop_all n hn fuel doc ctx hf
  · intro fs' file_path' hp' hf'
    exact calc_of_stribog256 lib fs' file_path' user_name user_phone code time doc digest
      hp' hf' hdoc hname hphone hcode htime hprim

/-- Witness of C5 on the example library and document. -/
theorem calculateCompositeHash_is_digest_of_stream_witness :
    calculateCompositeHash exampleGcrypt DocumentHasher.new exampleFiles (lit "doc.pdf")
      (lit "Ivanov Ivan") (lit "+79161234567") (lit "1234") (lit "2024-01-15T14:30:00+03:00")
      = .ok ((List.range 32).map (fun i => Fin.ofNat (((compositeStream (lit "%PDF-1.7 body")
          (lit "Ivanov Ivan") (lit "+79161234567") (lit "1234")
          (lit "2024-01-15T14:30:00+03:00")).map Fin.val).sum + i))) :=
  (calculateCompositeHash_is_digest_of_stream exampleGcrypt exampleFiles (lit "doc.pdf")
    (lit "Ivanov Ivan") (lit "+79161234567") (lit "1234") (lit "2024-01-15T14:30:00+03:00")
    (lit "%PDF-1.7 body") _ (by decide) (by decide) (by decide) (by decide) (by decide)
    (by decide) (by decide) rfl).1

/-- C6, as stated, fails: with a library whose digest context cannot be opened
the call raises although the path is non-empty, the document opens and is not
empty, and no metadata field is empty. -/
theorem calculateCompositeHash_raises_on_valid_input :
    ¬ ((∃ e, calculateCompositeHash closedGcrypt DocumentHasher.new exampleFiles
          (lit "doc.pdf") (lit "Ivanov Ivan") (lit "+79161234567") (lit "1234")
          (lit "2024-01-15T14:30:00+03:00") = .error e) ↔
        (lit "doc.pdf" = [] ∨ readFile exampleFiles (lit "doc.pdf") = none ∨
          readFile exampleFiles (lit "doc.pdf") = some [] ∨
          lit "Ivanov Ivan" = [] ∨ lit "+79161234567" = [] ∨ lit "1234" = [] ∨
          lit "2024-01-15T14:30:00+03:00" = [])) := by
  intro h
  have hne : ¬ (lit "doc.pdf" = [] ∨ readFile exampleFiles (lit "doc.pdf") = none ∨
      readFile exampleFiles (lit "doc.pdf") = some [] ∨
      lit "Ivanov Ivan" = [] ∨ lit "+79161234567" = [] ∨ lit "1234" = [] ∨
      lit "2024-01-15T14:30:00+03:00" = []) := by decide
  exact hne (h.mp ⟨_, rfl⟩)

/-- C6, amended: `calculateCompositeHash` raises if and only if the path is
empty, the document cannot be opened, the document has zero bytes, one of name,
phone, code, signing time is empty, or the hash primitive yields no digest for
the byte stream (the library cannot open a digest context or returns none); in
every other case it returns a digest of exactly 32 bytes. -/
theorem calculateCompositeHash_raises_iff (lib : Gcrypt) (fs : FileSystem)
    (file_path user_name user_phone code time : Str) :
    ((∃ e, calculateCompositeHash lib DocumentHasher.new fs file_path user_name user_phone
        code time = .error e) ↔
      (file_path = [] ∨ readFile fs file_path = none ∨ readFile fs file_path = some [] ∨
        user_name = [] ∨ user_phone = [] ∨ code = [] ∨ time = [] ∨
        ∃ doc, readFile fs file_path = some doc ∧
          stribog256 lib (compositeStream doc user_name user_phone code time) = none)) ∧
    (¬ (file_path = [] ∨ readFile fs file_path = none ∨ readFile fs file_path = some [] ∨
        user_name = [] ∨ user_phone = [] ∨ code = [] ∨ time = [] ∨
        ∃ doc, readFile fs file_path = some doc ∧
          stribog256 lib (compositeStream doc user_name user_phone code time) = none) →
      ∃ digest, calculateCompositeHash lib DocumentHasher.new fs file_path user_name user_phone
        code time = .ok digest ∧ digest.length = 32) := by
  by_cases hpath : file_path = []
  · have : calculateCompositeHash lib DocumentHasher.new fs file_path user_name user_phone
        code time = .error (.invalid_argument (lit "File path cannot be empty")) := by
      unfold calculateCompositeHash; simp only [hpath, if_true]
    exact ⟨⟨fun _ => Or.inl hpath, fun _ => ⟨_, this⟩⟩, fun h => absurd (Or.inl hpath) h⟩
  by_cases hmeta : user_name = [] ∨ user_phone = [] ∨ code = [] ∨ time = []
  · have : calculateCompositeHash lib DocumentHasher.new fs file_path user_name user_phone
        code time =
        .error (.invalid_argument (lit "All metadata parameters must be non-empty")) := by
      unfold calculateCompositeHash; simp only [hpath, if_false, hmeta, if_true]
    have hc : file_path = [] ∨ readFile fs file_path = none ∨ readFile fs file_path = some [] ∨
        user_name = [] ∨ user_phone = [] ∨ code = [] ∨ time = [] ∨
        ∃ doc, readFile fs file_path = some doc ∧
          stribog256 lib (compositeStream doc user_name user_phone code time) = none := by
      rcases hmeta with h | h | h | h <;> simp [h]
    exact ⟨⟨fun _ => hc, fun _ => ⟨_, this⟩⟩, fun h => absurd hc h⟩
  have hname : user_name ≠ [] := fun h => hmeta (Or.inl h)
  have hphone : user_phone ≠ [] := fun h => hmeta (Or.inr (Or.inl h))
  have hcode : code ≠ [] := fun h => hmeta (Or.inr (Or.inr (Or.inl h)))
  have htime : time ≠ [] := fun h => hmeta (Or.inr (Or.inr (Or.inr h)))
  cases hfile : readFile fs file_path with
  | none =>
    have : ∃ e, calculateCompositeHash lib DocumentHasher.new fs file_path user_name user_phone
        code time = .error e := by
      unfold calculateCompositeHash
      simp only [hpath, if_false, hmeta, DocumentHasher.new, Bool.not_true, hfile]
      cases lib.md_open_ok <;> simp
    exact ⟨⟨fun _ => by simp, fun _ => this⟩, fun h => absurd (by simp) h⟩
  | some doc =>
    by_cases hdoc : doc = []
    · have : ∃ e, calculateCompositeHash lib DocumentHasher.new fs file_path user_name
          user_phone code time = .error e := by
        unfold calculateCompositeHash
        simp only [hpath, if_false, hmeta, DocumentHasher.new, Bool.not_true, hfile, hdoc,
          List.length_nil, if_true]
        cases lib.md_open_ok <;> simp
      exact ⟨⟨fun _ => by simp [hdoc], fun _ => this⟩, fun h => absurd (by simp [hdoc]) h⟩
    · have hcalc := calc_valid lib fs file_path user_name user_phone code time doc
        hpath hfile hdoc hname hphone hcode htime
      rw [hcalc]
      unfold stribog256
      cases hopen : lib.md_open_ok with
      | false => simp
      | true =>
        cases hread : lib.md_read (compositeStream doc user_name user_phone code time) with
        | none => simp [hread]
        | some p =>
          simp [hpath, hdoc, hname, hphone, hcode, htime, hread, STRIBOG_HASH_LENGTH]

/-- C7, evaluated where the code departs from it: the document cannot be opened
and `verifyCompositeHash` raises instead of returning false. -/
theorem verifyCompositeHash_raises_on_unreadable_file :
    verifyCompositeHash exampleGcrypt DocumentHasher.new exampleFiles (lit "missing.pdf")
      (lit "Ivanov Ivan") (lit "+79161234567") (lit "1234") (lit "2024-01-15T14:30:00+03:00")
      (lit "00ff") =
    .error (.runtime_error (lit "Verification failed: Failed to open file: missing.pdf")) := by
  rfl

/-- C8: for a non-empty byte vector `hashToHex` returns a string of twice its
length whose characters are all in `0-9a-f` and whose `i`-th pair of characters
is the two-digit hexadecimal value of byte `i`; a 32-byte digest gives 64
characters; and two vectors with the same string are equal. -/
theorem hashToHex_shape (hash : List Byte) (h : hash ≠ []) :
    ∃ hex, hashToHex hash = .ok hex ∧
      hex.length = 2 * hash.length ∧
      (∀ c ∈ hex, isLowerHex c) ∧
      (∀ (i : Nat) (hi : i < hash.length), ∃ hi_char lo_char,
        hex[2 * i]? = some hi_char ∧ hex[2 * i + 1]? = some lo_char ∧
        16 * hexVal hi_char + hexVal lo_char = (hash.get ⟨i, hi⟩).val) ∧
      (hash.length = 32 → hex.length = 64) ∧
      (∀ hash' hex', hashToHex hash' = .ok hex' → hex' = hex → hash' = hash) := by
  refine ⟨hexString hash, hashToHex_eq hash h, hexString_length hash, hexString_lower hash,
    hexString_pair hash, ?_, ?_⟩
  · intro h32; rw [hexString_length, h32]
  · intro hash' hex' hh heq
    have hne : hash' ≠ [] := by
      intro h0
      rw [h0] at hh
      simp [hashToHex] at hh
    rw [hashToHex_eq hash' hne] at hh
    cases hh
    exact hexString_inj _ _ heq

/-- Witness of C8 on three bytes. -/
theorem hashToHex_shape_witness :
    ∃ hex, hashToHex [0, 171, 255] = .ok hex ∧
      hex.length = 2 * [(0 : Byte), 171, 255].length ∧
      (∀ c ∈ hex, isLowerHex c) ∧
      (∀ (i : Nat) (hi : i < [(0 : Byte), 171, 255].length), ∃ hi_char lo_char,
        hex[2 * i]? = some hi_char ∧ hex[2 * i + 1]? = some lo_char ∧
        16 * hexVal hi_char + hexVal lo_char = ([(0 : Byte), 171, 255].get ⟨i, hi⟩).val) ∧
      ([(0 : Byte), 171, 255].length = 32 → hex.length = 64) ∧
      (∀ hash' hex', hashToHex hash' = .ok hex' → hex' = hex → hash' = [0, 171, 255]) :=
  hashToHex_shape [0, 171, 255] (by decide)

/-! ## Lemmas on the service -/

theorem isAuthTokenValid_bad (w : World) (auth_token : Str)
    (h : auth_token ≠ w.config_.auth_token) :
    isAuthTokenValid w auth_token =
      Result.error .INVALID_AUTH_TOKEN (lit "Invalid authorization token") := by
  unfold isAuthTokenValid
  rw [if_pos (fun e => h e.symm)]

theorem isAuthTokenValid_good (w : World) :
    isAuthTokenValid w w.config_.auth_token = Result.success true := by
  unfold isAuthTokenValid
  simp

theorem log_frame (env : Env) (t : MESSAGE_TYPE) (m : Str) (w : World) :
    (w.log env t m).fs = w.fs ∧ (w.log env t m).trace = w.trace ∧
    (w.log env t m).config_ = w.config_ ∧
    (w.log env t m).logger_.enabled_ = w.logger_.enabled_ ∧
    (w.log env t m).file_counter = w.file_counter ∧
    (w.log env t m).wk_initialized_ = w.wk_initialized_ ∧
    (w.log env t m).document_hasher_ = w.document_hasher_ := by
  unfold World.log LoggerService.log
  cases h : w.logger_.enabled_ <;> simp [h]

/-- C9: a call of `signDocument`, `generateConfirmationCode`, `updateConfig` or
`setMessageServiceCreds` whose token differs from the configured `auth_token`
returns an error of kind `INVALID_AUTH_TOKEN`; the files, the record of
collaborator calls, the config and the logging-enabled flag are as before the
call (for the last three operations the whole state is). -/
theorem invalid_token_rejected (env : Env) (w : World) (auth_token : Str)
    (test_mode need_all_user_data_fields : Bool) (user_identity : UserIdentity)
    (confirmation_code : Str) (length : Int) (new_config : Config) (login password : Str)
    (h : auth_token ≠ w.config_.auth_token) :
    ((signDocument env auth_token test_mode need_all_user_data_fields user_identity
        confirmation_code w).1.error_code_ = .INVALID_AUTH_TOKEN ∧
      (signDocument env auth_token test_mode need_all_user_data_fields user_identity
        confirmation_code w).2.fs = w.fs ∧
      (signDocument env auth_token test_mode need_all_user_data_fields user_identity
        confirmation_code w).2.trace = w.trace ∧
      (signDocument env auth_token test_mode need_all_user_data_fields user_identity
        confirmation_code w).2.config_ = w.config_ ∧
      (signDocument env auth_token test_mode need_all_user_data_fields user_identity
        confirmation_code w).2.logger_.enabled_ = w.logger_.enabled_ ∧
      (signDocument env auth_token test_mode need_all_user_data_fields user_identity
        confirmation_code w).2.file_counter = w.file_counter) ∧
    ((generateConfirmationCode env auth_token length w).1.error_code_ = .INVALID_AUTH_TOKEN ∧
      (generateConfirmationCode env auth_token length w).2 = w) ∧
    ((updateConfig auth_token new_config w).1.error_code_ = .INVALID_AUTH_TOKEN ∧
      (updateConfig auth_token new_config w).2 = w) ∧
    ((setMessageServiceCreds env auth_token login password w).1.error_code_
        = .INVALID_AUTH_TOKEN ∧
      (setMessageServiceCreds env auth_token login password w).2 = w) := by
  have hbad := isAuthTokenValid_bad w auth_token h
  refine ⟨?_, ?_, ?_, ?_⟩
  · have hs : signDocument env auth_token test_mode need_all_user_data_fields user_identity
        confirmation_code w =
        (Result.error .INVALID_AUTH_TOKEN (lit "Invalid authorization token"),
          logError env (lit "SignatureService: authentication failed") w) := by
      unfold signDocument signDocumentBody
      simp [hbad, Result.isError, Result.isSuccess, Result.error]
    rw [hs]
    have hf := log_frame env .ERROR (lit "SignatureService: authentication failed") w
    exact ⟨rfl, hf.1, hf.2.1, hf.2.2.1, hf.2.2.2.1, hf.2.2.2.2.1⟩
  · unfold generateConfirmationCode
    simp [hbad, Result.isError, Result.isSuccess, Result.error]
  · unfold updateConfig
    simp [hbad, Result.isError, Result.isSuccess, Result.error]
  · unfold setMessageServiceCreds
    simp [hbad, Result.isError, Result.isSuccess, Result.error]

/-- Witness of C9: the token `WRONG` against the example state. -/
theorem invalid_token_rejected_witness :
    (signDocument exampleEnv (lit "WRONG") false false exampleUser (lit "1234")
        exampleWorld).1.error_code_ = .INVALID_AUTH_TOKEN ∧
    (signDocument exampleEnv (lit "WRONG") false false exampleUser (lit "1234")
        exampleWorld).2.fs = exampleWorld.fs ∧
    (signDocument exampleEnv (lit "WRONG") false false exampleUser (lit "1234")
        exampleWorld).2.trace = exampleWorld.trace :=
  have h := (invalid_token_rejected exampleEnv exampleWorld (lit "WRONG") false false
    exampleUser (lit "1234") 4 {} (lit "login") (lit "password") (by decide)).1
  ⟨h.1, h.2.1, h.2.2.1⟩

theorem prepare_code (env : Env) (user : UserIdentity) (w : World)
    (r : Result DocumentPreparationResult) (w' : World)
    (h : prepareDocumentForSigning env user w = (.ok r, w')) :
    r.error_code_ ≠ .INVALID_USER_DATA := by
  unfold prepareDocumentForSigning prepareCatch at h
  dsimp only at h
  repeat' split at h
  all_goals first
    | (simp only [Prod.mk.injEq, Except.ok.injEq] at h
       rw [← h.1]; simp [Result.error, Result.success])
    | (simp at h)

theorem send_code (env : Env) (test_mode : Bool) (phone text : Str) (w : World)
    (r : Result MessageSendingResult) (w' : World)
    (h : sendMessageToPhone env test_mode phone text w = (.ok r, w')) :
    r.error_code_ ≠ .INVALID_USER_DATA := by
  unfold sendMessageToPhone at h
  dsimp only at h
  repeat' split at h
  all_goals first
    | (simp only [Prod.mk.injEq, Except.ok.injEq] at h
       rw [← h.1]; simp [Result.error, Result.success])
    | (simp at h)

theorem stamp_code (env : Env) (user : UserIdentity)
    (p : Result DocumentPreparationResult) (m : Result MessageSendingResult) (w : World)
    (r : Result DocumentSigningResult) (w' : World)
    (hp : p.isError = false) (hm : m.isError = false)
    (h : createStampOnPdf env user p m w = (.ok r, w')) :
    r.error_code_ ≠ .INVALID_USER_DATA := by
  unfold createStampOnPdf stampCatch at h
  simp only [hp, hm, Bool.or_self, Bool.false_eq_true, if_false] at h
  repeat' split at h
  all_goals first
    | (simp only [Prod.mk.injEq, Except.ok.injEq] at h
       rw [← h.1]; simp [Result.error, Result.success])
    | (simp at h)

theorem body_code_of_valid (env : Env) (test_mode : Bool) (user : UserIdentity) (code : Str)
    (w : World) (r : Result DocumentSigningResult) (w' : World) :
    (match prepareDocumentForSigning env user w with
      | (.error e, w) => ((.error e, w) : Except Exn (Result DocumentSigningResult) × World)
      | (.ok prep_result, w) =>
        if prep_result.isError then
          let w := logError env (lit "SignatureService: document preparation failed") w
          (.ok (Result.error prep_result.error_code_ prep_result.error_message_), w)
        else
          match sendMessageToPhone env test_mode user.phone_number code w with
          | (.error e, w) => (.error e, w)
          | (.ok msg_result, w) =>
            if msg_result.isError then
              let w := logError env (lit "SignatureService: message sending failed") w
              (.ok (Result.error msg_result.error_code_ msg_result.error_message_), w)
            else
              let w := logInfo env (lit "SignatureService: creating PDF stamp") w
              match createStampOnPdf env user prep_result msg_result w with
              | (.error e, w) => (.error e, w)
              | (.ok sign_result, w) =>
                if sign_result.isError then
                  let w := logError env (lit "SignatureService: PDF stamp creation failed") w
                  (.ok (Result.error sign_result.error_code_ sign_result.error_message_), w)
                else
                  let w := logSuccess env
                    (lit "SignatureService: document signed successfully for: " ++
                      user.phone_number) w
                  (.ok sign_result, w)) = (.ok r, w') →
    r.error_code_ ≠ .INVALID_USER_DATA := by
  intro h
  cases hprep : prepareDocumentForSigning env user w with
  | mk pr w1 =>
    rw [hprep] at h
    cases pr with
    | error e => simp at h
    | ok prep_result =>
      have hpc := prepare_code env user w prep_result w1 hprep
      dsimp only at h
      by_cases hpe : prep_result.isError = true
      · simp only [hpe, if_true, Prod.mk.injEq, Except.ok.injEq] at h
        rw [← h.1]; simpa [Result.error] using hpc
      · simp only [hpe, Bool.false_eq_true, if_false] at h
        cases hsend : sendMessageToPhone env test_mode user.phone_number code w1 with
        | mk sr w2 =>
          rw [hsend] at h
          cases sr with
          | error e => simp at h
          | ok msg_result =>
            have hsc := send_code env test_mode user.phone_number code w1 msg_result w2 hsend
            dsimp only at h
            by_cases hme : msg_result.isError = true
            · simp only [hme, if_true, Prod.mk.injEq, Except.ok.injEq] at h
              rw [← h.1]; simpa [Result.error] using hsc
            · simp only [hme, Bool.false_eq_true, if_false] at h
              cases hstamp : createStampOnPdf env user prep_result msg_result
                  (logInfo env (lit "SignatureService: creating PDF stamp") w2) with
              | mk st w3 =>
                rw [hstamp] at h
                cases st with
                | error e => simp at h
                | ok sign_result =>
                  have hst := stamp_code env user prep_result msg_result _ sign_result w3
                    (by simpa using hpe) (by simpa using hme) hstamp
                  dsimp only at h
                  by_cases hse : sign_result.isError = true
                  · simp only [hse, if_true, Prod.mk.injEq, Except.ok.injEq] at h
                    rw [← h.1]; simpa [Result.error] using hst
                  · simp only [hse, Bool.false_eq_true, if_false, Prod.mk.injEq,
                      Except.ok.injEq] at h
                    rw [← h.1]; exact hst

/-- C10: for a valid token and a confirmation code that is not `LOG_ON` or
`LOG_OFF`, `signDocument` returns `INVALID_USER_DATA` exactly when a required
field is empty: first, middle, last name or phone without
`need_all_user_data_fields`, any of the 14 identity fields with it. When it
returns `INVALID_USER_DATA` the files and the record of collaborator calls are
as before the call. -/
theorem signDocument_invalid_user_data_iff (env : Env) (w : World)
    (test_mode need_all_user_data_fields : Bool) (user : UserIdentity) (code : Str)
    (hon : code ≠ lit "LOG_ON") (hoff : code ≠ lit "LOG_OFF") :
    (need_all_user_data_fields = false →
      ((signDocument env w.config_.auth_token test_mode need_all_user_data_fields user code
          w).1.error_code_ = .INVALID_USER_DATA ↔
        (user.first_name = [] ∨ user.middle_name = [] ∨ user.last_name = [] ∨
          user.phone_number = []))) ∧
    (need_all_user_data_fields = true →
      ((signDocument env w.config_.auth_token test_mode need_all_user_data_fields user code
          w).1.error_code_ = .INVALID_USER_DATA ↔
        (user.first_name = [] ∨ user.middle_name = [] ∨ user.last_name = [] ∨
          user.passport_series = [] ∨ user.passport_number = [] ∨
          user.passport_issued_by = [] ∨ user.passport_issued_date = [] ∨
          user.passport_unite_code = [] ∨ user.passport_birthday_date = [] ∨
          user.passport_birthday_place = [] ∨ user.passport_registration_address = [] ∨
          user.passport_registration_date = [] ∨ user.email = [] ∨
          user.phone_number = []))) ∧
    ((signDocument env w.config_.auth_token test_mode need_all_user_data_fields user code
        w).1.error_code_ = .INVALID_USER_DATA →
      (signDocument env w.config_.auth_token test_mode need_all_user_data_fields user code
        w).2.fs = w.fs ∧
      (signDocument env w.config_.auth_token test_mode need_all_user_data_fields user code
        w).2.trace = w.trace) := by
  -- the validation result of the call
  set v : Result Bool :=
    if need_all_user_data_fields = true then isUserIdentityHasAllFields user
    else isUserIdentityHasReqFields user with hv
  -- a failed validation ends the call with its error
  have hfail : v.isError = true →
      signDocument env w.config_.auth_token test_mode need_all_user_data_fields user code w =
        (Result.error v.error_code_ v.error_message_,
          logError env (lit "SignatureService: user validation failed for: " ++
            user.phone_number) w) := by
    intro he
    unfold signDocument signDocumentBody
    simp only [isAuthTokenValid_good, Result.isError, Result.isSuccess, Result.success,
      decide_True, Bool.not_true, Bool.false_eq_true, if_false, hon, hoff]
    simp only [Result.isError, Result.isSuccess] at he
    simp only [← hv, he, if_true]
  -- a passed validation never ends in INVALID_USER_DATA
  have hpass : v.isError = false →
      (signDocument env w.config_.auth_token test_mode need_all_user_data_fields user code
        w).1.error_code_ ≠ .INVALID_USER_DATA := by
    intro he
    unfold signDocument signDocumentBody
    simp only [isAuthTokenValid_good, Result.isError, Result.isSuccess, Result.success,
      decide_True, Bool.not_true, Bool.false_eq_true, if_false, hon, hoff]
    simp only [Result.isError, Result.isSuccess] at he
    simp only [← hv, he, Bool.false_eq_true, if_false]
    have key := body_code_of_valid env test_mode user code
      (logInfo env (lit "SignatureService: preparing document for signing") w)
    simp only [Result.isError, Result.isSuccess] at key
    split
    · rename_i r w' hb
      exact key r w' hb
    · split <;> simp [Result.error]
  have hallE : (isUserIdentityHasAllFields user).isError = true ↔
      (user.first_name = [] ∨ user.middle_name = [] ∨ user.last_name = [] ∨
        user.passport_series = [] ∨ user.passport_number = [] ∨
        user.passport_issued_by = [] ∨ user.passport_issued_date = [] ∨
        user.passport_unite_code = [] ∨ user.passport_birthday_date = [] ∨
        user.passport_birthday_place = [] ∨ user.passport_registration_address = [] ∨
        user.passport_registration_date = [] ∨ user.email = [] ∨
        user.phone_number = []) := by
    unfold isUserIdentityHasAllFields
    split_ifs with hc
    · simp [Result.isError, Result.isSuccess, Result.error, hc]
    · simp [Result.isError, Result.isSuccess, Result.success, hc]
  have hreqE : (isUserIdentityHasReqFields user).isError = true ↔
      (user.first_name = [] ∨ user.middle_name = [] ∨ user.last_name = [] ∨
        user.phone_number = []) := by
    unfold isUserIdentityHasReqFields
    split_ifs with hc
    · simp [Result.isError, Result.isSuccess, Result.error, hc]
    · simp [Result.isError, Result.isSuccess, Result.success, hc]
  have hcode : v.isError = true → v.error_code_ = .INVALID_USER_DATA := by
    intro he
    rw [hv] at he ⊢
    unfold isUserIdentityHasAllFields isUserIdentityHasReqFields at he ⊢
    split_ifs at he ⊢ <;>
      first
        | rfl
        | (simp [Result.isError, Result.isSuccess, Result.success] at he)
  have hiff : (signDocument env w.config_.auth_token test_mode need_all_user_data_fields user
      code w).1.error_code_ = .INVALID_USER_DATA ↔ v.isError = true := by
    constructor
    · intro h
      by_contra hne
      exact hpass (by simpa using hne) h
    · intro he
      rw [hfail he]
      simpa [Result.error] using hcode he
  refine ⟨?_, ?_, ?_⟩
  · intro hmode
    rw [hiff, hv, hmode]
    simpa using hreqE
  · intro hmode
    rw [hiff, hv, hmode]
    simpa using hallE
  · intro h
    have he := hiff.mp h
    rw [hfail he]
    have hf := log_frame env .ERROR
      (lit "SignatureService: user validation failed for: " ++ user.phone_number) w
    exact ⟨hf.1, hf.2.1⟩

/-- Witness of C10: the identity without a phone number, `need_all_user_data_fields`
off. -/
theorem signDocument_invalid_user_data_iff_witness :
    (signDocument exampleEnv exampleWorld.config_.auth_token true false
        { exampleUser with phone_number := [] } (lit "1234") exampleWorld).1.error_code_
      = .INVALID_USER_DATA :=
  ((signDocument_invalid_user_data_iff exampleEnv exampleWorld true false
      { exampleUser with phone_number := [] } (lit "1234") (by decide) (by decide)).1 rfl).mpr
    (Or.inr (Or.inr (Or.inr rfl)))

/-- C1, evaluated where the code departs from it: preparation succeeds, the SMS
provider does not report `accepted`, and on return both temp files of the call
are still on disk. -/
theorem signDocument_sms_failure_keeps_temp_files :
    (prepareDocumentForSigning exampleEnv exampleUser exampleWorld).1 =
      .ok (Result.success
        { temp_html_path := lit "/tmp/template_1700000000_7_0_42.html"
          temp_pdf_path := lit "/tmp/temp_document_1700000000_7_1_43.pdf" }) ∧
    fileExists exampleWorld.fs (lit "/tmp/template_1700000000_7_0_42.html") = false ∧
    fileExists exampleWorld.fs (lit "/tmp/temp_document_1700000000_7_1_43.pdf") = false ∧
    (signDocument exampleEnv (lit "AUTH_TOKEN") false false exampleUser (lit "1234")
      exampleWorld).1.error_code_ = .SMS_SEND_ERROR ∧
    fileExists (signDocument exampleEnv (lit "AUTH_TOKEN") false false exampleUser (lit "1234")
      exampleWorld).2.fs (lit "/tmp/template_1700000000_7_0_42.html") = true ∧
    fileExists (signDocument exampleEnv (lit "AUTH_TOKEN") false false exampleUser (lit "1234")
      exampleWorld).2.fs (lit "/tmp/temp_document_1700000000_7_1_43.pdf") = true := by
  refine ⟨rfl, rfl, rfl, rfl, rfl, rfl⟩

/-- C2, evaluated where the code departs from it: preparation and confirmation
delivery succeed, the stamper reports failure, the result is
`STAMP_APPLICATION_ERROR`, the temp PDF is deleted and the temp HTML is still on
disk. -/
theorem signDocument_stamp_failure_keeps_temp_html :
    (signDocument exampleEnv (lit "AUTH_TOKEN") true false exampleUser (lit "1234")
      exampleWorld).1.error_code_ = .STAMP_APPLICATION_ERROR ∧
    fileExists exampleWorld.fs (lit "/tmp/template_1700000000_7_0_42.html") = false ∧
    fileExists (signDocument exampleEnv (lit "AUTH_TOKEN") true false exampleUser (lit "1234")
      exampleWorld).2.fs (lit "/tmp/temp_document_1700000000_7_1_43.pdf") = false ∧
    fileExists (signDocument exampleEnv (lit "AUTH_TOKEN") true false exampleUser (lit "1234")
      exampleWorld).2.fs (lit "/tmp/template_1700000000_7_0_42.html") = true := by
  refine ⟨rfl, rfl, rfl, rfl⟩

/-! ## The claims on the service, continued -/

/-- C12: with a valid token and the confirmation code `LOG_ON` or `LOG_OFF`,
whatever the identity and the test mode, `signDocument` returns an error whose
value holds no signing data, leaves the files and the record of collaborator
calls as they were, and switches the logger: enabled after `LOG_ON`, disabled
after `LOG_OFF`. -/
theorem signDocument_log_toggle (env : Env) (w : World) (test_mode need_all : Bool)
    (user : UserIdentity) :
    ((signDocument env w.config_.auth_token test_mode need_all user (lit "LOG_ON") w).1.isError
        = true ∧
      (signDocument env w.config_.auth_token test_mode need_all user (lit "LOG_ON") w).1.value_
        = ({} : DocumentSigningResult) ∧
      (signDocument env w.config_.auth_token test_mode need_all user (lit "LOG_ON") w).2.fs
        = w.fs ∧
      (signDocument env w.config_.auth_token test_mode need_all user (lit "LOG_ON") w).2.trace
        = w.trace ∧
      (signDocument env w.config_.auth_token test_mode need_all user (lit "LOG_ON")
        w).2.logger_.enabled_ = true) ∧
    ((signDocument env w.config_.auth_token test_mode need_all user (lit "LOG_OFF") w).1.isError
        = true ∧
      (signDocument env w.config_.auth_token test_mode need_all user (lit "LOG_OFF") w).1.value_
        = ({} : DocumentSigningResult) ∧
      (signDocument env w.config_.auth_token test_mode need_all user (lit "LOG_OFF") w).2.fs
        = w.fs ∧
      (signDocument env w.config_.auth_token test_mode need_all user (lit "LOG_OFF") w).2.trace
        = w.trace ∧
      (signDocument env w.config_.auth_token test_mode need_all user (lit "LOG_OFF")
        w).2.logger_.enabled_ = false) := by
  have hon : signDocument env w.config_.auth_token test_mode need_all user (lit "LOG_ON") w =
      (Result.error .UNKNOWN_ERROR (lit "Unexpected error in signDocument: "),
        logInfo env (lit "SignatureService: logger was started")
          { w with logger_ := w.logger_.enable }) := by
    unfold signDocument signDocumentBody
    simp [isAuthTokenValid_good, Result.isError, Result.isSuccess, Result.success]
  have hne : lit "LOG_OFF" ≠ lit "LOG_ON" := by decide
  have hoff : signDocument env w.config_.auth_token test_mode need_all user (lit "LOG_OFF") w =
      (Result.error .UNKNOWN_ERROR (lit "Unexpected error in signDocument: "),
        { logInfo env (lit "SignatureService: logger was stoped") w with
          logger_ := (logInfo env (lit "SignatureService: logger was stoped")
            w).logger_.disable }) := by
    unfold signDocument signDocumentBody
    simp [isAuthTokenValid_good, Result.isError, Result.isSuccess, Result.success, hne]
  rw [hon, hoff]
  refine ⟨⟨rfl, rfl, ?_, ?_, ?_⟩, ⟨rfl, rfl, ?_, ?_, rfl⟩⟩
  · exact (log_frame env .INFO _ _).1
  · exact (log_frame env .INFO _ _).2.1
  · rw [logInfo, (log_frame env .INFO _ _).2.2.2.1]; rfl
  · exact (log_frame env .INFO (lit "SignatureService: logger was stoped") w).1
  · exact (log_frame env .INFO (lit "SignatureService: logger was stoped") w).2.1

/-- C16: `updateConfig` with the valid token succeeds for every new config, the
config of the service is then the new config in every field and a token is
accepted afterwards exactly when it is the new `auth_token`; with an invalid
token it returns an error and leaves the config as it was. -/
theorem updateConfig_replaces_config (w : World) (new_config : Config) :
    (updateConfig w.config_.auth_token new_config w).1.isSuccess = true ∧
    (updateConfig w.config_.auth_token new_config w).2.config_ = new_config ∧
    (∀ token, (isAuthTokenValid (updateConfig w.config_.auth_token new_config w).2
        token).isSuccess = true ↔ token = new_config.auth_token) ∧
    (∀ token, token ≠ w.config_.auth_token →
      (updateConfig token new_config w).1.isError = true ∧
      (updateConfig token new_config w).2.config_ = w.config_) := by
  have h : updateConfig w.config_.auth_token new_config w =
      (Result.success (), { w with config_ := new_config }) := by
    unfold updateConfig
    simp [isAuthTokenValid_good, Result.isError, Result.isSuccess, Result.success]
  refine ⟨by rw [h]; rfl, by rw [h], ?_, ?_⟩
  · intro token
    rw [h]
    unfold isAuthTokenValid
    by_cases ht : token = new_config.auth_token
    · simp [ht, Result.isSuccess, Result.success]
    · have : ¬ new_config.auth_token = token := fun e => ht e.symm
      simp [ht, this, Result.isSuccess, Result.error]
  · intro token ht
    unfold updateConfig
    simp [isAuthTokenValid_bad w token ht, Result.isError, Result.isSuccess, Result.error]

theorem to_string_digit (d : Fin 10) : to_string d.val = [Fin.ofNat (48 + d.val)] := by
  have h : d.val < 10 := d.isLt
  simp [to_string, decimalDigits, h]

theorem digits_foldl (f : Nat → Fin 10) (l : List Nat) (acc : Str)
    (hacc : ∀ c ∈ acc, 48 ≤ c.val ∧ c.val ≤ 57) :
    (l.foldl (fun code i => code ++ to_string (f i).val) acc).length = acc.length + l.length ∧
    ∀ c ∈ l.foldl (fun code i => code ++ to_string (f i).val) acc, 48 ≤ c.val ∧ c.val ≤ 57 := by
  induction l generalizing acc with
  | nil => simpa using hacc
  | cons i is ih =>
    have hstep : ∀ c ∈ acc ++ to_string (f i).val, 48 ≤ c.val ∧ c.val ≤ 57 := by
      intro c hc
      rcases List.mem_append.mp hc with h | h
      · exact hacc c h
      · rw [to_string_digit] at h
        have hc' : c = Fin.ofNat (48 + (f i).val) := by simpa using h
        have hd := (f i).isLt
        rw [hc']
        simp only [Fin.ofNat]
        omega
    obtain ⟨h1, h2⟩ := ih (acc ++ to_string (f i).val) hstep
    refine ⟨?_, h2⟩
    rw [List.foldl_cons, h1, List.length_append, to_string_digit]
    simp only [List.length_cons, List.length_nil]
    omega

/-- C17: for the valid token and every length `n ≥ 0`,
`generateConfirmationCode` returns a success whose value has exactly `n`
characters, each a decimal digit, whatever the random source draws (in
particular 4 digits for the default length 4); the config and the files are
as before the call. -/
theorem generateConfirmationCode_digits (env : Env) (w : World) (n : Nat) :
    (generateConfirmationCode env w.config_.auth_token (n : Int) w).1.isSuccess = true ∧
    (generateConfirmationCode env w.config_.auth_token (n : Int) w).1.value_.length = n ∧
    (∀ c ∈ (generateConfirmationCode env w.config_.auth_token (n : Int) w).1.value_,
      48 ≤ c.val ∧ c.val ≤ 57) ∧
    (generateConfirmationCode env w.config_.auth_token (4 : Int) w).1.value_.length = 4 ∧
    (generateConfirmationCode env w.config_.auth_token (n : Int) w).2.config_ = w.config_ ∧
    (generateConfirmationCode env w.config_.auth_token (n : Int) w).2.fs = w.fs := by
  have h : ∀ m : Nat, generateConfirmationCode env w.config_.auth_token (m : Int) w =
      (Result.success (MessageService.generateConfirmationCode env (m : Int)),
        w.record (.random_digits (m : Int))) := by
    intro m
    unfold generateConfirmationCode
    simp [isAuthTokenValid_good, Result.isError, Result.isSuccess, Result.success]
  have hd : ∀ m : Nat,
      (MessageService.generateConfirmationCode env (m : Int)).length = m ∧
      ∀ c ∈ MessageService.generateConfirmationCode env (m : Int), 48 ≤ c.val ∧ c.val ≤ 57 := by
    intro m
    unfold MessageService.generateConfirmationCode
    have := digits_foldl env.random_digit (List.range m) [] (by simp)
    simpa using this
  have h4 := h 4
  simp only [Nat.cast_ofNat] at h4
  have hd4 := (hd 4).1
  simp only [Nat.cast_ofNat] at hd4
  rw [h n, h4]
  exact ⟨rfl, (hd n).1, (hd n).2, hd4, rfl, rfl⟩

/-! ## Placeholder replacement -/

theorem replaceAllAux_skip (k v : Str) :
    ∀ (x rest : Str), replaceAllAux k v x.length (x ++ rest) = replaceAllAux k v 0 rest := by
  intro x
  induction x with
  | nil => intro rest; rfl
  | cons c cs ih =>
    intro rest
    simp only [List.length_cons, List.cons_append, replaceAllAux]
    exact ih rest

theorem replaceAll_occurrence (k v rest : Str) (hk : k ≠ []) :
    replaceAll k v (k ++ rest) = v ++ replaceAll k v rest := by
  cases k with
  | nil => exact absurd rfl hk
  | cons c k' =>
    have hp : (c :: k').isPrefixOf (c :: (k' ++ rest)) = true := by
      rw [List.isPrefixOf_iff_prefix]
      exact ⟨rest, rfl⟩
    have hskip := replaceAllAux_skip (c :: k') v k' rest
    show replaceAllAux (c :: k') v 0 (c :: (k' ++ rest)) = v ++ replaceAllAux (c :: k') v 0 rest
    rw [replaceAllAux, if_pos hp]
    simp only [List.length_cons, Nat.add_sub_cancel]
    rw [hskip]

theorem replaceAll_other (k v : Str) (c : Byte) (cs : Str)
    (h : k.isPrefixOf (c :: cs) = false) :
    replaceAll k v (c :: cs) = c :: replaceAll k v cs := by
  unfold replaceAll
  simp [replaceAllAux, h]

theorem findFrom_spec (k v : Str) (hk : k ≠ []) :
    ∀ (s : Str) (offset : Nat),
      (findFrom k s offset = none → replaceAll k v s = s ∧ ¬ occursIn k s) ∧
      (∀ found, findFrom k s offset = some found →
        ∃ j, found = offset + j ∧ j + k.length ≤ s.length ∧
          s.drop j = k ++ s.drop (j + k.length) ∧
          replaceAll k v s = s.take j ++ v ++ replaceAll k v (s.drop (j + k.length))) := by
  intro s
  induction s with
  | nil =>
    intro offset
    have hp : k.isPrefixOf [] = false := by
      cases k with
      | nil => exact absurd rfl hk
      | cons c k' => rfl
    constructor
    · intro _
      refine ⟨rfl, ?_⟩
      rintro ⟨before, after, h⟩
      have := congrArg List.length h
      simp only [List.length_nil, List.length_append] at this
      have : k.length = 0 := by omega
      exact hk (List.length_eq_zero.mp this)
    · intro found h
      simp [findFrom, hp] at h
  | cons c cs ih =>
    intro offset
    by_cases hp : k.isPrefixOf (c :: cs) = true
    · constructor
      · intro h
        simp [findFrom, hp] at h
      · intro found h
        simp only [findFrom, hp, if_true, Option.some.injEq] at h
        obtain ⟨rest, hrest⟩ := List.isPrefixOf_iff_prefix.mp hp
        refine ⟨0, by omega, ?_, ?_, ?_⟩
        · rw [← hrest]; simp
        · rw [← hrest]; simp
        · rw [← hrest]
          simp only [Nat.zero_add, List.take_zero, List.nil_append, List.drop_left]
          exact replaceAll_occurrence k v rest hk
    · have hp' : k.isPrefixOf (c :: cs) = false := by
        cases hb : k.isPrefixOf (c :: cs) with
        | false => rfl
        | true => exact absurd hb hp
      obtain ⟨ih1, ih2⟩ := ih (offset + 1)
      constructor
      · intro h
        simp only [findFrom, hp', Bool.false_eq_true, if_false] at h
        obtain ⟨h1, h2⟩ := ih1 h
        refine ⟨by rw [replaceAll_other k v c cs hp', h1], ?_⟩
        rintro ⟨before, after, hocc⟩
        cases before with
        | nil =>
          apply hp
          rw [List.isPrefixOf_iff_prefix]
          exact ⟨after, by simpa using hocc.symm⟩
        | cons b bs =>
          apply h2
          refine ⟨bs, after, ?_⟩
          simp only [List.cons_append, List.cons.injEq] at hocc
          exact hocc.2
      · intro found h
        simp only [findFrom, hp', Bool.false_eq_true, if_false] at h
        obtain ⟨j, hj1, hj2, hj3, hj4⟩ := ih2 found h
        refine ⟨j + 1, by omega, by simp only [List.length_cons]; omega, ?_, ?_⟩
        · have : j + 1 + k.length = (j + k.length) + 1 := by omega
          rw [this]
          simpa using hj3
        · have : j + 1 + k.length = (j + k.length) + 1 := by omega
          rw [this, replaceAll_other k v c cs hp', hj4]
          simp

theorem replaceLoop_spec (k v : Str) (hk : k ≠ []) :
    ∀ (fuel : Nat) (result : Str) (pos : Nat), pos ≤ result.length →
      result.length - pos < fuel →
      replaceLoop k v fuel result pos =
        some (result.take pos ++ replaceAll k v (result.drop pos)) := by
  intro fuel
  induction fuel with
  | zero => intro result pos _ h; omega
  | succ fuel ih =>
    intro result pos hpos hfuel
    have hfind : find result k pos = findFrom k (result.drop pos) pos := by
      unfold find
      rw [if_neg (by omega)]
    unfold replaceLoop
    rw [hfind]
    obtain ⟨h1, h2⟩ := findFrom_spec k v hk (result.drop pos) pos
    cases hf : findFrom k (result.drop pos) pos with
    | none =>
      simp only
      rw [(h1 hf).1, List.take_append_drop]
    | some found =>
      simp only
      obtain ⟨j, hj1, hj2, hj3, hj4⟩ := h2 found hf
      have hklen : 0 < k.length := List.length_pos.mpr hk
      have hlen : (result.drop pos).length = result.length - pos := List.length_drop _ _
      have hfound : found + k.length ≤ result.length := by omega
      have htake : (replace result found k.length v).take (found + v.length) =
          result.take found ++ v := by
        unfold replace
        have hl : (result.take found ++ v).length = found + v.length := by
          rw [List.length_append, List.length_take]
          have : min found result.length = found := by omega
          rw [this]
        rw [← hl, List.take_left]
      have hdrop : (replace result found k.length v).drop (found + v.length) =
          result.drop (found + k.length) := by
        unfold replace
        have hl : (result.take found ++ v).length = found + v.length := by
          rw [List.length_append, List.length_take]
          have : min found result.length = found := by omega
          rw [this]
        rw [← hl, List.drop_left]
      have hrlen : (replace result found k.length v).length =
          found + v.length + (result.length - (found + k.length)) := by
        unfold replace
        simp only [List.length_append, List.length_take, List.length_drop]
        have : min found result.length = found := by omega
        rw [this]
      rw [ih _ _ (by rw [hrlen]; omega) (by rw [hrlen]; omega), htake, hdrop, hj4, hj1]
      have e1 : result.take (pos + j) = result.take pos ++ (result.drop pos).take j :=
        List.take_add result pos j
      have e2 : result.drop (pos + j + k.length) = (result.drop pos).drop (j + k.length) := by
        rw [List.drop_drop]
        congr 1
        omega
      rw [e1, e2]
      simp only [List.append_assoc]

theorem replaceLoop_absent (k v t : Str) (fuel : Nat) (hfuel : 0 < fuel)
    (h : ¬ occursIn k t) : replaceLoop k v fuel t 0 = some t := by
  have hk : k ≠ [] := by
    intro hk
    apply h
    exact ⟨[], t, by simp [hk]⟩
  cases fuel with
  | zero => omega
  | succ fuel =>
    unfold replaceLoop
    have hfind : find t k 0 = findFrom k t 0 := by
      unfold find
      simp
    rw [hfind]
    obtain ⟨_, h2⟩ := findFrom_spec k v hk t 0
    cases hf : findFrom k t 0 with
    | none => rfl
    | some found =>
      obtain ⟨j, _, _, hj3, _⟩ := h2 found hf
      exfalso
      apply h
      refine ⟨t.take j, t.drop (j + k.length), ?_⟩
      rw [List.append_assoc, ← hj3, List.take_append_drop]

/-- C20: for a data object with the single non-empty key `k` whose value is the
string `v`, and every template `t`, the replacement loop ends and
`replacePlaceholdersInContent` returns `t` with every left-to-right,
non-overlapping occurrence of `k` replaced literally by `v`: nothing is
replaced in the empty text, an occurrence at the front becomes `v` followed by
the replacement of what comes after it, and a character at which `k` does not
start is kept. A template in which no key of the data occurs is returned as it
is, whatever the data. -/
theorem replacePlaceholders_single_key (k v t : Str) (fuel : Nat) (hk : k ≠ [])
    (hfuel : t.length < fuel) :
    replacePlaceholdersInContent fuel [(k, .string v)] t = some (replaceAll k v t) ∧
    replaceAll k v [] = [] ∧
    (∀ rest, replaceAll k v (k ++ rest) = v ++ replaceAll k v rest) ∧
    (∀ c cs, k.isPrefixOf (c :: cs) = false →
      replaceAll k v (c :: cs) = c :: replaceAll k v cs) ∧
    (∀ data : List (Str × JsonValue), (∀ item ∈ data, ¬ occursIn item.1 t) →
      replacePlaceholdersInContent fuel data t = some t) := by
  refine ⟨?_, rfl, fun rest => replaceAll_occurrence k v rest hk,
    fun c cs h => replaceAll_other k v c cs h, ?_⟩
  · unfold replacePlaceholdersInContent
    simp only [List.foldl_cons, List.foldl_nil, JsonValue.replacement]
    rw [replaceLoop_spec k v hk fuel t 0 (Nat.zero_le _) (by simpa using hfuel)]
    simp
  · intro data hdata
    unfold replacePlaceholdersInContent
    induction data with
    | nil => rfl
    | cons item items ih =>
      simp only [List.foldl_cons]
      rw [replaceLoop_absent item.1 item.2.replacement t fuel (by omega)
        (hdata item (List.mem_cons_self _ _))]
      exact ih (fun i hi => hdata i (List.mem_cons_of_mem _ hi))

/-- Witness of C20: the key `first_name` in a template with two occurrences, and
a value that contains its own key. -/
theorem replacePlaceholders_single_key_witness :
    replacePlaceholdersInContent 64 [(lit "first_name", .string (lit "Ivan"))]
        (lit "<p>first_name first_name</p>") = some (lit "<p>Ivan Ivan</p>") ∧
    replacePlaceholdersInContent 8 [(lit "aa", .string (lit "aaa"))] (lit "aaaaa")
        = some (lit "aaaaaaa") :=
  ⟨((replacePlaceholders_single_key (lit "first_name") (lit "Ivan")
      (lit "<p>first_name first_name</p>") 64 (by decide) (by decide)).1).trans
      (congrArg some (by rfl)),
   ((replacePlaceholders_single_key (lit "aa") (lit "aaa") (lit "aaaaa") 8
      (by decide) (by decide)).1).trans (congrArg some (by rfl))⟩

/-! ## Template cache -/

theorem evictWhileOver_length (max_size : Nat) (l : List (Str × Str)) :
    (evictWhileOver max_size l).length ≤ max_size := by
  induction l with
  | nil => simp [evictWhileOver]
  | cons e rest ih =>
    unfold evictWhileOver
    split_ifs with h
    · exact ih
    · omega

theorem getCachedFileContent_bound (ord : MapOrder) (fs : FileSystem) (file_path : Str)
    (use_cache : Bool) (self : TemplateCache)
    (hsize : self.template_cache_.length ≤ self.max_cache_size_)
    (hmax : 1 ≤ self.max_cache_size_) :
    ∃ content next, getCachedFileContent ord fs file_path use_cache self = some (content, next) ∧
      next.template_cache_.length ≤ next.max_cache_size_ ∧
      next.max_cache_size_ = self.max_cache_size_ := by
  unfold getCachedFileContent
  cases use_cache with
  | false => exact ⟨_, _, rfl, hsize, rfl⟩
  | true =>
    simp only [Bool.not_true, Bool.false_eq_true, if_false]
    cases hfind : cacheFind self.template_cache_ file_path with
    | some content => exact ⟨_, _, rfl, hsize, rfl⟩
    | none =>
      cases hread : readFile fs file_path with
      | none => exact ⟨_, _, rfl, hsize, rfl⟩
      | some content =>
        simp only
        by_cases hfull : self.template_cache_.length ≥ self.max_cache_size_
        · rw [if_pos hfull]
          cases hc : self.template_cache_ with
          | nil => rw [hc] at hfull; simp at hfull; omega
          | cons e rest =>
            refine ⟨_, _, rfl, ?_, rfl⟩
            have hp := (ord.perm rest (file_path, content)).length_eq
            rw [hc] at hsize
            simp only [List.length_cons] at hp hsize ⊢
            omega
        · rw [if_neg hfull]
          refine ⟨_, _, rfl, ?_, rfl⟩
          have hp := (ord.perm self.template_cache_ (file_path, content)).length_eq
          simp only [List.length_cons] at hp ⊢
          omega

/-- The bound of the template cache for capacities of at least 1: a sequence of
operations in which every `setTemplateCacheSize` sets a capacity of at least 1
never erases from an empty map and leaves at most as many entries as the
capacity. -/
theorem runCacheOps_bound (ord : MapOrder) (fs : FileSystem) :
    ∀ (ops : List CacheOp) (self : TemplateCache),
      self.template_cache_.length ≤ self.max_cache_size_ → 1 ≤ self.max_cache_size_ →
      (∀ n, CacheOp.setSize n ∈ ops → 1 ≤ n) →
      ∃ final, runCacheOps ord fs ops self = some final ∧
        final.template_cache_.length ≤ final.max_cache_size_ := by
  intro ops
  induction ops with
  | nil => intro self hsize _ _; exact ⟨self, rfl, hsize⟩
  | cons op ops ih =>
    intro self hsize hmax hops
    have hrest : ∀ n, CacheOp.setSize n ∈ ops → 1 ≤ n :=
      fun n hn => hops n (List.mem_cons_of_mem _ hn)
    cases op with
    | get file_path use_cache =>
      obtain ⟨content, next, hget, hb, hm⟩ :=
        getCachedFileContent_bound ord fs file_path use_cache self hsize hmax
      have : runCacheOps ord fs (CacheOp.get file_path use_cache :: ops) self =
          runCacheOps ord fs ops next := by
        simp [runCacheOps, CacheOp.apply, hget]
      rw [this]
      exact ih next hb (by omega) hrest
    | clear =>
      have : runCacheOps ord fs (CacheOp.clear :: ops) self =
          runCacheOps ord fs ops (clearTemplateCache self) := by
        simp [runCacheOps, CacheOp.apply]
      rw [this]
      exact ih _ (by simp [clearTemplateCache]) (by simpa [clearTemplateCache] using hmax) hrest
    | setSize n =>
      have hn : 1 ≤ n := hops n (List.mem_cons_self _ _)
      have : runCacheOps ord fs (CacheOp.setSize n :: ops) self =
          runCacheOps ord fs ops (setTemplateCacheSize n self) := by
        simp [runCacheOps, CacheOp.apply]
      rw [this]
      exact ih _ (by simpa [setTemplateCacheSize] using evictWhileOver_length n _)
        (by simpa [setTemplateCacheSize] using hn) hrest

/-- C18, evaluated where the code departs from it: the capacity is set to 0 on
the empty cache and a template that can be read is fetched through the cache;
the miss path finds `size() >= max_cache_size_` and calls `erase(begin())` on
the empty map, which is undefined behaviour. -/
theorem getCachedFileContent_capacity_zero :
    (setTemplateCacheSize 0 {}).template_cache_ = [] ∧
    (setTemplateCacheSize 0 {}).max_cache_size_ = 0 ∧
    getCachedFileContent frontOrder threeTemplates (lit "A.html") true
      (setTemplateCacheSize 0 {}) = none ∧
    runCacheOps frontOrder threeTemplates
      [.setSize 0, .get (lit "A.html") true] {} = none := by
  decide

theorem perm_pair {α : Type} (l : List α) (x y : α) (h : List.Perm l [x, y]) :
    l = [x, y] ∨ l = [y, x] := by
  have hlen := h.length_eq
  match l, hlen with
  | [p, q], _ =>
    have hp : p ∈ [x, y] := h.subset (List.mem_cons_self _ _)
    simp only [List.mem_cons, List.mem_singleton, List.not_mem_nil, or_false] at hp
    rcases hp with rfl | rfl
    · have := (List.perm_cons p).mp h
      rw [List.perm_singleton] at this
      left; rw [this]
    · have h2 : List.Perm [p, q] [p, x] := h.trans (List.Perm.swap _ _ _)
      have := (List.perm_cons p).mp h2
      rw [List.perm_singleton] at this
      right; rw [this]

/-- C19, as stated, fails: with a map whose iteration starts at the element
inserted last, capacity 2 and cached gets of the templates A, B, C in that
order, the miss on C evicts B; the cache then holds C and A, and A, the entry
inserted earliest, has not been evicted. -/
theorem cache_eviction_not_oldest :
    runCacheOps frontOrder threeTemplates
        [.setSize 2, .get (lit "A.html") true, .get (lit "B.html") true,
          .get (lit "C.html") true] {} =
      some { template_cache_ := [(lit "C.html", lit "<c/>"), (lit "A.html", lit "<a/>")]
             max_cache_size_ := 2 } ∧
    cacheFind [(lit "C.html", lit "<c/>"), (lit "A.html", lit "<a/>")] (lit "A.html")
      = some (lit "<a/>") ∧
    cacheFind [(lit "C.html", lit "<c/>"), (lit "A.html", lit "<a/>")] (lit "B.html")
      = none := by
  decide

/-- C19, amended: when a cached get misses while the cache holds as many entries
as its capacity, exactly one entry is evicted, the first in the iteration order
of the map (which need not be the earliest inserted), and the new entry is
inserted: the cache is then an arrangement of the new entry and the entries
after the first. In particular with capacity 2, cached gets of three distinct
readable templates A, B, C in that order leave exactly two entries: C and one
of A and B. -/
theorem cache_eviction_first_in_iteration_order (ord : MapOrder) (fs : FileSystem)
    (a b c ca cb cc : Str) (hab : a ≠ b) (hac : a ≠ c) (hbc : b ≠ c)
    (ha : readFile fs a = some ca) (hb : readFile fs b = some cb)
    (hc : readFile fs c = some cc) :
    (∀ (self : TemplateCache) (first : Str × Str) (rest : List (Str × Str))
        (file_path content : Str),
      self.template_cache_ = first :: rest →
      self.template_cache_.length ≥ self.max_cache_size_ →
      cacheFind self.template_cache_ file_path = none →
      readFile fs file_path = some content →
      ∃ next, getCachedFileContent ord fs file_path true self = some (some content, next) ∧
        List.Perm next.template_cache_ ((file_path, content) :: rest) ∧
        next.template_cache_.length = self.template_cache_.length) ∧
    (∃ final, runCacheOps ord fs
        [.setSize 2, .get a true, .get b true, .get c true] {} = some final ∧
      final.template_cache_.length = 2 ∧
      cacheFind final.template_cache_ c = some cc ∧
      ((cacheFind final.template_cache_ a = some ca ∧ cacheFind final.template_cache_ b = none) ∨
       (cacheFind final.template_cache_ a = none ∧
        cacheFind final.template_cache_ b = some cb))) := by
  constructor
  · intro self first rest file_path content hcache hfull hmiss hread
    refine ⟨{ self with template_cache_ := ord.insert rest (file_path, content) }, ?_,
      ord.perm rest (file_path, content), ?_⟩
    · unfold getCachedFileContent
      simp only [Bool.not_true, Bool.false_eq_true, if_false, hmiss, hread, if_pos hfull]
      rw [hcache]
    · have := (ord.perm rest (file_path, content)).length_eq
      rw [hcache]
      simpa using this
  · have hba : b ≠ a := fun e => hab e.symm
    have hca : c ≠ a := fun e => hac e.symm
    have hcb : c ≠ b := fun e => hbc e.symm
    -- after the first get the cache holds A alone
    have h1 : ord.insert [] (a, ca) = [(a, ca)] :=
      List.perm_singleton.mp (ord.perm [] (a, ca))
    -- after the second get it holds A and B in one of the two orders
    have h2 := perm_pair _ _ _ (ord.perm [(a, ca)] (b, cb))
    have hrun : runCacheOps ord fs [.setSize 2, .get a true, .get b true, .get c true] {} =
        runCacheOps ord fs [.get c true]
          { template_cache_ := ord.insert [(a, ca)] (b, cb), max_cache_size_ := 2 } := by
      simp [runCacheOps, CacheOp.apply, setTemplateCacheSize, evictWhileOver,
        getCachedFileContent, cacheFind, ha, hb, h1, hab]
    rw [hrun]
    rcases h2 with h2 | h2
    · -- iteration order B, A: B is evicted
      have h3 := perm_pair _ _ _ (ord.perm [(a, ca)] (c, cc))
      have hrun2 : runCacheOps ord fs [.get c true]
          { template_cache_ := ord.insert [(a, ca)] (b, cb), max_cache_size_ := 2 } =
          some { template_cache_ := ord.insert [(a, ca)] (c, cc), max_cache_size_ := 2 } := by
        simp [runCacheOps, CacheOp.apply, getCachedFileContent, cacheFind, hc, h2, hbc, hac]
      rw [hrun2]
      refine ⟨_, rfl, ?_⟩
      rcases h3 with h3 | h3 <;> rw [h3] <;>
        simp [cacheFind, hab, hac, hbc, hba, hca, hcb]
    · -- iteration order A, B: A is evicted
      have h3 := perm_pair _ _ _ (ord.perm [(b, cb)] (c, cc))
      have hrun2 : runCacheOps ord fs [.get c true]
          { template_cache_ := ord.insert [(a, ca)] (b, cb), max_cache_size_ := 2 } =
          some { template_cache_ := ord.insert [(b, cb)] (c, cc), max_cache_size_ := 2 } := by
        simp [runCacheOps, CacheOp.apply, getCachedFileContent, cacheFind, hc, h2, hbc, hac]
      rw [hrun2]
      refine ⟨_, rfl, ?_⟩
      rcases h3 with h3 | h3 <;> rw [h3] <;>
        simp [cacheFind, hab, hac, hbc, hba, hca, hcb]

/-- Witness of C19, amended: the three example templates and a map that puts a
new element last in the iteration order. -/
theorem cache_eviction_first_in_iteration_order_witness :
    ∃ final, runCacheOps backOrder threeTemplates
        [.setSize 2, .get (lit "A.html") true, .get (lit "B.html") true,
          .get (lit "C.html") true] {} = some final ∧
      final.template_cache_.length = 2 ∧
      cacheFind final.template_cache_ (lit "C.html") = some (lit "<c/>") ∧
      ((cacheFind final.template_cache_ (lit "A.html") = some (lit "<a/>") ∧
        cacheFind final.template_cache_ (lit "B.html") = none) ∨
       (cacheFind final.template_cache_ (lit "A.html") = none ∧
        cacheFind final.template_cache_ (lit "B.html") = some (lit "<b/>"))) :=
  (cache_eviction_first_in_iteration_order backOrder threeTemplates
    (lit "A.html") (lit "B.html") (lit "C.html") (lit "<a/>") (lit "<b/>") (lit "<c/>")
    (by decide) (by decide) (by decide) (by decide) (by decide) (by decide)).2

/-! ## The signing pipeline: rendering, delivery, exceptions, happy path -/

/-- C14, evaluated where the code departs from it: the convert call of the
engine reports failure (returns 0 and writes no PDF), `convertFile` returns true
all the same, preparation succeeds, and `signDocument` ends with
`UNKNOWN_ERROR` from the hashing step instead of `PDF_GENERATION_ERROR`. -/
theorem signDocument_render_failure_unreported :
    (failingRenderEnv.wk.convert (some (lit "<p>first_name</p>Ivan"))).1 = 0 ∧
    (convertFile failingRenderEnv (lit "/tmp/template_1700000000_7_0_42.html")
      (lit "/tmp/temp_document_1700000000_7_1_43.pdf") exampleWorld).1 = true ∧
    (prepareDocumentForSigning failingRenderEnv exampleUser exampleWorld).1 =
      .ok (Result.success
        { temp_html_path := lit "/tmp/template_1700000000_7_0_42.html"
          temp_pdf_path := lit "/tmp/temp_document_1700000000_7_1_43.pdf" }) ∧
    (signDocument failingRenderEnv (lit "AUTH_TOKEN") true false exampleUser (lit "1234")
      exampleWorld).1.error_code_ = .UNKNOWN_ERROR ∧
    (signDocument failingRenderEnv (lit "AUTH_TOKEN") true false exampleUser (lit "1234")
      exampleWorld).1.error_message_ = lit
        "Document signing failed: Failed to open file: /tmp/temp_document_1700000000_7_1_43.pdf" := by
  refine ⟨rfl, rfl, rfl, rfl, rfl⟩

theorem stamp_code_cases (env : Env) (user : UserIdentity)
    (p : Result DocumentPreparationResult) (m : Result MessageSendingResult) (w : World)
    (r : Result DocumentSigningResult) (w' : World)
    (hp : p.isError = false) (hm : m.isError = false)
    (h : createStampOnPdf env user p m w = (.ok r, w')) :
    r.error_code_ = .UNKNOWN_ERROR ∨ r.error_code_ = .STAMP_APPLICATION_ERROR ∨
      r.error_code_ = .SUCCESS := by
  unfold createStampOnPdf stampCatch at h
  simp only [hp, hm, Bool.or_self, Bool.false_eq_true, if_false] at h
  repeat' split at h
  all_goals first
    | (simp only [Prod.mk.injEq, Except.ok.injEq] at h
       rw [← h.1]; simp [Result.error, Result.success])
    | (simp at h)

theorem stamp_raise_other (env : Env) (user : UserIdentity)
    (p : Result DocumentPreparationResult) (m : Result MessageSendingResult) (w : World)
    (e : Exn) (w' : World)
    (h : createStampOnPdf env user p m w = (.error e, w')) : e.what? = none := by
  unfold createStampOnPdf stampCatch at h
  dsimp only at h
  repeat' split at h
  all_goals first
    | (simp only [Prod.mk.injEq, Except.error.injEq] at h
       rw [← h.1]; assumption)
    | (simp at h)

theorem send_test_mode (env : Env) (phone code : Str) (w : World) :
    sendMessageToPhone env true phone code w =
      (.ok (Result.success { phone_number := phone, message_text := code }),
        logInfo env (lit "SignatureService: test mode - SMS not sent to: " ++ phone) w) := by
  unfold sendMessageToPhone
  simp

theorem send_live (env : Env) (phone code : Str) (w : World) (sr : ProviderSendingResult)
    (h : env.send_confirmation_code phone code = .ok sr) :
    ∃ r w', sendMessageToPhone env false phone code w = (.ok r, w') ∧
      w'.trace = w.trace ++ [.send_code phone code, .check_status sr.id] ∧
      w'.fs = w.fs ∧ w'.config_ = w.config_ ∧ w'.document_hasher_ = w.document_hasher_ ∧
      w'.file_counter = w.file_counter ∧
      (sr.status ≠ lit "accepted" →
        r = Result.error .SMS_SEND_ERROR (lit "Message sending failed!")) ∧
      (sr.status = lit "accepted" →
        r = Result.success { phone_number := phone, message_text := code }) := by
  unfold sendMessageToPhone
  simp only [Bool.not_false, if_true, h]
  by_cases hs : sr.status = lit "accepted"
  · simp [hs, logInfo, logError, World.log, World.record]
    exact ⟨_, _, ⟨rfl, rfl⟩, rfl, rfl, rfl, rfl, rfl, rfl⟩
  · simp [hs, logInfo, logError, World.log, World.record]
    exact ⟨_, _, ⟨rfl, rfl⟩, rfl, rfl, rfl, rfl, rfl, rfl⟩

theorem signDocument_after_validation (env : Env) (w : World) (test_mode need_all : Bool)
    (user : UserIdentity) (code : Str)
    (hon : code ≠ lit "LOG_ON") (hoff : code ≠ lit "LOG_OFF")
    (hvalid : (if need_all = true then isUserIdentityHasAllFields user
      else isUserIdentityHasReqFields user).isError = false) :
    signDocumentBody env w.config_.auth_token test_mode need_all user code w =
      match prepareDocumentForSigning env user
          (logInfo env (lit "SignatureService: preparing document for signing") w) with
      | (.error e, w) => (.error e, w)
      | (.ok prep_result, w) =>
        if prep_result.isError then
          let w := logError env (lit "SignatureService: document preparation failed") w
          (.ok (Result.error prep_result.error_code_ prep_result.error_message_), w)
        else
          match sendMessageToPhone env test_mode user.phone_number code w with
          | (.error e, w) => (.error e, w)
          | (.ok msg_result, w) =>
            if msg_result.isError then
              let w := logError env (lit "SignatureService: message sending failed") w
              (.ok (Result.error msg_result.error_code_ msg_result.error_message_), w)
            else
              let w := logInfo env (lit "SignatureService: creating PDF stamp") w
              match createStampOnPdf env user prep_result msg_result w with
              | (.error e, w) => (.error e, w)
              | (.ok sign_result, w) =>
                if sign_result.isError then
                  let w := logError env (lit "SignatureService: PDF stamp creation failed") w
                  (.ok (Result.error sign_result.error_code_ sign_result.error_message_), w)
                else
                  let w := logSuccess env
                    (lit "SignatureService: document signed successfully for: " ++
                      user.phone_number) w
                  (.ok sign_result, w) := by
  unfold signDocumentBody
  simp only [isAuthTokenValid_good, Result.isError, Result.isSuccess, Result.success,
    decide_True, Bool.not_true, Bool.false_eq_true, if_false, hon, hoff]
  simp only [Result.isError, Result.isSuccess] at hvalid
  simp only [hvalid, Bool.false_eq_true, if_false]

theorem finish_code (env : Env) (user : UserIdentity)
    (p : Result DocumentPreparationResult) (m : Result MessageSendingResult) (w : World)
    (hp : p.isError = false) (hm : m.isError = false) :
    ((match
        (match createStampOnPdf env user p m w with
          | (.error e, w) => ((.error e, w) : Except Exn (Result DocumentSigningResult) × World)
          | (.ok sign_result, w) =>
            if sign_result.isError then
              let w := logError env (lit "SignatureService: PDF stamp creation failed") w
              (.ok (Result.error sign_result.error_code_ sign_result.error_message_), w)
            else
              let w := logSuccess env
                (lit "SignatureService: document signed successfully for: " ++
                  user.phone_number) w
              (.ok sign_result, w)) with
      | (.ok result, w) => (result, w)
      | (.error e, w) =>
        match e.what? with
        | some what =>
          let w := logError env
            (lit "SignatureService: unexpected error in signDocument: " ++ what) w
          (Result.error .UNKNOWN_ERROR (lit "Unexpected error in signDocument: " ++ what), w)
        | none =>
          (Result.error .UNKNOWN_ERROR (lit "Unknown unexpected error in signDocument"), w)).1
      ).error_code_ ≠ .SMS_SEND_ERROR := by
  cases hst : createStampOnPdf env user p m w with
  | mk st w3 =>
    cases st with
    | error e =>
      dsimp only
      split <;> simp [Result.error]
    | ok r =>
      have hc := stamp_code_cases env user p m w r w3 hp hm hst
      dsimp only
      by_cases hr : r.isError = true
      · simp only [hr, if_true]
        rcases hc with h | h | h <;> simp [Result.error, h]
      · simp only [hr, Bool.false_eq_true, if_false]
        rcases hc with h | h | h <;> simp [h]

/-- C13: in the confirmation-delivery step of a call that has passed validation
and preparation: in test mode the step succeeds without a call of the messaging
collaborator and the call does not end in `SMS_SEND_ERROR`; otherwise the
collaborator is asked to send the code to the phone of the identity, and when it
reports a status the call ends in `SMS_SEND_ERROR` exactly when that status is
not `accepted`, in which case nothing but the send and the status check is
called after preparation and the files are as preparation left them. -/
theorem signDocument_confirmation_delivery (env : Env) (w w1 : World) (need_all : Bool)
    (user : UserIdentity) (code : Str) (prep : Result DocumentPreparationResult)
    (hon : code ≠ lit "LOG_ON") (hoff : code ≠ lit "LOG_OFF")
    (hvalid : (if need_all = true then isUserIdentityHasAllFields user
      else isUserIdentityHasReqFields user).isError = false)
    (hprep : prepareDocumentForSigning env user
      (logInfo env (lit "SignatureService: preparing document for signing") w) = (.ok prep, w1))
    (hpok : prep.isError = false) :
    ((sendMessageToPhone env true user.phone_number code w1).1 =
        .ok (Result.success { phone_number := user.phone_number, message_text := code }) ∧
      (sendMessageToPhone env true user.phone_number code w1).2.trace = w1.trace ∧
      (signDocument env w.config_.auth_token true need_all user code w).1.error_code_
        ≠ .SMS_SEND_ERROR) ∧
    (∀ sr, env.send_confirmation_code user.phone_number code = .ok sr →
      (sendMessageToPhone env false user.phone_number code w1).2.trace =
        w1.trace ++ [.send_code user.phone_number code, .check_status sr.id] ∧
      ((signDocument env w.config_.auth_token false need_all user code w).1.error_code_
        = .SMS_SEND_ERROR ↔ sr.status ≠ lit "accepted") ∧
      (sr.status ≠ lit "accepted" →
        (signDocument env w.config_.auth_token false need_all user code w).2.trace =
          w1.trace ++ [.send_code user.phone_number code, .check_status sr.id] ∧
        (signDocument env w.config_.auth_token false need_all user code w).2.fs = w1.fs)) := by
  have hbody := fun tm => signDocument_after_validation env w tm need_all user code hon hoff hvalid
  refine ⟨⟨by rw [send_test_mode], ?_, ?_⟩, ?_⟩
  · rw [send_test_mode]
    exact (log_frame env .INFO _ w1).2.1
  · unfold signDocument
    rw [hbody true, hprep]
    simp only [hpok, Bool.false_eq_true, if_false, send_test_mode]
    have hm : (Result.success ({ phone_number := user.phone_number, message_text := code } :
        MessageSendingResult)).isError = false := rfl
    simp only [hm, Bool.false_eq_true, if_false]
    exact finish_code env user prep _ _ hpok hm
  · intro sr hsr
    obtain ⟨r, w2, hsend, htrace, hfs, _, _, _, hbad, hgood⟩ :=
      send_live env user.phone_number code w1 sr hsr
    refine ⟨by rw [hsend]; exact htrace, ?_, ?_⟩
    · by_cases hs : sr.status = lit "accepted"
      · have hr := hgood hs
        have hm : r.isError = false := by rw [hr]; rfl
        constructor
        · intro hcode
          exfalso
          revert hcode
          unfold signDocument
          rw [hbody false, hprep]
          simp only [hpok, Bool.false_eq_true, if_false, hsend, hm]
          exact finish_code env user prep r _ hpok hm
        · intro hne; exact absurd hs hne
      · have hr := hbad hs
        constructor
        · intro _; exact hs
        · intro _
          unfold signDocument
          rw [hbody false, hprep]
          simp only [hpok, Bool.false_eq_true, if_false, hsend, hr]
          simp [Result.error, Result.isError, Result.isSuccess]
    · intro hs
      have hr := hbad hs
      have hsd : signDocument env w.config_.auth_token false need_all user code w =
          (Result.error .SMS_SEND_ERROR (lit "Message sending failed!"),
            logError env (lit "SignatureService: message sending failed") w2) := by
        unfold signDocument
        rw [hbody false, hprep]
        simp only [hpok, Bool.false_eq_true, if_false, hsend, hr]
        simp [Result.error, Result.isError, Result.isSuccess]
      rw [hsd]
      exact ⟨((log_frame env .ERROR _ w2).2.1).trans htrace,
        ((log_frame env .ERROR _ w2).1).trans hfs⟩

/-- Witness of C13: the example call, whose provider reports the status `error`. -/
theorem signDocument_confirmation_delivery_witness :
    (signDocument exampleEnv exampleWorld.config_.auth_token false false exampleUser
        (lit "1234") exampleWorld).1.error_code_ = .SMS_SEND_ERROR ↔
      lit "error" ≠ lit "accepted" :=
  ((signDocument_confirmation_delivery exampleEnv exampleWorld
    (prepareDocumentForSigning exampleEnv exampleUser
      (logInfo exampleEnv (lit "SignatureService: preparing document for signing")
        exampleWorld)).2
    false exampleUser (lit "1234")
    (Result.success
      { temp_html_path := lit "/tmp/template_1700000000_7_0_42.html"
        temp_pdf_path := lit "/tmp/temp_document_1700000000_7_1_43.pdf" })
    (by decide) (by decide) rfl rfl rfl).2
    { status := lit "error", description := lit "curl_init_failed" } rfl).2.1

theorem readFile_writeFile_same (fs : FileSystem) (path : Str) (content : List Byte) :
    readFile (writeFile fs path content) path = some content := by
  simp [writeFile, readFile]

theorem copy_creates_file (env : Env) (original pfx sfx dir : Str) (w w1 : World) (temp : Str)
    (h : createTempCopyWithUniqueFilename env original pfx sfx dir w = (.ok temp, w1)) :
    ∃ content, readFile w1.fs temp = some content := by
  unfold createTempCopyWithUniqueFilename at h
  dsimp only at h
  repeat' split at h
  all_goals first
    | (simp only [Prod.mk.injEq, Except.ok.injEq] at h
       obtain ⟨h1, h2⟩ := h
       rw [← h2, ← h1]
       exact ⟨_, readFile_writeFile_same _ _ _⟩)
    | (simp at h)

theorem escape_is_unknown (env : Env) (token : Str) (tm need_all : Bool) (user : UserIdentity)
    (code : Str) (w : World) (e : Exn) (w' : World)
    (h : signDocumentBody env token tm need_all user code w = (.error e, w')) :
    (signDocument env token tm need_all user code w).1.error_code_ = .UNKNOWN_ERROR ∧
    (signDocument env token tm need_all user code w).1.error_message_ ≠ [] := by
  unfold signDocument
  rw [h]
  dsimp only
  cases hw : e.what? with
  | none => simp [Result.error, lit]
  | some what => simp [Result.error, lit]

theorem prep_failure_is_unknown (env : Env) (tm need_all : Bool) (user : UserIdentity)
    (code : Str) (w : World)
    (hon : code ≠ lit "LOG_ON") (hoff : code ≠ lit "LOG_OFF")
    (hvalid : (if need_all = true then isUserIdentityHasAllFields user
      else isUserIdentityHasReqFields user).isError = false)
    (result : DocumentPreparationResult) (e : Exn) (w1 : World)
    (h : prepareDocumentForSigning env user
      (logInfo env (lit "SignatureService: preparing document for signing") w) =
      prepareCatch env result e w1) :
    (signDocument env w.config_.auth_token tm need_all user code w).1.error_code_
      = .UNKNOWN_ERROR ∧
    (signDocument env w.config_.auth_token tm need_all user code w).1.error_message_ ≠ [] := by
  have hbody := signDocument_after_validation env w tm need_all user code hon hoff hvalid
  cases hw : e.what? with
  | none =>
    apply escape_is_unknown env _ tm need_all user code w e w1
    rw [hbody, h]
    simp [prepareCatch, hw]
  | some what =>
    unfold signDocument
    rw [hbody, h]
    simp [prepareCatch, hw, Result.error, Result.isError, Result.isSuccess, lit]

/-- C15: `signDocument` returns a `Result` whatever the collaborators do: an
exception that leaves the `try` block is turned into `UNKNOWN_ERROR` with a
non-empty message, and so is an exception raised inside a step of a call that
has passed validation, be it by the copy of the template, by the templating
step, by the messaging collaborator or by the hasher. -/
theorem signDocument_never_raises (env : Env) (w : World) (need_all : Bool)
    (user : UserIdentity) (code : Str)
    (hon : code ≠ lit "LOG_ON") (hoff : code ≠ lit "LOG_OFF")
    (hvalid : (if need_all = true then isUserIdentityHasAllFields user
      else isUserIdentityHasReqFields user).isError = false) :
    (∀ token tm e w', signDocumentBody env token tm need_all user code w = (.error e, w') →
      (signDocument env token tm need_all user code w).1.error_code_ = .UNKNOWN_ERROR ∧
      (signDocument env token tm need_all user code w).1.error_message_ ≠ []) ∧
    (∀ tm e w1,
      createTempCopyWithUniqueFilename env w.config_.html_template_path (lit "template_")
        (lit ".html") w.config_.temp_dir
        (logInfo env (lit "SignatureService: preparing document for signing") w)
        = (.error e, w1) →
      (signDocument env w.config_.auth_token tm need_all user code w).1.error_code_
        = .UNKNOWN_ERROR ∧
      (signDocument env w.config_.auth_token tm need_all user code w).1.error_message_ ≠ []) ∧
    (∀ tm temp_html_path e w1,
      createTempCopyWithUniqueFilename env w.config_.html_template_path (lit "template_")
        (lit ".html") w.config_.temp_dir
        (logInfo env (lit "SignatureService: preparing document for signing") w)
        = (.ok temp_html_path, w1) →
      (∀ html, env.populate user html = .error e) →
      (signDocument env w.config_.auth_token tm need_all user code w).1.error_code_
        = .UNKNOWN_ERROR ∧
      (signDocument env w.config_.auth_token tm need_all user code w).1.error_message_ ≠ []) ∧
    (∀ prep w1 e,
      prepareDocumentForSigning env user
        (logInfo env (lit "SignatureService: preparing document for signing") w)
        = (.ok prep, w1) →
      prep.isError = false →
      env.send_confirmation_code user.phone_number code = .error e →
      (signDocument env w.config_.auth_token false need_all user code w).1.error_code_
        = .UNKNOWN_ERROR ∧
      (signDocument env w.config_.auth_token false need_all user code w).1.error_message_
        ≠ []) ∧
    (∀ tm prep w1 msg w2 e,
      prepareDocumentForSigning env user
        (logInfo env (lit "SignatureService: preparing document for signing") w)
        = (.ok prep, w1) →
      prep.isError = false →
      sendMessageToPhone env tm user.phone_number code w1 = (.ok msg, w2) →
      msg.isError = false →
      calculateCompositeHash env.gcrypt w2.document_hasher_ w2.fs prep.value_.temp_pdf_path
        (user.first_name ++ lit " " ++ user.middle_name ++ lit " " ++ user.last_name)
        msg.value_.phone_number msg.value_.message_text env.current_time = .error e →
      (signDocument env w.config_.auth_token tm need_all user code w).1.error_code_
        = .UNKNOWN_ERROR ∧
      (signDocument env w.config_.auth_token tm need_all user code w).1.error_message_
        ≠ []) := by
  have hbody := fun tm => signDocument_after_validation env w tm need_all user code hon hoff hvalid
  have hcfg : (logInfo env (lit "SignatureService: preparing document for signing") w).config_
      = w.config_ := (log_frame env .INFO _ w).2.2.1
  refine ⟨fun token tm e w' h => escape_is_unknown env token tm need_all user code w e w' h,
    ?_, ?_, ?_, ?_⟩
  · intro tm e w1 hcopy
    apply prep_failure_is_unknown env tm need_all user code w hon hoff hvalid {} e w1
    unfold prepareDocumentForSigning
    simp only [hcfg, hcopy]
  · intro tm temp_html_path e w1 hcopy hpop
    obtain ⟨content, hcontent⟩ := copy_creates_file env _ _ _ _ _ _ _ hcopy
    apply prep_failure_is_unknown env tm need_all user code w hon hoff hvalid
      { temp_html_path := temp_html_path } e (w1.record (.replace_placeholders temp_html_path))
    unfold prepareDocumentForSigning
    simp only [hcfg, hcopy]
    have hrep : replacePlaceholdersFromJsonData env user temp_html_path w1 =
        (.error e, w1.record (.replace_placeholders temp_html_path)) := by
      unfold replacePlaceholdersFromJsonData
      have : readFile (w1.record (.replace_placeholders temp_html_path)).fs temp_html_path
          = some content := hcontent
      simp only [this, hpop]
    simp only [hrep]
  · intro prep w1 e hprep hpok hsend
    have hs : sendMessageToPhone env false user.phone_number code w1 =
        match e.what? with
        | some what =>
          (.ok (Result.error .UNKNOWN_ERROR (lit "Unknown message sending failed: " ++ what)),
            logError env (lit "SignatureService: SMS sending exception: " ++ what)
              (w1.record (.send_code user.phone_number code)))
        | none => (.error e, w1.record (.send_code user.phone_number code)) := by
      unfold sendMessageToPhone
      simp only [Bool.not_false, if_true, hsend]
    cases hw : e.what? with
    | none =>
      apply escape_is_unknown env _ false need_all user code w e
        (w1.record (.send_code user.phone_number code))
      rw [hbody false, hprep]
      simp only [hpok, Bool.false_eq_true, if_false, hs, hw]
    | some what =>
      unfold signDocument
      rw [hbody false, hprep]
      simp only [hpok, Bool.false_eq_true, if_false, hs, hw]
      simp [Result.error, Result.isError, Result.isSuccess, lit]
  · intro tm prep w1 msg w2 e hprep hpok hsend hm hhash
    have hst : createStampOnPdf env user prep msg
        (logInfo env (lit "SignatureService: creating PDF stamp") w2) =
        stampCatch prep.value_ e
          ((logInfo env (lit "SignatureService: creating PDF stamp") w2).record
            (.composite_hash prep.value_.temp_pdf_path)) := by
      unfold createStampOnPdf
      simp only [hpok, hm, Bool.or_self, Bool.false_eq_true, if_false]
      have hfs : ((logInfo env (lit "SignatureService: creating PDF stamp") w2).record
            (.composite_hash prep.value_.temp_pdf_path)).fs = w2.fs := by
        simp [logInfo, World.log, World.record]
      have hh : ((logInfo env (lit "SignatureService: creating PDF stamp") w2).record
            (.composite_hash prep.value_.temp_pdf_path)).document_hasher_
            = w2.document_hasher_ := by
        simp [logInfo, World.log, World.record]
      simp only [hfs, hh, hhash]
    cases hw : e.what? with
    | none =>
      apply escape_is_unknown env _ tm need_all user code w e _
      rw [hbody tm, hprep]
      simp only [hpok, Bool.false_eq_true, if_false, hsend, hm, hst]
      simp only [stampCatch, hw]
      rfl
    | some what =>
      unfold signDocument
      rw [hbody tm, hprep]
      simp only [hpok, Bool.false_eq_true, if_false, hsend, hm, hst]
      simp [stampCatch, hw, Result.error, Result.isError, Result.isSuccess, lit]

/-- Witness of C15: the templating step of the example call throws. -/
theorem signDocument_never_raises_witness :
    (signDocument raisingEnv exampleWorld.config_.auth_token true false exampleUser (lit "1234")
        exampleWorld).1.error_code_ = .UNKNOWN_ERROR ∧
    (signDocument raisingEnv exampleWorld.config_.auth_token true false exampleUser (lit "1234")
        exampleWorld).1.error_message_ ≠ [] :=
  (signDocument_never_raises raisingEnv exampleWorld false exampleUser (lit "1234")
    (by decide) (by decide) rfl).2.2.1 true (lit "/tmp/template_1700000000_7_0_42.html")
    (.runtime_error (lit "type_error"))
    (createTempCopyWithUniqueFilename raisingEnv exampleWorld.config_.html_template_path
      (lit "template_") (lit ".html") exampleWorld.config_.temp_dir
      (logInfo raisingEnv (lit "SignatureService: preparing document for signing")
        exampleWorld)).2
    rfl (fun _ => rfl)

theorem prepare_happy (env : Env) (w : World) (user : UserIdentity) (template : List Byte)
    (htemplate : readFile w.fs w.config_.html_template_path = some template)
    (hdir : env.ensure_directory w.config_.temp_dir = true)
    (hcopy : ∀ target, env.copy_error w.config_.html_template_path target = none)
    (hpopulate : ∀ html, ∃ out, env.populate user html = .ok (some out))
    (hinit : w.wk_initialized_ = true)
    (hconverter : env.wk.create_converter_ok = true)
    (hsettings : env.wk.create_object_settings_ok = true)
    (hrender : ∀ page, ∃ pdf, (env.wk.convert (some page)).2 = some pdf ∧ pdf ≠ []) :
    ∃ html pdf pdfbytes w1,
      prepareDocumentForSigning env user w =
        (.ok (Result.success { temp_html_path := html, temp_pdf_path := pdf }), w1) ∧
      html ≠ [] ∧ pdf ≠ [] ∧ readFile w1.fs pdf = some pdfbytes ∧ pdfbytes ≠ [] ∧
      w1.config_ = w.config_ ∧ w1.document_hasher_ = w.document_hasher_ := by
  obtain ⟨out, hout⟩ := hpopulate template
  obtain ⟨pdfbytes, hpdf, hne⟩ := hrender out
  unfold prepareDocumentForSigning createTempCopyWithUniqueFilename
  simp only [hdir, Bool.not_true, Bool.false_eq_true, if_false, htemplate, hcopy]
  unfold replacePlaceholdersFromJsonData
  simp only [World.record, readFile_writeFile_same, hout]
  unfold convertSync convertFile
  simp only [generateUniqueFilename, World.record, hinit, hconverter, hsettings, Bool.not_true,
    Bool.false_eq_true, if_false, readFile_writeFile_same, hpdf]
  refine ⟨_, _, pdfbytes, _, rfl, ?_, ?_, ?_, hne, ?_, ?_⟩
  · simp [lit]
  · simp [lit]
  · simp [logInfo, World.log, readFile_writeFile_same]
  · simp [logInfo, World.log]
  · simp [logInfo, World.log]

theorem readFile_removeFile (fs : FileSystem) (p q : Str) :
    readFile (removeFile fs p) q = if p = q then none else readFile fs q := by
  induction fs with
  | nil => simp [removeFile, readFile]
  | cons e rest ih =>
    obtain ⟨x, c⟩ := e
    unfold removeFile at ih ⊢
    by_cases hx : x = p
    · subst hx
      simp only [List.filter_cons, ne_eq, not_true_eq_false, decide_False, Bool.false_eq_true,
        if_false, ih]
      by_cases hq : x = q
      · simp [hq]
      · simp [hq, readFile]
    · simp only [List.filter_cons, ne_eq, hx, not_false_eq_true, decide_True, if_true, readFile,
        ih]
      by_cases hq : x = q
      · have : ¬ p = q := fun e => hx (hq.trans e.symm)
        simp [hq, this]
      · simp [hq]

theorem cleanup_two (p q : Str) (w : World) (hp : p ≠ []) (hq : q ≠ []) :
    fileExists (cleanupTempFiles [p, q] w).fs p = false ∧
    fileExists (cleanupTempFiles [p, q] w).fs q = false := by
  have step_absent : ∀ (fs : FileSystem) (x : Str),
      fileExists (if fileExists fs x = true then removeFile fs x else fs) x = false := by
    intro fs x
    by_cases h : fileExists fs x = true
    · rw [if_pos h]
      simp [fileExists, readFile_removeFile]
    · rw [if_neg h]
      simpa using h
  have step_keeps : ∀ (fs : FileSystem) (x y : Str), fileExists fs y = false →
      fileExists (if fileExists fs x = true then removeFile fs x else fs) y = false := by
    intro fs x y hy
    by_cases h : fileExists fs x = true
    · rw [if_pos h]
      unfold fileExists at hy ⊢
      rw [readFile_removeFile]
      by_cases hxy : x = y
      · simp [hxy]
      · simpa [hxy] using hy
    · rw [if_neg h]
      exact hy
  unfold cleanupTempFiles
  simp only [List.foldl_cons, List.foldl_nil, ne_eq, hp, hq, not_false_eq_true, if_true]
  exact ⟨step_keeps _ q p (step_absent _ p), step_absent _ q⟩

theorem stamp_happy (env : Env) (w : World) (user : UserIdentity)
    (html pdf phone code : Str) (pdfbytes : List Byte)
    (hfirst : user.first_name ≠ []) (hphone : phone ≠ []) (hcode : code ≠ [])
    (htime : env.current_time ≠ [])
    (hhtml : html ≠ []) (hpdf : pdf ≠ [])
    (hfile : readFile w.fs pdf = some pdfbytes) (hbytes : pdfbytes ≠ [])
    (hhasher : w.document_hasher_ = DocumentHasher.new)
    (hprim : ∀ stream, (stribog256 env.gcrypt stream).isSome = true)
    (hstamp : ∀ input data, (env.apply_stamp input data).1 = true) :
    ∃ hex name w',
      createStampOnPdf env user
        (Result.success { temp_html_path := html, temp_pdf_path := pdf })
        (Result.success { phone_number := phone, message_text := code }) w =
        (.ok (Result.success
          { first_name := user.first_name
            middle_name := user.middle_name
            last_name := user.last_name
            phone_number := phone
            confirmation_code := code
            signing_time := env.current_time
            document_hash := hex
            signed_pdf_path := w.config_.output_pdf_dir ++ lit "/" ++ name }), w') ∧
      hex.length = 64 ∧ (∀ c ∈ hex, isLowerHex c) ∧
      fileExists w'.fs html = false ∧ fileExists w'.fs pdf = false ∧
      name = (generateUniqueFilename env (lit "signed_document_") (lit ".pdf") w).1 := by
  have hname : user.first_name ++ lit " " ++ user.middle_name ++ lit " " ++ user.last_name
      ≠ [] := by
    intro h
    have := congrArg List.length h
    simp only [List.length_append, List.length_nil] at this
    exact hfirst (List.length_eq_zero.mp (by omega))
  obtain ⟨digest, hd⟩ := Option.isSome_iff_exists.mp
    (hprim (compositeStream pdfbytes
      (user.first_name ++ lit " " ++ user.middle_name ++ lit " " ++ user.last_name)
      phone code env.current_time))
  have hcalc := calc_of_stribog256 env.gcrypt w.fs pdf
    (user.first_name ++ lit " " ++ user.middle_name ++ lit " " ++ user.last_name)
    phone code env.current_time pdfbytes digest hpdf hfile hbytes hname hphone hcode htime hd
  have hlen := stribog256_length env.gcrypt _ digest hd
  have hhex := hashToHex_eq digest (ne_nil_of_length digest hlen)
  have hp : (Result.success ({ temp_html_path := html, temp_pdf_path := pdf } :
      DocumentPreparationResult)).isError = false := rfl
  have hm : (Result.success ({ phone_number := phone, message_text := code } :
      MessageSendingResult)).isError = false := rfl
  unfold createStampOnPdf
  simp only [hp, hm, Bool.or_self, Bool.false_eq_true, if_false, Result.success, World.record,
    hhasher, hcalc, hhex, generateUniqueFilename, hstamp, Bool.not_true]
  refine ⟨hexString digest, _, _, rfl, ?_, hexString_lower digest, ?_, ?_, ?_⟩
  · rw [hexString_length, hlen]
  · exact (cleanup_two pdf html _ hpdf hhtml).2
  · exact (cleanup_two pdf html _ hpdf hhtml).1
  · rfl

/-- C11: a call with the valid token, test mode, an identity with non-empty
first, middle and last name and phone, `need_all_user_data_fields` off and a
non-empty confirmation code other than `LOG_ON` and `LOG_OFF`, in which the
template is copied, the placeholders are replaced, the engine renders a
non-empty PDF, the hash primitive yields a digest, the clock string is not
empty and the stamper succeeds, returns a success: its value carries the three
name parts and the phone of the identity, the given code, a `document_hash` of
exactly 64 characters in `0-9a-f` and a `signed_pdf_path` of the form output
directory, `/`, generated file name; neither temp file of the call exists
afterwards. -/
theorem signDocument_happy_path (env : Env) (w : World) (user : UserIdentity) (code : Str)
    (template : List Byte)
    (hfirst : user.first_name ≠ []) (hmiddle : user.middle_name ≠ [])
    (hlast : user.last_name ≠ []) (hphone : user.phone_number ≠ [])
    (hcode : code ≠ []) (hon : code ≠ lit "LOG_ON") (hoff : code ≠ lit "LOG_OFF")
    (htemplate : readFile w.fs w.config_.html_template_path = some template)
    (hdir : env.ensure_directory w.config_.temp_dir = true)
    (hcopy : ∀ target, env.copy_error w.config_.html_template_path target = none)
    (hpopulate : ∀ html, ∃ out, env.populate user html = .ok (some out))
    (hinit : w.wk_initialized_ = true)
    (hconverter : env.wk.create_converter_ok = true)
    (hsettings : env.wk.create_object_settings_ok = true)
    (hrender : ∀ page, ∃ pdf, (env.wk.convert (some page)).2 = some pdf ∧ pdf ≠ [])
    (hhasher : w.document_hasher_ = DocumentHasher.new)
    (hprim : ∀ stream, (stribog256 env.gcrypt stream).isSome = true)
    (htime : env.current_time ≠ [])
    (hstamp : ∀ input data, (env.apply_stamp input data).1 = true) :
    ∃ prep hex name,
      (∃ w', name = (generateUniqueFilename env (lit "signed_document_") (lit ".pdf") w').1) ∧
      (prepareDocumentForSigning env user
        (logInfo env (lit "SignatureService: preparing document for signing") w)).1 =
        .ok (Result.success prep) ∧
      (signDocument env w.config_.auth_token true false user code w).1 =
        Result.success
          { first_name := user.first_name
            middle_name := user.middle_name
            last_name := user.last_name
            phone_number := user.phone_number
            confirmation_code := code
            signing_time := env.current_time
            document_hash := hex
            signed_pdf_path := w.config_.output_pdf_dir ++ lit "/" ++ name } ∧
      hex.length = 64 ∧ (∀ c ∈ hex, isLowerHex c) ∧
      fileExists (signDocument env w.config_.auth_token true false user code w).2.fs
        prep.temp_html_path = false ∧
      fileExists (signDocument env w.config_.auth_token true false user code w).2.fs
        prep.temp_pdf_path = false := by
  have hvalid : (if false = true then isUserIdentityHasAllFields user
      else isUserIdentityHasReqFields user).isError = false := by
    simp [isUserIdentityHasReqFields, hfirst, hmiddle, hlast, hphone, Result.isError,
      Result.isSuccess, Result.success]
  have hbody := signDocument_after_validation env w true false user code hon hoff hvalid
  have hf := log_frame env .INFO (lit "SignatureService: preparing document for signing") w
  obtain ⟨html, pdf, pdfbytes, w1, hprep, hhtml, hpdf, hfile, hbytes, hcfg1, hh1⟩ :=
    prepare_happy env (logInfo env (lit "SignatureService: preparing document for signing") w)
      user template
      (by rw [logInfo, hf.1, hf.2.2.1]; exact htemplate)
      (by rw [logInfo, hf.2.2.1]; exact hdir)
      (by rw [logInfo, hf.2.2.1]; exact hcopy)
      hpopulate
      (by rw [logInfo, hf.2.2.2.2.2.1]; exact hinit)
      hconverter hsettings hrender
  have hw3fs : (logInfo env (lit "SignatureService: creating PDF stamp")
      (logInfo env (lit "SignatureService: test mode - SMS not sent to: " ++
        user.phone_number) w1)).fs = w1.fs := by
    simp [logInfo, World.log]
  have hw3h : (logInfo env (lit "SignatureService: creating PDF stamp")
      (logInfo env (lit "SignatureService: test mode - SMS not sent to: " ++
        user.phone_number) w1)).document_hasher_ = w1.document_hasher_ := by
    simp [logInfo, World.log]
  have hw3c : (logInfo env (lit "SignatureService: creating PDF stamp")
      (logInfo env (lit "SignatureService: test mode - SMS not sent to: " ++
        user.phone_number) w1)).config_ = w1.config_ := by
    simp [logInfo, World.log]
  obtain ⟨hex, name, w4, hstampeq, hhexlen, hhexlow, hnohtml, hnopdf, hnameeq⟩ :=
    stamp_happy env
      (logInfo env (lit "SignatureService: creating PDF stamp")
        (logInfo env (lit "SignatureService: test mode - SMS not sent to: " ++
          user.phone_number) w1))
      user html pdf user.phone_number code pdfbytes hfirst hphone hcode htime hhtml hpdf
      (by rw [hw3fs]; exact hfile) hbytes
      (by rw [hw3h, hh1, logInfo, hf.2.2.2.2.2.2]; exact hhasher) hprim hstamp
  have hcfg : (logInfo env (lit "SignatureService: creating PDF stamp")
      (logInfo env (lit "SignatureService: test mode - SMS not sent to: " ++
        user.phone_number) w1)).config_ = w.config_ := by
    rw [hw3c, hcfg1, logInfo, hf.2.2.1]
  rw [hcfg] at hstampeq
  have hsd : signDocument env w.config_.auth_token true false user code w =
      (Result.success
          { first_name := user.first_name
            middle_name := user.middle_name
            last_name := user.last_name
            phone_number := user.phone_number
            confirmation_code := code
            signing_time := env.current_time
            document_hash := hex
            signed_pdf_path := w.config_.output_pdf_dir ++ lit "/" ++ name },
        logSuccess env (lit "SignatureService: document signed successfully for: " ++
          user.phone_number) w4) := by
    unfold signDocument
    rw [hbody, hprep]
    have hp : (Result.success ({ temp_html_path := html, temp_pdf_path := pdf } :
        DocumentPreparationResult)).isError = false := rfl
    have hm : (Result.success ({ phone_number := user.phone_number, message_text := code } :
        MessageSendingResult)).isError = false := rfl
    simp only [hp, Bool.false_eq_true, if_false, send_test_mode, hm, hstampeq]
    rfl
  refine ⟨{ temp_html_path := html, temp_pdf_path := pdf }, hex, name, ⟨_, hnameeq⟩,
    by rw [hprep],
    by rw [hsd], hhexlen, hhexlow, ?_, ?_⟩
  · rw [hsd]
    have := (log_frame env .SUCCESS (lit "SignatureService: document signed successfully for: "
      ++ user.phone_number) w4).1
    rw [logSuccess, this]
    exact hnohtml
  · rw [hsd]
    have := (log_frame env .SUCCESS (lit "SignatureService: document signed successfully for: "
      ++ user.phone_number) w4).1
    rw [logSuccess, this]
    exact hnopdf

/-- Witness of C11: the happy path of the specification on the example state. -/
theorem signDocument_happy_path_witness :
    ∃ prep hex name,
      (∃ w', name =
        (generateUniqueFilename happyEnv (lit "signed_document_") (lit ".pdf") w').1) ∧
      (prepareDocumentForSigning happyEnv exampleUser
        (logInfo happyEnv (lit "SignatureService: preparing document for signing")
          exampleWorld)).1 = .ok (Result.success prep) ∧
      (signDocument happyEnv exampleWorld.config_.auth_token true false exampleUser
        (lit "1234") exampleWorld).1 =
        Result.success
          { first_name := exampleUser.first_name
            middle_name := exampleUser.middle_name
            last_name := exampleUser.last_name
            phone_number := exampleUser.phone_number
            confirmation_code := lit "1234"
            signing_time := happyEnv.current_time
            document_hash := hex
            signed_pdf_path := exampleWorld.config_.output_pdf_dir ++ lit "/" ++ name } ∧
      hex.length = 64 ∧ (∀ c ∈ hex, isLowerHex c) ∧
      fileExists (signDocument happyEnv exampleWorld.config_.auth_token true false exampleUser
        (lit "1234") exampleWorld).2.fs prep.temp_html_path = false ∧
      fileExists (signDocument happyEnv exampleWorld.config_.auth_token true false exampleUser
        (lit "1234") exampleWorld).2.fs prep.temp_pdf_path = false :=
  signDocument_happy_path happyEnv exampleWorld exampleUser (lit "1234")
    (lit "<p>first_name</p>")
    (by decide) (by decide) (by decide) (by decide) (by decide) (by decide) (by decide)
    rfl rfl (fun _ => rfl) (fun _ => ⟨_, rfl⟩) rfl rfl rfl
    (fun page => ⟨lit "%PDF-1.7 " ++ page, rfl, by simp [lit]⟩)
    rfl (fun _ => rfl) (by decide) (fun _ _ => rfl)

/-! ## Unique file names -/

theorem decimalDigits_value : ∀ (fuel n : Nat), n < fuel →
    digitsValue (decimalDigits fuel n) = n := by
  intro fuel
  induction fuel with
  | zero => intro n h; omega
  | succ fuel ih =>
    intro n h
    unfold decimalDigits
    by_cases hn : n < 10
    · rw [if_pos hn]
      simp only [digitsValue, List.foldl_cons, List.foldl_nil, Fin.ofNat]
      omega
    · rw [if_neg hn]
      have hq : n / 10 < fuel := by omega
      have hv := ih (n / 10) hq
      unfold digitsValue at hv ⊢
      rw [List.foldl_append, hv]
      simp only [List.foldl_cons, List.foldl_nil, Fin.ofNat]
      omega

theorem decimalDigits_digit : ∀ (fuel n : Nat), ∀ c ∈ decimalDigits fuel n,
    48 ≤ c.val ∧ c.val ≤ 57 := by
  intro fuel
  induction fuel with
  | zero => intro n c hc; simp [decimalDigits] at hc
  | succ fuel ih =>
    intro n c hc
    unfold decimalDigits at hc
    by_cases hn : n < 10
    · rw [if_pos hn] at hc
      have hc' : c = Fin.ofNat (48 + n) := by simpa using hc
      rw [hc']
      simp only [Fin.ofNat]
      omega
    · rw [if_neg hn] at hc
      rcases List.mem_append.mp hc with h | h
      · exact ih _ c h
      · have hc' : c = Fin.ofNat (48 + n % 10) := by simpa using h
        rw [hc']
        simp only [Fin.ofNat]
        omega

theorem to_string_inj (a b : Nat) (h : to_string a = to_string b) : a = b := by
  have ha := decimalDigits_value (a + 1) a (Nat.lt_succ_self a)
  have hb := decimalDigits_value (b + 1) b (Nat.lt_succ_self b)
  unfold to_string at h
  rw [h] at ha
  omega

theorem to_string_no_underscore (n : Nat) : (95 : Byte) ∉ to_string n := by
  intro h
  have h2 := (decimalDigits_digit (n + 1) n _ h).2
  exact absurd h2 (by decide)

theorem append_sep_inj (x : Byte) : ∀ (a b r t : Str), x ∉ a → x ∉ b →
    a ++ x :: r = b ++ x :: t → a = b ∧ r = t := by
  intro a
  induction a with
  | nil =>
    intro b r t _ hb h
    cases b with
    | nil => simpa using h
    | cons c cs =>
      simp only [List.nil_append, List.cons_append, List.cons.injEq] at h
      exact absurd (by rw [h.1]; simp) hb
  | cons d ds ih =>
    intro b r t ha hb h
    cases b with
    | nil =>
      simp only [List.nil_append, List.cons_append, List.cons.injEq] at h
      exact absurd (by rw [← h.1]; simp) ha
    | cons c cs =>
      simp only [List.cons_append, List.cons.injEq] at h
      have ha' : x ∉ ds := fun hm => ha (List.mem_cons_of_mem _ hm)
      have hb' : x ∉ cs := fun hm => hb (List.mem_cons_of_mem _ hm)
      obtain ⟨e1, e2⟩ := ih cs r t ha' hb' h.2
      exact ⟨by rw [h.1, e1], e2⟩

theorem unique_name_counter (pfx sfx : Str) (a b c d a' b' c' d' : Nat)
    (h : pfx ++ to_string a ++ lit "_" ++ to_string b ++ lit "_" ++ to_string c ++ lit "_" ++
          to_string d ++ sfx =
         pfx ++ to_string a' ++ lit "_" ++ to_string b' ++ lit "_" ++ to_string c' ++ lit "_" ++
          to_string d' ++ sfx) : c = c' := by
  have hl : lit "_" = [(95 : Byte)] := by decide
  rw [hl] at h
  simp only [List.append_assoc, List.singleton_append] at h
  have h1 := List.append_cancel_left h
  obtain ⟨_, h2⟩ := append_sep_inj 95 _ _ _ _ (to_string_no_underscore a)
    (to_string_no_underscore a') h1
  obtain ⟨_, h3⟩ := append_sep_inj 95 _ _ _ _ (to_string_no_underscore b)
    (to_string_no_underscore b') h2
  obtain ⟨h4, _⟩ := append_sep_inj 95 _ _ _ _ (to_string_no_underscore c)
    (to_string_no_underscore c') h3
  exact to_string_inj c c' h4

/-- C21: two calls of `generateUniqueFilename` with the same prefix and suffix
return different names whenever their counter values differ, whatever the clock
reading, the thread-id hash and the random number of each call are (the two
environments are arbitrary); the call that follows another fetches a different
counter value, so its name differs from the earlier one; every name starts with
the prefix and ends with the suffix. -/
theorem generateUniqueFilename_distinct (env1 env2 : Env) (pfx sfx : Str) (w1 w2 : World) :
    (w1.file_counter ≠ w2.file_counter →
      (generateUniqueFilename env1 pfx sfx w1).1 ≠ (generateUniqueFilename env2 pfx sfx w2).1) ∧
    (generateUniqueFilename env1 pfx sfx w1).2.file_counter ≠ w1.file_counter ∧
    (generateUniqueFilename env1 pfx sfx w1).1 ≠
      (generateUniqueFilename env2 pfx sfx (generateUniqueFilename env1 pfx sfx w1).2).1 ∧
    pfx <+: (generateUniqueFilename env1 pfx sfx w1).1 ∧
    sfx <:+ (generateUniqueFilename env1 pfx sfx w1).1 := by
  have key : ∀ (e1 e2 : Env) (v1 v2 : World), v1.file_counter ≠ v2.file_counter →
      (generateUniqueFilename e1 pfx sfx v1).1 ≠ (generateUniqueFilename e2 pfx sfx v2).1 := by
    intro e1 e2 v1 v2 hne heq
    unfold generateUniqueFilename at heq
    exact hne (unique_name_counter pfx sfx _ _ _ _ _ _ _ _ heq)
  have hnext : (generateUniqueFilename env1 pfx sfx w1).2.file_counter ≠ w1.file_counter := by
    unfold generateUniqueFilename
    simp only []
    have hp : (2 : Nat) ^ 64 = 18446744073709551616 := by norm_num
    rw [hp]
    omega
  refine ⟨key env1 env2 w1 w2, hnext, key env1 env2 _ _ (fun h => hnext h.symm), ?_, ?_⟩
  · unfold generateUniqueFilename
    simp only [List.append_assoc]
    exact List.prefix_append _ _
  · unfold generateUniqueFilename
    exact List.suffix_append _ _

/-! ## Collisions of the hashed byte stream -/

/-- C26: the hashed byte stream is not injective in the five inputs. For every
hash primitive, the document `AB` with the name `C` and the document `A` with
the name `BC` (phone, code and time equal) are distinct tuples of non-empty
values for which `calculateCompositeHash` hashes the same byte stream and
returns the same result; so are the name `a|b` with the phone `c` and the name
`a` with the phone `b|c` on one document. With the example primitive the common
result is a digest. -/
theorem calculateCompositeHash_stream_collisions (lib : Gcrypt) :
    ((lit "AB", lit "C") ≠ (lit "A", lit "BC")) ∧
    compositeStream (lit "AB") (lit "C") (lit "+79161234567") (lit "1234") (lit "T") =
      compositeStream (lit "A") (lit "BC") (lit "+79161234567") (lit "1234") (lit "T") ∧
    calculateCompositeHash lib DocumentHasher.new [(lit "doc.pdf", lit "AB")] (lit "doc.pdf")
        (lit "C") (lit "+79161234567") (lit "1234") (lit "T") =
      calculateCompositeHash lib DocumentHasher.new [(lit "doc.pdf", lit "A")] (lit "doc.pdf")
        (lit "BC") (lit "+79161234567") (lit "1234") (lit "T") ∧
    ((lit "a|b", lit "c") ≠ (lit "a", lit "b|c")) ∧
    compositeStream (lit "%PDF") (lit "a|b") (lit "c") (lit "1234") (lit "T") =
      compositeStream (lit "%PDF") (lit "a") (lit "b|c") (lit "1234") (lit "T") ∧
    calculateCompositeHash lib DocumentHasher.new [(lit "doc.pdf", lit "%PDF")] (lit "doc.pdf")
        (lit "a|b") (lit "c") (lit "1234") (lit "T") =
      calculateCompositeHash lib DocumentHasher.new [(lit "doc.pdf", lit "%PDF")] (lit "doc.pdf")
        (lit "a") (lit "b|c") (lit "1234") (lit "T") ∧
    (∃ digest, digest.length = 32 ∧
      calculateCompositeHash exampleGcrypt DocumentHasher.new [(lit "doc.pdf", lit "AB")]
        (lit "doc.pdf") (lit "C") (lit "+79161234567") (lit "1234") (lit "T") = .ok digest) ∧
    (∃ digest, digest.length = 32 ∧
      calculateCompositeHash exampleGcrypt DocumentHasher.new [(lit "doc.pdf", lit "%PDF")]
        (lit "doc.pdf") (lit "a|b") (lit "c") (lit "1234") (lit "T") = .ok digest) := by
  have s1 : compositeStream (lit "AB") (lit "C") (lit "+79161234567") (lit "1234") (lit "T") =
      compositeStream (lit "A") (lit "BC") (lit "+79161234567") (lit "1234") (lit "T") := by
    decide
  have s2 : compositeStream (lit "%PDF") (lit "a|b") (lit "c") (lit "1234") (lit "T") =
      compositeStream (lit "%PDF") (lit "a") (lit "b|c") (lit "1234") (lit "T") := by
    decide
  refine ⟨by decide, s1, ?_, by decide, s2, ?_, ⟨_, ?_, rfl⟩, ⟨_, ?_, rfl⟩⟩
  · rw [calc_valid lib _ _ _ _ _ _ (lit "AB") (by decide) (by decide) (by decide) (by decide)
        (by decide) (by decide) (by decide),
      calc_valid lib _ _ _ _ _ _ (lit "A") (by decide) (by decide) (by decide) (by decide)
        (by decide) (by decide) (by decide), s1]
  · rw [calc_valid lib _ _ _ _ _ _ (lit "%PDF") (by decide) (by decide) (by decide) (by decide)
        (by decide) (by decide) (by decide),
      calc_valid lib _ _ _ _ _ _ (lit "%PDF") (by decide) (by decide) (by decide) (by decide)
        (by decide) (by decide) (by decide), s2]
  · rfl
  · rfl

/-! ## The empty confirmation code -/

theorem copy_name_ne_nil (env : Env) (original pfx sfx dir : Str) (w w1 : World) (temp : Str)
    (h : createTempCopyWithUniqueFilename env original pfx sfx dir w = (.ok temp, w1)) :
    temp ≠ [] := by
  unfold createTempCopyWithUniqueFilename at h
  dsimp only at h
  repeat' split at h
  all_goals first
    | (simp only [Prod.mk.injEq, Except.ok.injEq] at h
       rw [← h.1]; simp [lit])
    | (simp at h)

theorem prepare_success_paths (env : Env) (user : UserIdentity) (w w1 : World)
    (prep : Result DocumentPreparationResult)
    (h : prepareDocumentForSigning env user w = (.ok prep, w1))
    (hok : prep.isError = false) :
    prep.value_.temp_html_path ≠ [] ∧ prep.value_.temp_pdf_path ≠ [] := by
  unfold prepareDocumentForSigning at h
  dsimp only at h
  cases hc : createTempCopyWithUniqueFilename env w.config_.html_template_path
      (lit "template_") (lit ".html") w.config_.temp_dir w with
  | mk c wc =>
    rw [hc] at h
    cases c with
    | error e =>
      dsimp only at h
      unfold prepareCatch at h
      split at h
      · simp only [Prod.mk.injEq, Except.ok.injEq] at h
        rw [← h.1] at hok
        simp [Result.error, Result.isError, Result.isSuccess] at hok
      · simp at h
    | ok temp =>
      have hne := copy_name_ne_nil env _ _ _ _ w wc temp hc
      dsimp only at h
      unfold prepareCatch at h
      repeat' split at h
      all_goals first
        | (simp only [Prod.mk.injEq, Except.ok.injEq] at h
           rw [← h.1] at hok
           simp [Result.error, Result.isError, Result.isSuccess] at hok
           done)
        | (simp only [Prod.mk.injEq, Except.ok.injEq] at h
           rw [← h.1]
           exact ⟨hne, by simp [Result.success, lit]⟩)
        | (simp at h)

theorem stamp_empty_code (env : Env) (user : UserIdentity)
    (prep : Result DocumentPreparationResult) (phone : Str) (w : World)
    (hp : prep.isError = false) (hpdf : prep.value_.temp_pdf_path ≠ []) :
    createStampOnPdf env user prep
        (Result.success { phone_number := phone, message_text := [] }) w =
      (.ok (Result.error .UNKNOWN_ERROR
          (lit "Document signing failed: " ++ lit "All metadata parameters must be non-empty")),
        cleanupTempFiles [prep.value_.temp_pdf_path, prep.value_.temp_html_path]
          (w.record (.composite_hash prep.value_.temp_pdf_path))) := by
  have hm : (Result.success ({ phone_number := phone, message_text := [] } :
      MessageSendingResult)).isError = false := rfl
  unfold createStampOnPdf
  simp only [hp, hm, Bool.or_self, Bool.false_eq_true, if_false]
  unfold calculateCompositeHash stampCatch
  simp [hpdf, Exn.what?, World.record, Result.success]

theorem signDocument_empty_code_aux (env : Env) (w w1 w2 : World) (test_mode need_all : Bool)
    (user : UserIdentity) (prep : Result DocumentPreparationResult)
    (hvalid : (if need_all = true then isUserIdentityHasAllFields user
      else isUserIdentityHasReqFields user).isError = false)
    (hprep : prepareDocumentForSigning env user
      (logInfo env (lit "SignatureService: preparing document for signing") w) = (.ok prep, w1))
    (hpok : prep.isError = false)
    (hsend : sendMessageToPhone env test_mode user.phone_number [] w1 =
      (.ok (Result.success { phone_number := user.phone_number, message_text := [] }), w2)) :
    (signDocument env w.config_.auth_token test_mode need_all user [] w).1 =
      Result.error .UNKNOWN_ERROR
        (lit "Document signing failed: All metadata parameters must be non-empty") ∧
    fileExists (signDocument env w.config_.auth_token test_mode need_all user [] w).2.fs
      prep.value_.temp_html_path = false ∧
    fileExists (signDocument env w.config_.auth_token test_mode need_all user [] w).2.fs
      prep.value_.temp_pdf_path = false ∧
    (signDocument env w.config_.auth_token test_mode need_all user [] w).2.trace =
      w2.trace ++ [.composite_hash prep.value_.temp_pdf_path] := by
  have hbody := signDocument_after_validation env w test_mode need_all user []
    (by decide) (by decide) hvalid
  obtain ⟨hhtml, hpdf⟩ := prepare_success_paths env user _ w1 prep hprep hpok
  have hm : (Result.success ({ phone_number := user.phone_number, message_text := [] } :
      MessageSendingResult)).isError = false := rfl
  have hmsg : lit "Document signing failed: " ++ lit "All metadata parameters must be non-empty" =
      lit "Document signing failed: All metadata parameters must be non-empty" := by decide
  have hsd : signDocument env w.config_.auth_token test_mode need_all user [] w =
      (Result.error .UNKNOWN_ERROR
          (lit "Document signing failed: All metadata parameters must be non-empty"),
        logError env (lit "SignatureService: PDF stamp creation failed")
          (cleanupTempFiles [prep.value_.temp_pdf_path, prep.value_.temp_html_path]
            ((logInfo env (lit "SignatureService: creating PDF stamp") w2).record
              (.composite_hash prep.value_.temp_pdf_path)))) := by
    unfold signDocument
    rw [hbody, hprep]
    simp only [hpok, Bool.false_eq_true, if_false, hsend, hm,
      stamp_empty_code env user prep user.phone_number _ hpok hpdf, hmsg]
    rfl
  rw [hsd]
  have hl := log_frame env .ERROR (lit "SignatureService: PDF stamp creation failed")
    (cleanupTempFiles [prep.value_.temp_pdf_path, prep.value_.temp_html_path]
      ((logInfo env (lit "SignatureService: creating PDF stamp") w2).record
        (.composite_hash prep.value_.temp_pdf_path)))
  refine ⟨rfl, ?_, ?_, ?_⟩
  · rw [logError, hl.1]
    exact (cleanup_two _ _ _ hpdf hhtml).2
  · rw [logError, hl.1]
    exact (cleanup_two _ _ _ hpdf hhtml).1
  · rw [logError, hl.2.1]
    simp [cleanupTempFiles, World.record, logInfo, World.log]

/-- C27 as stated fails when the confirmation is not delivered: with the valid
token, the minimal valid identity, the empty code and `test_mode` off,
preparation succeeds, the SMS provider reports the status `error`, and the call
returns `SMS_SEND_ERROR`, not `UNKNOWN_ERROR`; the hasher is never reached. -/
theorem signDocument_empty_code_sms_error :
    (isAuthTokenValid exampleWorld (lit "AUTH_TOKEN")).isSuccess = true ∧
    (isUserIdentityHasReqFields exampleUser).isSuccess = true ∧
    (prepareDocumentForSigning exampleEnv exampleUser
      (logInfo exampleEnv (lit "SignatureService: preparing document for signing")
        exampleWorld)).1 =
      .ok (Result.success
        { temp_html_path := lit "/tmp/template_1700000000_7_0_42.html"
          temp_pdf_path := lit "/tmp/temp_document_1700000000_7_1_43.pdf" }) ∧
    (signDocument exampleEnv (lit "AUTH_TOKEN") false false exampleUser [] exampleWorld).1 =
      Result.error .SMS_SEND_ERROR (lit "Message sending failed!") ∧
    (signDocument exampleEnv (lit "AUTH_TOKEN") false false exampleUser []
      exampleWorld).1.error_code_ ≠ .UNKNOWN_ERROR ∧
    (signDocument exampleEnv (lit "AUTH_TOKEN") false false exampleUser [] exampleWorld).2.trace =
      [.copy_file (lit "/srv/template.html") (lit "/tmp/template_1700000000_7_0_42.html"),
       .replace_placeholders (lit "/tmp/template_1700000000_7_0_42.html"),
       .convert (lit "/tmp/template_1700000000_7_0_42.html")
         (lit "/tmp/temp_document_1700000000_7_1_43.pdf"),
       .send_code (lit "+79161234567") [],
       .check_status []] := by
  refine ⟨rfl, rfl, rfl, rfl, ?_, rfl⟩
  decide

/-- C27, amended: `signDocument` with the valid token, a valid identity and the
empty confirmation code, when preparation succeeds and the confirmation is
delivered (test mode, or the provider reports `accepted`), returns
`UNKNOWN_ERROR` with the hasher's message that all metadata parameters must be
non-empty; neither temp file of the call exists afterwards; after preparation
the only collaborator calls are, with `test_mode` off, the send of the empty
code and the status check, and then the hasher: the stamper is not called. -/
theorem signDocument_empty_code (env : Env) (w w1 : World) (test_mode need_all : Bool)
    (user : UserIdentity) (prep : Result DocumentPreparationResult)
    (hvalid : (if need_all = true then isUserIdentityHasAllFields user
      else isUserIdentityHasReqFields user).isError = false)
    (hprep : prepareDocumentForSigning env user
      (logInfo env (lit "SignatureService: preparing document for signing") w) = (.ok prep, w1))
    (hpok : prep.isError = false)
    (hdeliver : test_mode = true ∨
      ∃ sr, env.send_confirmation_code user.phone_number [] = .ok sr ∧
        sr.status = lit "accepted") :
    (signDocument env w.config_.auth_token test_mode need_all user [] w).1 =
      Result.error .UNKNOWN_ERROR
        (lit "Document signing failed: All metadata parameters must be non-empty") ∧
    fileExists (signDocument env w.config_.auth_token test_mode need_all user [] w).2.fs
      prep.value_.temp_html_path = false ∧
    fileExists (signDocument env w.config_.auth_token test_mode need_all user [] w).2.fs
      prep.value_.temp_pdf_path = false ∧
    (test_mode = true →
      (signDocument env w.config_.auth_token test_mode need_all user [] w).2.trace =
        w1.trace ++ [.composite_hash prep.value_.temp_pdf_path]) ∧
    (test_mode = false → ∀ sr, env.send_confirmation_code user.phone_number [] = .ok sr →
      (signDocument env w.config_.auth_token test_mode need_all user [] w).2.trace =
        w1.trace ++ [.send_code user.phone_number [], .check_status sr.id,
          .composite_hash prep.value_.temp_pdf_path]) := by
  cases test_mode with
  | true =>
    obtain ⟨h1, h2, h3, h4⟩ := signDocument_empty_code_aux env w w1 _ true need_all user prep
      hvalid hprep hpok (send_test_mode env user.phone_number [] w1)
    refine ⟨h1, h2, h3, ?_, ?_⟩
    · intro _
      rw [h4, logInfo, (log_frame env .INFO _ w1).2.1]
    · intro h; exact absurd h (by decide)
  | false =>
    rcases hdeliver with h | ⟨sr, hsr, hacc⟩
    · exact absurd h (by decide)
    · obtain ⟨r, w2, hsend, htrace, _, _, _, _, _, hgood⟩ :=
        send_live env user.phone_number [] w1 sr hsr
      rw [hgood hacc] at hsend
      obtain ⟨h1, h2, h3, h4⟩ := signDocument_empty_code_aux env w w1 w2 false need_all user prep
        hvalid hprep hpok hsend
      refine ⟨h1, h2, h3, ?_, ?_⟩
      · intro h; exact absurd h (by decide)
      · intro _ sr' hsr'
        rw [hsr] at hsr'
        have e : sr = sr' := by simpa using hsr'
        rw [h4, htrace, ← e]
        simp

/-- Witness of C27: the empty code in test mode on the example state, and with
`test_mode` off and a provider that reports `accepted`. -/
theorem signDocument_empty_code_witness :
    (signDocument happyEnv exampleWorld.config_.auth_token true false exampleUser []
        exampleWorld).1 =
      Result.error .UNKNOWN_ERROR
        (lit "Document signing failed: All metadata parameters must be non-empty") ∧
    (signDocument acceptingEnv exampleWorld.config_.auth_token false false exampleUser []
        exampleWorld).1 =
      Result.error .UNKNOWN_ERROR
        (lit "Document signing failed: All metadata parameters must be non-empty") :=
  ⟨(signDocument_empty_code happyEnv exampleWorld
      (prepareDocumentForSigning happyEnv exampleUser
        (logInfo happyEnv (lit "SignatureService: preparing document for signing")
          exampleWorld)).2
      true false exampleUser
      (Result.success
        { temp_html_path := lit "/tmp/template_1700000000_7_0_42.html"
          temp_pdf_path := lit "/tmp/temp_document_1700000000_7_1_43.pdf" })
      rfl rfl rfl (Or.inl rfl)).1,
   (signDocument_empty_code acceptingEnv exampleWorld
      (prepareDocumentForSigning acceptingEnv exampleUser
        (logInfo acceptingEnv (lit "SignatureService: preparing document for signing")
          exampleWorld)).2
      false false exampleUser
      (Result.success
        { temp_html_path := lit "/tmp/template_1700000000_7_0_42.html"
          temp_pdf_path := lit "/tmp/temp_document_1700000000_7_1_43.pdf" })
      rfl rfl rfl
      (Or.inr ⟨{ status := lit "accepted", id := lit "4815" }, rfl, rfl⟩)).1⟩

/-! ## The JSON form of an identity -/

theorem userIdentityJson_items (u : UserIdentity) :
    userIdentityJson u = .object
      [ (lit "email", .string u.email),
        (lit "first_name", .string u.first_name),
        (lit "last_name", .string u.last_name),
        (lit "middle_name", .string u.middle_name),
        (lit "passport_birthday_date", .string u.passport_birthday_date),
        (lit "passport_birthday_place", .string u.passport_birthday_place),
        (lit "passport_issued_by", .string u.passport_issued_by),
        (lit "passport_issued_date", .string u.passport_issued_date),
        (lit "passport_number", .string u.passport_number),
        (lit "passport_registration_address", .string u.passport_registration_address),
        (lit "passport_registration_date", .string u.passport_registration_date),
        (lit "passport_series", .string u.passport_series),
        (lit "passport_unite_code", .string u.passport_unite_code),
        (lit "phone_number", .string u.phone_number) ] := by
  rfl

theorem body_email_empty (lib : JsonLib) (s : Str) (v : UserIdentity)
    (h : parseJsonStringToUserIdentityBody lib s = .ok v) : v.email = [] := by
  unfold parseJsonStringToUserIdentityBody at h
  simp only [bind, Except.bind, pure, Except.pure] at h
  repeat' split at h
  all_goals first
    | (simp only [Except.ok.injEq] at h
       rw [← h])
    | (simp at h)

theorem body_roundtrip (lib : JsonLib) (u : UserIdentity) (text : Str)
    (hparse : lib.parse text = .ok (userIdentityJson u)) :
    parseJsonStringToUserIdentityBody lib text = .ok { u with email := [] } := by
  unfold parseJsonStringToUserIdentityBody
  rw [hparse, userIdentityJson_items]
  rfl

/-- C30: when the JSON library serialises the object of an identity `u` and
parses the text back to that object, `parseJsonStringToUserIdentity` applied to
`parseUserIdentityToJsonString(u)` returns `u` with the email emptied and every
other field as it was; an identity returned by the parser, for whatever text,
has an empty email and so fails the all-fields validation with
`INVALID_USER_DATA`. -/
theorem parse_of_serialized_identity (lib : JsonLib) (u : UserIdentity) (pretty : Bool)
    (text : Str)
    (hdump : parseUserIdentityToJsonString lib u pretty = .ok text)
    (hparse : lib.parse text = .ok (userIdentityJson u)) :
    (parseUserIdentityToJsonString lib u pretty >>= parseJsonStringToUserIdentity lib) =
      .ok { u with email := [] } ∧
    (∀ s v, parseJsonStringToUserIdentity lib s = .ok v →
      v.email = [] ∧
      isUserIdentityHasAllFields v = Result.error .INVALID_USER_DATA (lit "Invalid user data") ∧
      (isUserIdentityHasAllFields v).isError = true) := by
  constructor
  · rw [hdump]
    show parseJsonStringToUserIdentity lib text = _
    unfold parseJsonStringToUserIdentity
    rw [body_roundtrip lib u text hparse]
  · intro s v h
    have hv : v.email = [] := by
      unfold parseJsonStringToUserIdentity at h
      cases hb : parseJsonStringToUserIdentityBody lib s with
      | ok identity =>
        rw [hb] at h
        simp only [Except.ok.injEq] at h
        rw [← h]
        exact body_email_empty lib s identity hb
      | error e =>
        rw [hb] at h
        dsimp only at h
        cases hw : e.what? <;> simp [hw] at h
    have hall : isUserIdentityHasAllFields v =
        Result.error .INVALID_USER_DATA (lit "Invalid user data") := by
      unfold isUserIdentityHasAllFields
      simp [hv]
    refine ⟨hv, hall, ?_⟩
    rw [hall]
    rfl

set_option maxRecDepth 8192 in
/-- Witness of C30: the identity `fullUser`, which has every field filled in. -/
theorem parse_of_serialized_identity_witness :
    (parseUserIdentityToJsonString exampleJsonLib fullUser false >>=
        parseJsonStringToUserIdentity exampleJsonLib) =
      .ok { fullUser with email := [] } ∧
    (isUserIdentityHasAllFields fullUser).isSuccess = true ∧
    (isUserIdentityHasAllFields { fullUser with email := [] }).isError = true :=
  ⟨(parse_of_serialized_identity exampleJsonLib fullUser false fullUserText rfl rfl).1,
    by decide, by decide⟩

/-! ## Termination of the replacement loop -/

theorem foldl_replace_none (fuel : Nat) (data : List (Str × JsonValue)) :
    data.foldl
      (fun (result : Option Str) item =>
        match result with
        | none => none
        | some text => replaceLoop item.1 item.2.replacement fuel text 0)
      none = none := by
  induction data with
  | nil => rfl
  | cons item items ih => simpa using ih

theorem replacePlaceholdersInContent_cons (fuel : Nat) (item : Str × JsonValue)
    (rest : List (Str × JsonValue)) (t : Str) :
    replacePlaceholdersInContent fuel (item :: rest) t =
      (replaceLoop item.1 item.2.replacement fuel t 0).bind
        (replacePlaceholdersInContent fuel rest) := by
  unfold replacePlaceholdersInContent
  simp only [List.foldl_cons]
  cases replaceLoop item.1 item.2.replacement fuel t 0 with
  | none => simpa using foldl_replace_none fuel rest
  | some text => rfl

theorem replaceLoop_empty_key (v : Str) : ∀ (fuel : Nat) (result : Str) (pos : Nat),
    pos ≤ result.length → replaceLoop [] v fuel result pos = none := by
  intro fuel
  induction fuel with
  | zero => intro result pos _; rfl
  | succ fuel ih =>
    intro result pos hpos
    have hfind : find result [] pos = some pos := by
      unfold find
      rw [if_neg (by omega)]
      cases result.drop pos <;> simp [findFrom]
    unfold replaceLoop
    rw [hfind]
    simp only
    apply ih
    unfold replace
    simp only [List.length_append, List.length_take, List.length_drop, List.length_nil]
    omega

theorem replacePlaceholders_sequential (data : List (Str × JsonValue)) :
    ∀ t : Str, (∀ item ∈ data, item.1 ≠ []) →
      ∃ bound, ∀ fuel, bound ≤ fuel →
        replacePlaceholdersInContent fuel data t =
          some (data.foldl (fun text item => replaceAll item.1 item.2.replacement text) t) := by
  induction data with
  | nil => intro t _; exact ⟨0, fun fuel _ => rfl⟩
  | cons item rest ih =>
    intro t hkeys
    have hk : item.1 ≠ [] := hkeys item (List.mem_cons_self _ _)
    obtain ⟨b, hb⟩ := ih (replaceAll item.1 item.2.replacement t)
      (fun i hi => hkeys i (List.mem_cons_of_mem _ hi))
    refine ⟨max (t.length + 1) b, fun fuel hfuel => ?_⟩
    rw [replacePlaceholdersInContent_cons,
      replaceLoop_spec item.1 item.2.replacement hk fuel t 0 (Nat.zero_le _) (by omega)]
    simp only [List.take_zero, List.nil_append, List.drop_zero, Option.some_bind, List.foldl_cons]
    exact hb fuel (by omega)

theorem replacePlaceholders_empty_key (fuel : Nat) (data : List (Str × JsonValue)) :
    ∀ t : Str, (∃ item ∈ data, item.1 = []) →
      replacePlaceholdersInContent fuel data t = none := by
  induction data with
  | nil => intro t h; obtain ⟨item, hm, _⟩ := h; simp at hm
  | cons item rest ih =>
    intro t h
    rw [replacePlaceholdersInContent_cons]
    by_cases hk : item.1 = []
    · rw [hk, replaceLoop_empty_key _ fuel t 0 (Nat.zero_le _)]
      rfl
    · have hrest : ∃ i ∈ rest, i.1 = [] := by
        obtain ⟨i, hi, hie⟩ := h
        rcases List.mem_cons.mp hi with e | hm
        · exact absurd (e ▸ hie) hk
        · exact ⟨i, hm, hie⟩
      cases replaceLoop item.1 item.2.replacement fuel t 0 with
      | none => rfl
      | some text => exact ih text hrest

/-- C29: for a data object all of whose keys are non-empty and every template,
the replacement loops of `replacePlaceholdersInContent` end: from some bound on,
every bound on the number of iterations gives the same result, the keys replaced
one after the other in the order of the data (each by left-to-right replacement
that goes on after the text put in, also when a value contains its own key). For
a data object that contains the empty key the loop does not end: whatever the
bound on the iterations, no result is reached. -/
theorem replacePlaceholdersInContent_termination (data : List (Str × JsonValue)) (t : Str) :
    ((∀ item ∈ data, item.1 ≠ []) →
      ∃ bound, ∀ fuel, bound ≤ fuel →
        replacePlaceholdersInContent fuel data t =
          some (data.foldl (fun text item => replaceAll item.1 item.2.replacement text) t)) ∧
    ((∃ item ∈ data, item.1 = []) →
      ∀ fuel, replacePlaceholdersInContent fuel data t = none) :=
  ⟨replacePlaceholders_sequential data t, fun h fuel => replacePlaceholders_empty_key fuel data t h⟩

/-- Witness of C29: a value that contains its own key, and the empty key. -/
theorem replacePlaceholdersInContent_termination_witness :
    (∃ bound, ∀ fuel, bound ≤ fuel →
      replacePlaceholdersInContent fuel [(lit "aa", .string (lit "aaa"))] (lit "aaaaa") =
        some (lit "aaaaaaa")) ∧
    (∀ fuel, replacePlaceholdersInContent fuel
      [(lit "", .string (lit "x")), (lit "aa", .string (lit "aaa"))] (lit "aaaaa") = none) :=
  ⟨(replacePlaceholdersInContent_termination [(lit "aa", .string (lit "aaa"))]
      (lit "aaaaa")).1 (by decide),
   (replacePlaceholdersInContent_termination
      [(lit "", .string (lit "x")), (lit "aa", .string (lit "aaa"))] (lit "aaaaa")).2
      ⟨(lit "", .string (lit "x")), by simp, rfl⟩⟩

/-! ## Sequential substitution -/

/-- C28: the members of the JSON object of an identity are listed by ascending
key (`email` before `first_name`), and `replacePlaceholdersInContent` replaces
the keys one after the other in that order, each on the text the earlier keys
left, so text put in for one key is read again for every later key. With the
identity keys, the email `first_name@mail.ru` and the first name `Ivan`, the
template `<p>email</p>` becomes `<p>Ivan@mail.ru</p>`, whereas simultaneous
substitution of all keys gives `<p>first_name@mail.ru</p>`. -/
theorem substitution_is_sequential :
    (∀ u : UserIdentity, (userIdentityJson u).items.map (fun item => item.1) =
      [lit "email", lit "first_name", lit "last_name", lit "middle_name",
       lit "passport_birthday_date", lit "passport_birthday_place", lit "passport_issued_by",
       lit "passport_issued_date", lit "passport_number", lit "passport_registration_address",
       lit "passport_registration_date", lit "passport_series", lit "passport_unite_code",
       lit "phone_number"]) ∧
    (∀ u : UserIdentity, List.Pairwise (fun a b => strLess a b = true)
      ((userIdentityJson u).items.map (fun item => item.1))) ∧
    (∀ (fuel : Nat) (item : Str × JsonValue) (rest : List (Str × JsonValue)) (t : Str),
      replacePlaceholdersInContent fuel (item :: rest) t =
        (replaceLoop item.1 item.2.replacement fuel t 0).bind
          (replacePlaceholdersInContent fuel rest)) ∧
    (∃ bound, ∀ fuel, bound ≤ fuel →
      replacePlaceholdersInContent fuel
        (userIdentityJson { exampleUser with email := lit "first_name@mail.ru" }).items
        (lit "<p>email</p>") = some (lit "<p>Ivan@mail.ru</p>")) ∧
    replacePlaceholdersInContent 64
      (userIdentityJson { exampleUser with email := lit "first_name@mail.ru" }).items
      (lit "<p>email</p>") = some (lit "<p>Ivan@mail.ru</p>") ∧
    replaceSimultaneous
      (userIdentityJson { exampleUser with email := lit "first_name@mail.ru" }).items
      (lit "<p>email</p>") = lit "<p>first_name@mail.ru</p>" ∧
    lit "<p>Ivan@mail.ru</p>" ≠ lit "<p>first_name@mail.ru</p>" := by
  have hkeys : ∀ u : UserIdentity, (userIdentityJson u).items.map (fun item => item.1) =
      [lit "email", lit "first_name", lit "last_name", lit "middle_name",
       lit "passport_birthday_date", lit "passport_birthday_place", lit "passport_issued_by",
       lit "passport_issued_date", lit "passport_number", lit "passport_registration_address",
       lit "passport_registration_date", lit "passport_series", lit "passport_unite_code",
       lit "phone_number"] := by
    intro u
    rw [userIdentityJson_items]
    rfl
  refine ⟨hkeys, ?_, replacePlaceholdersInContent_cons, ?_, rfl, rfl, by decide⟩
  · intro u
    rw [hkeys u]
    decide
  · exact replacePlaceholders_sequential
      (userIdentityJson { exampleUser with email := lit "first_name@mail.ru" }).items
      (lit "<p>email</p>") (by decide)

/-! ## The log writer -/

theorem logSink_step_pending (file_opens : Bool) (s s' : LogSink) (action : LogAction)
    (h : s.step file_opens action = some s') :
    s'.log_file_ ++ s'.writer.pending ++ s'.logger.log_queue_ =
      s.log_file_ ++ s.writer.pending ++ s.logger.log_queue_ ++
        acceptedRecords s.logger.enabled_ [action] ∧
    ∀ actions, acceptedRecords s.logger.enabled_ (action :: actions) =
      acceptedRecords s.logger.enabled_ [action] ++ acceptedRecords s'.logger.enabled_ actions := by
  cases action with
  | log now thread_id message_type message =>
    simp only [LogSink.step, Option.some.injEq] at h
    subst h
    cases he : s.logger.enabled_ <;>
      simp [LoggerService.log, he, acceptedRecords]
  | enable =>
    simp only [LogSink.step, Option.some.injEq] at h
    subst h
    simp [LoggerService.enable, acceptedRecords]
  | disable =>
    simp only [LogSink.step, Option.some.injEq] at h
    subst h
    simp [LoggerService.disable, acceptedRecords]
  | shutdown =>
    simp only [LogSink.step, Option.some.injEq] at h
    subst h
    simp [acceptedRecords]
  | writer =>
    unfold LogSink.step at h
    simp only at h
    split at h
    · simp only [Option.some.injEq] at h
      subst h
      rename_i hw
      cases file_opens <;> simp [hw, WriterPc.pending, acceptedRecords]
    · rename_i hw
      split at h
      · simp only [Option.some.injEq] at h
        subst h
        simp [hw, WriterPc.pending, acceptedRecords]
      · simp at h
    · rename_i line local_queue hw
      simp only [Option.some.injEq] at h
      subst h
      simp [hw, WriterPc.pending, acceptedRecords]
    · rename_i hw
      split at h <;>
        (simp only [Option.some.injEq] at h
         subst h
         simp [hw, WriterPc.pending, acceptedRecords])
    · rename_i hw
      split at h
      · rename_i line log_queue hq
        simp only [Option.some.injEq] at h
        subst h
        simp [hw, hq, WriterPc.pending, acceptedRecords]
      · rename_i hq
        simp only [Option.some.injEq] at h
        subst h
        simp [hw, hq, WriterPc.pending, acceptedRecords]
    · simp at h
    · simp at h

theorem logSink_run_pending (file_opens : Bool) (actions : List LogAction) :
    ∀ (s s' : LogSink), LogSink.run file_opens actions s = some s' →
      s'.log_file_ ++ s'.writer.pending ++ s'.logger.log_queue_ =
        s.log_file_ ++ s.writer.pending ++ s.logger.log_queue_ ++
          acceptedRecords s.logger.enabled_ actions := by
  induction actions with
  | nil =>
    intro s s' h
    simp only [LogSink.run, Option.some.injEq] at h
    subst h
    simp [acceptedRecords]
  | cons action actions ih =>
    intro s s' h
    unfold LogSink.run at h
    cases hs : s.step file_opens action with
    | none => simp [hs] at h
    | some next =>
      rw [hs] at h
      simp only at h
      obtain ⟨h1, h2⟩ := logSink_step_pending file_opens s next action hs
      rw [ih next s' h, h1, h2 actions]
      simp only [List.append_assoc]

theorem acceptedRecords_never_enabled (actions : List LogAction)
    (h : LogAction.enable ∉ actions) : acceptedRecords false actions = [] := by
  induction actions with
  | nil => rfl
  | cons action actions ih =>
    have hrest : LogAction.enable ∉ actions := fun hm => h (List.mem_cons_of_mem _ hm)
    cases action with
    | enable => exact absurd (List.mem_cons_self _ _) h
    | log now thread_id message_type message => simpa [acceptedRecords] using ih hrest
    | disable => simpa [acceptedRecords] using ih hrest
    | shutdown => simpa [acceptedRecords] using ih hrest
    | writer => simpa [acceptedRecords] using ih hrest

theorem logSink_run_enabled (file_opens : Bool) (actions : List LogAction) :
    ∀ (s s' : LogSink), LogSink.run file_opens actions s = some s' →
      LogAction.enable ∉ actions → s.logger.enabled_ = false → s'.logger.enabled_ = false := by
  induction actions with
  | nil =>
    intro s s' h _ he
    simp only [LogSink.run, Option.some.injEq] at h
    subst h
    exact he
  | cons action actions ih =>
    intro s s' h hno he
    unfold LogSink.run at h
    cases hs : s.step file_opens action with
    | none => simp [hs] at h
    | some next =>
      rw [hs] at h
      simp only at h
      have hrest : LogAction.enable ∉ actions := fun hm => hno (List.mem_cons_of_mem _ hm)
      apply ih next s' h hrest
      cases action with
      | enable => exact absurd (List.mem_cons_self _ _) hno
      | log now thread_id message_type message =>
        simp only [LogSink.step, Option.some.injEq] at hs
        subst hs
        simp [LoggerService.log, he]
      | disable =>
        simp only [LogSink.step, Option.some.injEq] at hs
        subst hs
        rfl
      | shutdown =>
        simp only [LogSink.step, Option.some.injEq] at hs
        subst hs
        exact he
      | writer =>
        unfold LogSink.step at hs
        simp only at hs
        repeat' split at hs
        all_goals first
          | (simp only [Option.some.injEq] at hs
             subst hs
             exact he)
          | (simp at hs)

theorem logSink_step_finishes (file_opens : Bool) (s s' : LogSink)
    (h : s.step file_opens .writer = some s') (hf : s'.writer = .finished) :
    s.writer.pending = [] ∧ s.logger.log_queue_ = [] ∧
    s'.log_file_ = s.log_file_ ∧ s'.logger.log_queue_ = [] := by
  unfold LogSink.step at h
  simp only at h
  split at h
  · simp only [Option.some.injEq] at h
    subst h
    cases file_opens <;> simp at hf
  · split at h
    · simp only [Option.some.injEq] at h
      subst h
      simp at hf
    · simp at h
  · simp only [Option.some.injEq] at h
    subst h
    simp at hf
  · split at h <;>
      (simp only [Option.some.injEq] at h
       subst h
       simp at hf)
  · rename_i hw
    split at h
    · simp only [Option.some.injEq] at h
      subst h
      simp [hw] at hf
    · rename_i hq
      simp only [Option.some.injEq] at h
      subst h
      simp [hw, hq, WriterPc.pending]
  · simp at h
  · simp at h

/-- C25: in every run of a new logger (disabled, empty queue), the lines in the
log file, followed by the records the writer has taken and not yet written and
by the queue, are the records passed to `log()` while logging was enabled, in
call order and each once. When a step of the writer ends its final drain, the
queue is empty and the file holds exactly those records; so it does whenever the
writer has finished and the queue is empty. A `log()` call while logging is
disabled leaves the whole state as it is, and while `enable()` has not been
called nothing is queued or written. -/
theorem logSink_file_is_accepted_records (file_opens : Bool) (actions : List LogAction)
    (s : LogSink) (h : LogSink.run file_opens actions {} = some s) :
    s.log_file_ ++ s.writer.pending ++ s.logger.log_queue_ = acceptedRecords false actions ∧
    (∀ s', s.step file_opens .writer = some s' → s'.writer = .finished →
      s'.logger.log_queue_ = [] ∧ s'.log_file_ = acceptedRecords false actions) ∧
    (s.writer = .finished → s.logger.log_queue_ = [] →
      s.log_file_ = acceptedRecords false actions) ∧
    (s.logger.enabled_ = false → ∀ now thread_id message_type message,
      s.step file_opens (.log now thread_id message_type message) = some s) ∧
    (LogAction.enable ∉ actions →
      s.log_file_ = [] ∧ s.logger.log_queue_ = [] ∧ s.logger.enabled_ = false) := by
  have hinv : s.log_file_ ++ s.writer.pending ++ s.logger.log_queue_ =
      acceptedRecords false actions := by
    have := logSink_run_pending file_opens actions {} s h
    simpa [WriterPc.pending] using this
  refine ⟨hinv, ?_, ?_, ?_, ?_⟩
  · intro s' hstep hf
    obtain ⟨h1, h2, h3, h4⟩ := logSink_step_finishes file_opens s s' hstep hf
    refine ⟨h4, ?_⟩
    rw [h3, ← hinv, h1, h2]
    simp
  · intro hw hq
    rw [← hinv, hw, hq]
    simp [WriterPc.pending]
  · intro he now thread_id message_type message
    simp [LogSink.step, LoggerService.log, he]
  · intro hno
    have hacc := acceptedRecords_never_enabled actions hno
    rw [hacc] at hinv
    have hlen := congrArg List.length hinv
    simp only [List.length_append, List.length_nil] at hlen
    refine ⟨List.length_eq_zero.mp (by omega), List.length_eq_zero.mp (by omega), ?_⟩
    exact logSink_run_enabled file_opens actions {} s h hno rfl

/-- Witness of C25: the example run, at the end of which the writer has finished
and the file holds the two records logged while the logger was enabled. -/
theorem logSink_file_is_accepted_records_witness :
    ({ logger := { enabled_ := false, log_queue_ := [] }
       shutdown_ := true
       writer := .finished
       log_file_ :=
        [createLogEntry (lit "10:01") (lit "1") .INFO (lit "first"),
         createLogEntry (lit "10:02") (lit "2") .ERROR (lit "second")] } : LogSink).log_file_ =
      acceptedRecords false exampleLogRun ∧
    acceptedRecords false exampleLogRun =
      [createLogEntry (lit "10:01") (lit "1") .INFO (lit "first"),
       createLogEntry (lit "10:02") (lit "2") .ERROR (lit "second")] :=
  ⟨(logSink_file_is_accepted_records true exampleLogRun _ (by decide)).2.2.1 rfl rfl, by decide⟩

/-! ## The render queue -/

theorem handedTasks_append (calls : List EngineCall) (call : EngineCall) :
    handedTasks (calls ++ [call]) = handedTasks calls ++ handedTasks [call] := by
  induction calls with
  | nil => simp [handedTasks]
  | cons c cs ih =>
    cases c <;> simp [handedTasks, ih]

theorem inFlight_append (calls : List EngineCall) (call : EngineCall) :
    inFlight (calls ++ [call]) =
      match call with
      | .convert_begin _ => inFlight calls + 1
      | .convert_end _ _ => inFlight calls - 1
      | _ => inFlight calls := by
  unfold inFlight
  rw [List.foldl_append]
  cases call <;> rfl

theorem renderWorker_step_invariant (env : Env) (init_result : Int) (s s' : RenderWorker)
    (action : WrapperAction) (h : s.step env init_result action = some s')
    (h1 : s.submitted = handedTasks s.engine ++ s.task_queue_)
    (h2 : handedTasks s.engine = s.completed.map (fun c => c.1) ++ s.worker.held)
    (h3 : inFlight s.engine = (s.worker.held.length : Int)) :
    s'.submitted = handedTasks s'.engine ++ s'.task_queue_ ∧
    handedTasks s'.engine = s'.completed.map (fun c => c.1) ++ s'.worker.held ∧
    inFlight s'.engine = (s'.worker.held.length : Int) := by
  cases action with
  | convertSync input_html_path output_pdf_path =>
    simp only [RenderWorker.step] at h
    split at h
    · simp only [Option.some.injEq] at h
      subst h
      exact ⟨h1, h2, h3⟩
    · simp only [Option.some.injEq] at h
      subst h
      exact ⟨by simp [h1], h2, h3⟩
  | convertAsync input_html_path output_pdf_path callback =>
    simp only [RenderWorker.step] at h
    split at h
    · simp only [Option.some.injEq] at h
      subst h
      exact ⟨h1, h2, h3⟩
    · simp only [Option.some.injEq] at h
      subst h
      exact ⟨by simp [h1], h2, h3⟩
  | shutdown =>
    simp only [RenderWorker.step] at h
    split at h <;>
      (simp only [Option.some.injEq] at h
       subst h
       exact ⟨h1, h2, h3⟩)
  | shutdownReturn wait_for_completion =>
    simp only [RenderWorker.step] at h
    split at h
    · simp at h
    · simp only [Option.some.injEq] at h
      subst h
      exact ⟨h1, h2, h3⟩
  | worker =>
    unfold RenderWorker.step at h
    simp only at h
    split at h
    · rename_i hw
      rw [hw] at h2 h3
      split at h <;>
        (simp only [Option.some.injEq] at h
         subst h
         simp only [handedTasks_append, inFlight_append, handedTasks, List.append_nil]
         exact ⟨h1, h2, h3⟩)
    · rename_i hw
      rw [hw] at h2 h3
      split at h <;>
        (simp only [Option.some.injEq] at h
         subst h
         simp only [handedTasks_append, inFlight_append, handedTasks, List.append_nil]
         exact ⟨h1, h2, h3⟩)
    · rename_i hw
      rw [hw] at h2 h3
      split at h
      · simp at h
      · split at h
        · simp only [Option.some.injEq] at h
          subst h
          simp only [handedTasks_append, inFlight_append, handedTasks, List.append_nil]
          exact ⟨h1, h2, h3⟩
        · split at h
          · simp only [Option.some.injEq] at h
            subst h
            exact ⟨h1, h2, h3⟩
          · rename_i task task_queue hq
            simp only [Option.some.injEq] at h
            subst h
            simp only [handedTasks_append, inFlight_append, handedTasks, WorkerPc.held] at *
            refine ⟨?_, ?_, ?_⟩
            · rw [h1, hq]; simp
            · rw [h2]; simp
            · rw [h3]; simp
    · rename_i task hw
      rw [hw] at h2 h3
      simp only [Option.some.injEq] at h
      subst h
      simp only [handedTasks_append, inFlight_append, handedTasks, WorkerPc.held] at *
      refine ⟨?_, ?_, ?_⟩
      · rw [h1]; simp
      · rw [h2]; simp
      · rw [h3]; simp
    · simp at h

theorem renderWorker_run_invariant (env : Env) (init_result : Int)
    (actions : List WrapperAction) :
    ∀ (s s' : RenderWorker), RenderWorker.run env init_result actions s = some s' →
      s.submitted = handedTasks s.engine ++ s.task_queue_ →
      handedTasks s.engine = s.completed.map (fun c => c.1) ++ s.worker.held →
      inFlight s.engine = (s.worker.held.length : Int) →
      s'.submitted = handedTasks s'.engine ++ s'.task_queue_ ∧
      handedTasks s'.engine = s'.completed.map (fun c => c.1) ++ s'.worker.held ∧
      inFlight s'.engine = (s'.worker.held.length : Int) := by
  induction actions with
  | nil =>
    intro s s' h h1 h2 h3
    simp only [RenderWorker.run, Option.some.injEq] at h
    subst h
    exact ⟨h1, h2, h3⟩
  | cons action actions ih =>
    intro s s' h h1 h2 h3
    unfold RenderWorker.run at h
    cases hs : s.step env init_result action with
    | none => simp [hs] at h
    | some next =>
      rw [hs] at h
      simp only at h
      obtain ⟨g1, g2, g3⟩ := renderWorker_step_invariant env init_result s next action hs h1 h2 h3
      exact ih next s' h g1 g2 g3

/-- C22: in every run of the wrapper after `initialize()`, the tasks pushed (by
`convertSync` and `convertAsync`, at the back of the queue) are, in order, the
tasks handed to the engine followed by the tasks still in the queue. So the
tasks handed to the engine are at every moment a prefix of the tasks pushed,
they are the completed tasks followed by the one the worker holds (at most one),
and a task pushed once is handed to the engine at most once. -/
theorem render_queue_fifo (env : Env) (init_result : Int) (w : World)
    (actions : List WrapperAction) (s : RenderWorker)
    (h : RenderWorker.run env init_result actions (RenderWorker.started w) = some s) :
    s.submitted = handedTasks s.engine ++ s.task_queue_ ∧
    handedTasks s.engine <+: s.submitted ∧
    handedTasks s.engine = s.completed.map (fun c => c.1) ++ s.worker.held ∧
    s.completed.map (fun c => c.1) <+: s.submitted ∧
    s.worker.held.length ≤ 1 ∧
    (s.submitted.Nodup → (handedTasks s.engine).Nodup) ∧
    (∀ action task, action.task = some task → s.world.wk_initialized_ = true →
      ∃ s', s.step env init_result action = some s' ∧
        s'.task_queue_ = s.task_queue_ ++ [task] ∧ s'.submitted = s.submitted ++ [task] ∧
        s'.engine = s.engine) := by
  obtain ⟨h1, h2, _⟩ := renderWorker_run_invariant env init_result actions
    (RenderWorker.started w) s h rfl rfl rfl
  have hp : handedTasks s.engine <+: s.submitted := ⟨s.task_queue_, h1.symm⟩
  refine ⟨h1, hp, h2, ?_, ?_, ?_, ?_⟩
  · exact List.IsPrefix.trans ⟨s.worker.held, h2.symm⟩ hp
  · cases s.worker <;> simp [WorkerPc.held]
  · intro hnd
    exact List.Nodup.sublist hp.sublist hnd
  · intro action task ht hinit
    cases action with
    | convertSync input_html_path output_pdf_path =>
      simp only [WrapperAction.task, Option.some.injEq] at ht
      subst ht
      refine ⟨{ s with
        task_queue_ := s.task_queue_ ++
          [{ input_path := input_html_path, output_path := output_pdf_path }]
        submitted := s.submitted ++
          [{ input_path := input_html_path, output_path := output_pdf_path }] },
        ?_, rfl, rfl, rfl⟩
      simp only [RenderWorker.step, hinit, Bool.not_true, Bool.false_eq_true, if_false]
    | convertAsync input_html_path output_pdf_path callback =>
      simp only [WrapperAction.task, Option.some.injEq] at ht
      subst ht
      refine ⟨{ s with
        task_queue_ := s.task_queue_ ++
          [{ input_path := input_html_path, output_path := output_pdf_path,
             callback := callback }]
        total_tasks_ := s.total_tasks_ + 1
        submitted := s.submitted ++
          [{ input_path := input_html_path, output_path := output_pdf_path,
             callback := callback }] },
        ?_, rfl, rfl, rfl⟩
      simp only [RenderWorker.step, hinit, Bool.not_true, Bool.false_eq_true, if_false]
    | shutdown => simp [WrapperAction.task] at ht
    | shutdownReturn wait_for_completion => simp [WrapperAction.task] at ht
    | worker => simp [WrapperAction.task] at ht

/-- Witness of C22: the run in which two tasks are pushed and the worker returns
after the first; the engine was handed the first task only. -/
theorem render_queue_fifo_witness :
    handedTasks [.init, .convert_begin firstTask, .convert_end firstTask true, .deinit] <+:
      [firstTask, secondTask] :=
  (render_queue_fifo exampleEnv 1 exampleWorld shutdownWhileConverting
    { world := { exampleWorld with wk_initialized_ := true }
      running_ := false
      task_queue_ := [secondTask]
      total_tasks_ := 0
      worker := .finished
      submitted := [firstTask, secondTask]
      engine := [.init, .convert_begin firstTask, .convert_end firstTask true, .deinit]
      completed := [(firstTask, true)] }
    rfl).2.1

/-- C23, evaluated where the code departs from it: two tasks are queued, the
worker takes the first, and the shutdown request arrives while the first is
being converted. The worker completes the first task, finds `running_` cleared
at the test of `while (running_)`, tears the engine down and returns with the
second task still in the queue: that task is never handed to the engine. When
the request arrives while the worker waits on the empty queue, the worker
returns with the queue empty. -/
theorem shutdown_while_converting_leaves_task :
    (RenderWorker.run exampleEnv 1 (shutdownWhileConverting.take 5)
        (RenderWorker.started exampleWorld)).map
          (fun s => (s.worker, s.task_queue_, s.running_)) =
      some (.converting firstTask, [secondTask], true) ∧
    (RenderWorker.run exampleEnv 1 shutdownWhileConverting
        (RenderWorker.started exampleWorld)).map
          (fun s => (s.worker, s.task_queue_, s.engine, s.completed)) =
      some (.finished, [secondTask],
        [.init, .convert_begin firstTask, .convert_end firstTask true, .deinit],
        [(firstTask, true)]) ∧
    (RenderWorker.run exampleEnv 1 (shutdownWhileConverting ++ [.worker])
        (RenderWorker.started exampleWorld)).isNone = true ∧
    (RenderWorker.run exampleEnv 1 (shutdownWhileWaiting.take 6)
        (RenderWorker.started exampleWorld)).map
          (fun s => (s.worker, s.task_queue_, s.running_)) =
      some (.waiting, [], true) ∧
    (RenderWorker.run exampleEnv 1 shutdownWhileWaiting
        (RenderWorker.started exampleWorld)).map
          (fun s => (s.worker, s.task_queue_, s.engine, s.completed)) =
      some (.finished, [],
        [.init, .convert_begin firstTask, .convert_end firstTask true, .deinit],
        [(firstTask, true)]) := by
  refine ⟨by decide, by decide, by decide, by decide, by decide⟩

theorem renderWorker_step_caller (env : Env) (init_result : Int) (s s' : RenderWorker)
    (action : WrapperAction) (ha : action ≠ .worker)
    (h : s.step env init_result action = some s') :
    s'.engine = s.engine ∧ s'.worker = s.worker ∧ s'.completed = s.completed := by
  cases action with
  | convertSync input_html_path output_pdf_path =>
    simp only [RenderWorker.step] at h
    split at h <;>
      (simp only [Option.some.injEq] at h
       subst h
       exact ⟨rfl, rfl, rfl⟩)
  | convertAsync input_html_path output_pdf_path callback =>
    simp only [RenderWorker.step] at h
    split at h <;>
      (simp only [Option.some.injEq] at h
       subst h
       exact ⟨rfl, rfl, rfl⟩)
  | shutdown =>
    simp only [RenderWorker.step] at h
    split at h <;>
      (simp only [Option.some.injEq] at h
       subst h
       exact ⟨rfl, rfl, rfl⟩)
  | shutdownReturn wait_for_completion =>
    simp only [RenderWorker.step] at h
    split at h
    · simp at h
    · simp only [Option.some.injEq] at h
      subst h
      exact ⟨rfl, rfl, rfl⟩
  | worker => exact absurd rfl ha

/-- C24: in every run of the wrapper after `initialize()`, with any number of
`convertSync` callers pushing tasks in any interleaving with the steps of the
worker, the number of conversions in flight on the engine (begun and not yet
returned) is 1 while the worker is inside `convertFile` and 0 otherwise, so
never more than 1; a step of a caller (`convertSync`, `convertAsync`,
`shutdown`) makes no call into the engine: it leaves the record of engine calls
and the position of the worker as they are. -/
theorem renders_one_at_a_time (env : Env) (init_result : Int) (w : World)
    (actions : List WrapperAction) (s : RenderWorker)
    (h : RenderWorker.run env init_result actions (RenderWorker.started w) = some s) :
    inFlight s.engine = (s.worker.held.length : Int) ∧
    0 ≤ inFlight s.engine ∧ inFlight s.engine ≤ 1 ∧
    (∀ action s', action ≠ .worker → s.step env init_result action = some s' →
      s'.engine = s.engine ∧ s'.worker = s.worker ∧ s'.completed = s.completed) := by
  obtain ⟨_, _, h3⟩ := renderWorker_run_invariant env init_result actions
    (RenderWorker.started w) s h rfl rfl rfl
  have hl : s.worker.held.length ≤ 1 := by
    cases s.worker <;> simp [WorkerPc.held]
  refine ⟨h3, by rw [h3]; omega, by rw [h3]; omega, ?_⟩
  intro action s' ha hs
  exact renderWorker_step_caller env init_result s s' action ha hs

/-- Witness of C24: three callers of `convertSync`; at the end of the run the
second task is in the engine and one conversion is in flight. -/
theorem renders_one_at_a_time_witness :
    inFlight [.init, .convert_begin firstTask, .convert_end firstTask true,
      .convert_begin secondTask] = 1 :=
  (renders_one_at_a_time exampleEnv 1 exampleWorld threeCallers
    { world := { exampleWorld with wk_initialized_ := true }
      running_ := true
      task_queue_ := [{ input_path := lit "/tmp/c.html", output_path := lit "/tmp/c.pdf" }]
      total_tasks_ := 0
      worker := .converting secondTask
      submitted := [firstTask, secondTask,
        { input_path := lit "/tmp/c.html", output_path := lit "/tmp/c.pdf" }]
      engine := [.init, .convert_begin firstTask, .convert_end firstTask true,
        .convert_begin secondTask]
      completed := [(firstTask, true)] }
    rfl).1

end DocSign
